import Mathlib

/-!
# Satellites plugin configuration dialog (SatellitesDialog.cpp)

A shallow embedding of the slots of `SatellitesDialog`: every widget the slots
touch is a field of a record, every slot is a function from dialog state to
dialog state.  The toolkit (Qt), the translator and the Satellites plugin are
not part of the file; what the dialog reads from them is state, what it asks
them to do is recorded in a trace and applied through parameters of `Env`.
-/

namespace Stellarium

/-! ## Toolkit values -/

/-- Check state of a checkbox or of a checkable list item (Qt::CheckState). -/
inductive CheckState where
  | Unchecked
  | PartiallyChecked
  | Checked
  deriving DecidableEq, Repr

/-- Item data roles used by the dialog (Qt::ItemDataRole). -/
inductive ItemDataRole where
  | CheckStateRole
  | UserRole
  deriving DecidableEq, Repr

/-- The payloads the dialog stores in and reads from item data (QVariant). -/
inductive QVariant where
  | invalid
  | string (s : String)
  | checkState (c : CheckState)
  deriving DecidableEq, Repr

/-- Conversion `QVariant::toString()`: an invalid variant gives the empty string,
an integer its decimal digits. -/
def QVariant.toString : QVariant → String
  | .invalid => ""
  | .string s => s
  | .checkState .Unchecked => "0"
  | .checkState .PartiallyChecked => "1"
  | .checkState .Checked => "2"

/-- Conversion to a check state, `static_cast<Qt::CheckState>(v.toInt())`:
everything that is not a stored check state converts to 0, `Unchecked`. -/
def QVariant.toCheckState : QVariant → CheckState
  | .checkState c => c
  | _ => .Unchecked

/-- Test `QVariant::isNull()`. -/
def QVariant.isNull : QVariant → Bool
  | .invalid => true
  | _ => false

/-- Test `QString::contains(needle)`: the needle occurs as a contiguous run. -/
def QString.contains (s needle : String) : Bool :=
  s.toList.tails.any fun t => needle.toList.isPrefixOf t

/-- Test `QString::startsWith`. -/
def QString.startsWith (s p : String) : Bool :=
  p.toList.isPrefixOf s.toList

/-- Edit `QString::remove(0, n)`. -/
def QString.remove0 (s : String) (n : Nat) : String :=
  String.mk (s.toList.drop n)

/-- Single-precision values are embedded as rationals (no NaN, no infinities). -/
abbrev QFloat := Rat

/-- The literal `0.7f`. -/
def f0_7 : QFloat := ⟨7, 10, by decide, by decide⟩

/-- Three-component float vector (Vec3f), used for colours. -/
structure Vec3f where
  v0 : QFloat
  v1 : QFloat
  v2 : QFloat
  deriving DecidableEq, Repr

/-- Colour value (QColor), kept as its three float components. -/
structure QColor where
  redF : QFloat
  greenF : QFloat
  blueF : QFloat
  deriving DecidableEq, Repr

/-- Constructor `QColor::fromRgbF(r, g, b)`. -/
def QColor.fromRgbF (r g b : QFloat) : QColor := ⟨r, g, b⟩

/-- Conversion `Vec3f::toQColor()`. -/
def Vec3f.toQColor (v : Vec3f) : QColor := QColor.fromRgbF v.v0 v.v1 v.v2

/-- Item flags (Qt::ItemFlags), one boolean per flag the dialog uses. -/
structure ItemFlags where
  ItemIsSelectable : Bool
  ItemIsEditable : Bool
  ItemIsDragEnabled : Bool
  ItemIsUserCheckable : Bool
  ItemIsEnabled : Bool
  ItemIsAutoTristate : Bool
  deriving DecidableEq, Repr

/-- Flags of a freshly constructed `QListWidgetItem`:
selectable, user-checkable, enabled and drag-enabled. -/
def ItemFlags.defaultItem : ItemFlags :=
  { ItemIsSelectable := true, ItemIsEditable := false, ItemIsDragEnabled := true,
    ItemIsUserCheckable := true, ItemIsEnabled := true, ItemIsAutoTristate := false }

/-- One row of a `QListWidget`. -/
structure QListWidgetItem where
  text : String
  toolTip : String
  userRole : QVariant
  checkStateRole : QVariant
  flags : ItemFlags
  italic : Bool
  selected : Bool
  deriving DecidableEq, Repr

/-- Constructor `new QListWidgetItem(text)`. -/
def QListWidgetItem.new (text : String) : QListWidgetItem :=
  { text := text, toolTip := "", userRole := .invalid, checkStateRole := .invalid,
    flags := ItemFlags.defaultItem, italic := false, selected := false }

/-- Getter `item->data(role)`. -/
def QListWidgetItem.data (it : QListWidgetItem) : ItemDataRole → QVariant
  | .CheckStateRole => it.checkStateRole
  | .UserRole => it.userRole

/-- Setter `item->setData(role, value)`. -/
def QListWidgetItem.setData (it : QListWidgetItem) (role : ItemDataRole) (v : QVariant) :
    QListWidgetItem :=
  match role with
  | .CheckStateRole => { it with checkStateRole := v }
  | .UserRole => { it with userRole := v }

/-- Getter `item->checkState()`. -/
def QListWidgetItem.checkState (it : QListWidgetItem) : CheckState :=
  it.checkStateRole.toCheckState

/-- Tri-state check box (QCheckBox). -/
structure QCheckBox where
  enabled : Bool
  checkState : CheckState
  signalsBlocked : Bool
  deriving DecidableEq, Repr

/-- Getter `QAbstractButton::isChecked()`: the button is "checked" in every
state other than `Unchecked`, so a partially checked box reports true. -/
def QCheckBox.isChecked (c : QCheckBox) : Bool :=
  c.checkState != CheckState.Unchecked

/-- Setter `setChecked(b)`: leaves the box fully checked or unchecked. -/
def QCheckBox.setChecked (c : QCheckBox) (b : Bool) : QCheckBox :=
  { c with checkState := if b then CheckState.Checked else CheckState.Unchecked }

/-- Setter `setCheckState(s)`. -/
def QCheckBox.setCheckState (c : QCheckBox) (s : CheckState) : QCheckBox :=
  { c with checkState := s }

/-- Setter `setEnabled(b)` of a check box. -/
def QCheckBox.setEnabled (c : QCheckBox) (b : Bool) : QCheckBox :=
  { c with enabled := b }

/-- Setter `blockSignals(b)` of a check box. -/
def QCheckBox.blockSignals (c : QCheckBox) (b : Bool) : QCheckBox :=
  { c with signalsBlocked := b }

/-- Text field (QLineEdit, QTextEdit). -/
structure QLineEdit where
  enabled : Bool
  text : String
  signalsBlocked : Bool
  deriving DecidableEq, Repr

/-- Setter `setText(s)` of a text field. -/
def QLineEdit.setText (e : QLineEdit) (s : String) : QLineEdit := { e with text := s }

/-- Setter `setEnabled(b)` of a text field. -/
def QLineEdit.setEnabled (e : QLineEdit) (b : Bool) : QLineEdit := { e with enabled := b }

/-- Setter `blockSignals(b)` of a text field. -/
def QLineEdit.blockSignals (e : QLineEdit) (b : Bool) : QLineEdit :=
  { e with signalsBlocked := b }

/-- Push or tool button: enabled state, caption and style sheet. -/
structure QButton where
  enabled : Bool
  text : String
  styleSheet : String
  deriving DecidableEq, Repr

/-- Setter `setEnabled(b)` of a button. -/
def QButton.setEnabled (b : QButton) (e : Bool) : QButton := { b with enabled := e }

/-- Setter `setText(s)` of a button. -/
def QButton.setText (b : QButton) (s : String) : QButton := { b with text := s }

/-- Setter `setStyleSheet(s)` of a button. -/
def QButton.setStyleSheet (b : QButton) (s : String) : QButton := { b with styleSheet := s }

/-- List widget (QListWidget): its items in row order and the current row. -/
structure QListWidget where
  enabled : Bool
  items : List QListWidgetItem
  currentRow : Option Nat
  signalsBlocked : Bool
  deriving DecidableEq, Repr

/-- One entry of a combo box: display text and user data. -/
structure QComboItem where
  text : String
  data : QVariant
  deriving DecidableEq, Repr

/-- Combo box (QComboBox); `currentIndex` is -1 when nothing is current. -/
structure QComboBox where
  items : List QComboItem
  currentIndex : Int
  signalsBlocked : Bool
  deriving DecidableEq, Repr

/-! ## The plugin as the dialog sees it -/

/-- Set of group names (GroupSet, a `QSet<QString>`), kept as the list of its
members; the order of the list stands for the unspecified iteration order. -/
abbrev GroupSet := List String

/-- Test `QSet::contains`. -/
def GroupSet.contains (s : GroupSet) (g : String) : Bool := decide (g ∈ s)

/-- Edit `QSet::insert`. -/
def GroupSet.insert (s : GroupSet) (g : String) : GroupSet :=
  if g ∈ s then s else s ++ [g]

/-- Edit `QSet::unite`: every member of `other` is inserted. -/
def GroupSet.unite (s other : GroupSet) : GroupSet :=
  other.foldl GroupSet.insert s

/-- Edit `QSet::intersect`: members that are not in `other` are removed. -/
def GroupSet.intersect (s other : GroupSet) : GroupSet :=
  s.filter fun g => GroupSet.contains other g

/-- Edit `QSet::subtract`: members that are in `other` are removed. -/
def GroupSet.subtract (s other : GroupSet) : GroupSet :=
  s.filter fun g => !GroupSet.contains other g

/-- Edit `QSet::remove`: the set without `g` (the call itself reports whether
`g` was a member, which is `GroupSet.contains`). -/
def GroupSet.remove (s : GroupSet) (g : String) : GroupSet :=
  s.filter fun x => x != g

/-- Flag word of a satellite (SatFlags, a `QFlags<SatFlag>` over a 32-bit int). -/
abbrev SatFlags := Nat

/-- Enumerators of `SatFlag`.  The enumeration is declared in the plugin, not
in the dialog, so the values are parameters of the embedding. -/
structure SatFlag where
  SatNoFlags : Nat
  SatDisplayed : Nat
  SatNotDisplayed : Nat
  SatUser : Nat
  SatOrbit : Nat
  SatNew : Nat
  SatError : Nat
  SatReentry : Nat
  SatSmallSize : Nat
  SatMediumSize : Nat
  SatLargeSize : Nat
  SatLEO : Nat
  SatGSO : Nat
  SatMEO : Nat
  SatHEO : Nat
  SatHGSO : Nat
  SatPolarOrbit : Nat
  SatEquatOrbit : Nat
  SatPSSO : Nat
  SatHEarthO : Nat
  SatOutdatedTLE : Nat
  SatCustomFilter : Nat
  SatCommunication : Nat
  SatActiveOS : Nat
  SatOperationalOS : Nat
  SatNonoperationalOS : Nat
  SatPartiallyOperationalOS : Nat
  SatStandbyOS : Nat
  SatSpareOS : Nat
  SatExtendedMissionOS : Nat
  SatDecayedOS : Nat
  deriving DecidableEq, Repr

/-- Test `QFlags::testFlag(flag)`: all bits of `flag` are set, and a zero
`flag` is reported only for an empty flag word. -/
def testFlag (flags : SatFlags) (flag : Nat) : Bool :=
  (flags &&& flag) == flag && (flag != 0 || flags == 0)

/-- Statement `flags |= flag`. -/
def orFlag (flags : SatFlags) (flag : Nat) : SatFlags := flags ||| flag

/-- Statement `flags &= ~flag` on a 32-bit flag word. -/
def clearFlag (flags : SatFlags) (flag : Nat) : SatFlags :=
  flags &&& (0xFFFFFFFF ^^^ flag)

/-- Data of one row of the satellites list model, one field per item role. -/
structure SatRow where
  id : String
  name : String
  description : String
  cosparID : String
  stdMagnitude : QFloat
  rcs : QFloat
  perigee : QFloat
  apogee : QFloat
  period : QFloat
  firstLine : String
  secondLine : String
  tleEpoch : String
  flags : SatFlags
  groups : GroupSet
  deriving DecidableEq, Repr

/-- What `data(role)` converts to for an invalid index: empty strings, zeros,
no flags and no groups. -/
def SatRow.invalid : SatRow :=
  { id := "", name := "", description := "", cosparID := "", stdMagnitude := 0, rcs := 0,
    perigee := 0, apogee := 0, period := 0, firstLine := "", secondLine := "",
    tleEpoch := "", flags := 0, groups := [] }

/-- The members of a satellite object that the dialog reads through `getById`. -/
structure Satellite where
  hintColor : Vec3f
  orbitColor : Vec3f
  infoColor : Vec3f
  deriving DecidableEq, Repr

/-- Update state of the plugin (Satellites::UpdateState). -/
inductive UpdateState where
  | Updating
  | CompleteNoUpdates
  | CompleteUpdates
  | DownloadError
  | OtherError
  deriving DecidableEq, Repr

/-- One entry of a `TleDataList`; the dialog reads only the id. -/
structure TleData where
  id : String
  name : String
  first : String
  second : String
  deriving DecidableEq, Repr

/-- State of the Satellites plugin as far as the dialog reads it.  The four
`flag...` properties are the ones shown by `labelsCheckBox`,
`orbitLinesCheckBox`, `umbraCheckBox` and `iconicCheckBox`, which are bound to
them with `connectBoolProperty`. -/
structure Satellites where
  updatesEnabled : Bool
  autoAddEnabled : Bool
  updateState : UpdateState
  secondsToUpdate : Int
  lastUpdate : Nat
  tleSources : List String
  groups : GroupSet
  groupIdList : List String
  flagLabelsVisible : Bool
  flagOrbitLines : Bool
  flagUmbraVisible : Bool
  flagIconicMode : Bool
  getById : String → Satellite

/-- What the dialog asks of the outside world: operations of the plugin
(`saveCatalog` to `addGroup`), the signal it emits on behalf of the plugin,
and the modal dialogs it shows to the user. -/
inductive Effect where
  | saveCatalog
  | remove (idList : List String)
  | add (newSatellites : List TleData)
  | setTleSources (allSources : List String)
  | restoreDefaults
  | loadSettings
  | restoreDefaultTleSources
  | updateFromOnlineSources
  | updateFromFiles (updateFiles : List String) (deleteBefore : Bool)
  | addGroup (groupId : String)
  | satSelectionChanged (id : String)
  | warning (title : String) (text : String)
  | getOpenFileNames (caption : String)
  deriving DecidableEq, Repr

/-- Scroll hints used by the dialog (QAbstractItemView::ScrollHint). -/
inductive ScrollHint where
  | EnsureVisible
  | PositionAtTop
  deriving DecidableEq, Repr

/-- The last scroll request made to a view: none yet, `scrollTo(index, hint)`
for the index of a row, or `scrollToTop()`. -/
inductive ScrollRequest where
  | none
  | scrollTo (row : Nat) (hint : ScrollHint)
  | scrollToTop
  deriving DecidableEq, Repr

/-! ## The dialog -/

/-- Getter `QComboBox::itemData(index)`; an index outside the box gives an
invalid variant. -/
def QComboBox.itemData (c : QComboBox) (index : Int) : QVariant :=
  if 0 ≤ index then
    match c.items.get? index.toNat with
    | some it => it.data
    | none => QVariant.invalid
  else QVariant.invalid

/-- Getter `QComboBox::findData(data)`: the first index whose user data is
`data`, or -1. -/
def QComboBox.findData (c : QComboBox) (data : QVariant) : Int :=
  match c.items.findIdx? fun it => it.data = data with
  | some i => (i : Int)
  | none => -1

/-- The satellites list view: the rows of its model (the filter model over the
plugin's list model) and the selected rows in the order in which
`selectedIndexes()` and `selectedRows()` report them. -/
structure QListView where
  rows : List SatRow
  selection : List Nat
  currentIndex : Option Nat
  scroll : ScrollRequest
  deriving DecidableEq, Repr

/-- The secondary filter of the list filter model: a group and a flag, as
passed to `setSecondaryFilters`. -/
structure SecondaryFilters where
  group : String
  flag : Nat
  deriving DecidableEq, Repr

/-- What the list filter model shows after its secondary filter has been set
to `group` and `flag`: the rows that pass and what is left of the selection.
Which rows pass is decided in SatellitesListFilterModel, outside the file, so
it is a parameter of the embedding. -/
abbrev FilterRows := String → Nat → Satellites → QListView → QListView

/-- Everything outside the file that the slots depend on: the translator, the
toolkit functions whose result is not computed here, the enumerators of
`SatFlag`, the reaction of the plugin to each request, and the rows that the
list filter model lets pass. -/
structure Env where
  q_ : String → String
  qc_ : String → String → String
  trimmed : String → String
  urlIsValid : String → Bool
  number : Int → String
  numberF : QFloat → Nat → String
  qRound : QFloat → Int
  colorName : QColor → String
  sortItems : List QListWidgetItem → List QListWidgetItem
  sortCombo : List QComboItem → List QComboItem
  flag : SatFlag
  exec : Effect → Satellites → Satellites
  filterRows : FilterRows

/-- The widgets of `Ui_satellitesDialog` that the slots read or write. -/
structure Ui where
  removeSatellitesButton : QButton
  commSatelliteButton : QButton
  displayedCheckbox : QCheckBox
  orbitCheckbox : QCheckBox
  userCheckBox : QCheckBox
  nameEdit : QLineEdit
  noradNumberEdit : QLineEdit
  cosparNumberEdit : QLineEdit
  descriptionTextEdit : QLineEdit
  tleFirstLineEdit : QLineEdit
  tleSecondLineEdit : QLineEdit
  stdMagnitudeLineEdit : QLineEdit
  rcsLineEdit : QLineEdit
  perigeeLineEdit : QLineEdit
  apogeeLineEdit : QLineEdit
  periodLineEdit : QLineEdit
  labelTleEpochData : String
  groupsListWidget : QListWidget
  satMarkerColorPickerButton : QButton
  satOrbitColorPickerButton : QButton
  satInfoColorPickerButton : QButton
  satellitesList : QListView
  sourceList : QListWidget
  sourceEdit : QLineEdit
  addSourceButton : QButton
  editSourceButton : QButton
  deleteSourceButton : QButton
  saveSourceButton : QButton
  updateButton : QButton
  nextUpdateLabel : String
  lastUpdateDateTimeEdit : Nat
  groupFilterCombo : QComboBox
  customFilterButton : QButton
  fontSizeSpinBox : Bool
  orbitSegmentsSpin : Bool
  orbitFadeSpin : Bool
  orbitDurationSpin : Bool
  orbitThicknessSpin : Bool
  umbraAtAltitude : Bool
  umbraAltitude : Bool
  penumbraCheckBox : Bool
  hideInvisibleSatellites : Bool
  deriving DecidableEq, Repr

/-- The dialog object: its widgets, its own members, the plugin it talks to
and the trace of what it has asked of the outside world so far. -/
structure SatellitesDialog where
  ui : Ui
  satelliteModified : Bool
  checkStateRole : ItemDataRole
  buttonMarkerColor : QColor
  buttonOrbitColor : QColor
  buttonInfoColor : QColor
  filterModel : SecondaryFilters
  plugin : Satellites
  trace : List Effect

namespace SatellitesDialog

/-- A request to the plugin: it is appended to the trace and the plugin
reacts to it as `env.exec` says. -/
def call (env : Env) (e : Effect) (d : SatellitesDialog) : SatellitesDialog :=
  { d with plugin := env.exec e d.plugin, trace := d.trace ++ [e] }

/-- A modal dialog shown to the user (message box, file dialog): it is
appended to the trace. -/
def modal (e : Effect) (d : SatellitesDialog) : SatellitesDialog :=
  { d with trace := d.trace ++ [e] }

/-- Getter `index.data(role)` for the index of row `i`; an index outside the
model is invalid and yields default-constructed values. -/
def rowData (d : SatellitesDialog) (i : Nat) : SatRow :=
  d.ui.satellitesList.rows.getD i SatRow.invalid

/-- Modelled from the spec: `setData` of the satellites list model, which is
declared in SatellitesListModel.hpp and not part of this file, is taken to
store the value in the row the index points to and to leave every other row
alone; an invalid index changes nothing. -/
def setRow (d : SatellitesDialog) (i : Nat) (r : SatRow) : SatellitesDialog :=
  { d with ui := { d.ui with satellitesList :=
      { d.ui.satellitesList with rows := d.ui.satellitesList.rows.set i r } } }

/-- Slot `saveSatellites`. -/
def saveSatellites (env : Env) (d : SatellitesDialog) : SatellitesDialog :=
  call env Effect.saveCatalog d

/-- The body of the loop of `setFlags` for one selected index. -/
def setFlagsRow (env : Env) (d : SatellitesDialog) (index : Nat) : SatellitesDialog :=
  let flags := (rowData d index).flags
  let flags :=
    if d.ui.displayedCheckbox.isChecked then orFlag flags env.flag.SatDisplayed
    else if d.ui.displayedCheckbox.checkState = CheckState.Unchecked then
      clearFlag flags env.flag.SatDisplayed
    else flags
  let flags :=
    if d.ui.orbitCheckbox.isChecked then orFlag flags env.flag.SatOrbit
    else if d.ui.orbitCheckbox.checkState = CheckState.Unchecked then
      clearFlag flags env.flag.SatOrbit
    else flags
  let flags :=
    if d.ui.userCheckBox.isChecked then orFlag flags env.flag.SatUser
    else if d.ui.userCheckBox.checkState = CheckState.Unchecked then
      clearFlag flags env.flag.SatUser
    else flags
  setRow d index { rowData d index with flags := flags }

/-- Slot `setFlags`: the flags of every selected row are rewritten from the
three check boxes, then the catalogue is saved. -/
def setFlags (env : Env) (d : SatellitesDialog) : SatellitesDialog :=
  let selection := d.ui.satellitesList.selection
  saveSatellites env (selection.foldl (setFlagsRow env) d)

/-- The first loop of `setGroups`: the groups of the checked items are to be
added, those of the unchecked items removed; editable items are skipped. -/
def groupsToAddRemove (items : List QListWidgetItem) : GroupSet × GroupSet :=
  items.foldl
    (fun acc item =>
      if item.flags.ItemIsEditable then acc
      else if item.checkState = CheckState.Checked then
        (GroupSet.insert acc.1 item.userRole.toString, acc.2)
      else if item.checkState = CheckState.Unchecked then
        (acc.1, GroupSet.insert acc.2 item.userRole.toString)
      else acc)
    ([], [])

/-- The body of the second loop of `setGroups` for one selected index. -/
def setGroupsRow (groupsToAdd groupsToRemove : GroupSet) (d : SatellitesDialog)
    (index : Nat) : SatellitesDialog :=
  let groups := (rowData d index).groups
  let groups := GroupSet.subtract groups groupsToRemove
  let groups := GroupSet.unite groups groupsToAdd
  setRow d index { rowData d index with groups := groups }

/-- Slot `setGroups`. -/
def setGroups (env : Env) (d : SatellitesDialog) : SatellitesDialog :=
  let selection := d.ui.satellitesList.selection
  if selection.isEmpty then d
  else
    let ar := groupsToAddRemove d.ui.groupsListWidget.items
    saveSatellites env (selection.foldl (setGroupsRow ar.1 ar.2) d)

/-! ### Sources tab -/

/-- Slot `updateButtonsProperties`. -/
def updateButtonsProperties (d : SatellitesDialog) : SatellitesDialog :=
  { d with ui := { d.ui with
      addSourceButton := d.ui.addSourceButton.setEnabled true
      editSourceButton := d.ui.editSourceButton.setEnabled true
      deleteSourceButton := d.ui.deleteSourceButton.setEnabled true
      saveSourceButton := d.ui.saveSourceButton.setEnabled false
      sourceEdit := (d.ui.sourceEdit.setEnabled false).setText "" } }

/-- Slot `saveSourceList`: every source, prefixed with "1," when its item is
checked, is handed to the plugin. -/
def saveSourceList (env : Env) (d : SatellitesDialog) : SatellitesDialog :=
  let allSources := d.ui.sourceList.items.map fun item =>
    if item.data d.checkStateRole = QVariant.checkState CheckState.Checked then
      "1," ++ item.text
    else item.text
  call env (Effect.setTleSources allSources) d

/-- Signal `itemChanged` of the source list, connected to `saveSourceList`;
a widget that blocks its signals delivers nothing. -/
def sourceItemChanged (env : Env) (d : SatellitesDialog) : SatellitesDialog :=
  if d.ui.sourceList.signalsBlocked then d else saveSourceList env d

/-- Signal `currentRowChanged` of the source list, connected to
`updateButtonsProperties`. -/
def sourceCurrentRowChanged (d : SatellitesDialog) : SatellitesDialog :=
  if d.ui.sourceList.signalsBlocked then d else updateButtonsProperties d

/-- Getter `ui->sourceList->currentItem()`, as the row of the item. -/
def currentSourceRow (d : SatellitesDialog) : Option Nat :=
  match d.ui.sourceList.currentRow with
  | some i => if i < d.ui.sourceList.items.length then some i else none
  | none => none

/-- Replaces the source list widget. -/
def setSourceList (d : SatellitesDialog) (l : QListWidget) : SatellitesDialog :=
  { d with ui := { d.ui with sourceList := l } }

/-- Slot `saveEditedSource`.  A text that is empty after trimming, or is not a
valid URL, or has no "://", is reported in a message box and nothing else
happens.  Otherwise the current item takes the text, or, when there is no
current item and no item has this text yet, a new unchecked item is appended
and made current. -/
def saveEditedSource (env : Env) (d : SatellitesDialog) : SatellitesDialog :=
  let u := env.trimmed d.ui.sourceEdit.text
  if u.isEmpty || u == "" then
    modal (Effect.warning (env.q_ "Warning!") (env.q_ "Empty string - not saving")) d
  else if !env.urlIsValid u || !QString.contains u "://" then
    modal (Effect.warning (env.q_ "Warning!") (env.q_ "Invalid URL - not saving")) d
  else
    let d :=
      match currentSourceRow d with
      | some i =>
        let old := d.ui.sourceList.items.getD i (QListWidgetItem.new "")
        let d := setSourceList d { d.ui.sourceList with
          items := d.ui.sourceList.items.set i { old with text := u } }
        if old.text = u then d else sourceItemChanged env d
      | none =>
        if (d.ui.sourceList.items.filter fun it => it.text = u).length ≤ 0 then
          let i := QListWidgetItem.new u
          let d := setSourceList d { d.ui.sourceList with
            items := d.ui.sourceList.items ++ [i] }
          let row := d.ui.sourceList.items.length - 1
          let i := i.setData d.checkStateRole (QVariant.checkState CheckState.Unchecked)
          let d := setSourceList d { d.ui.sourceList with
            items := d.ui.sourceList.items.set row i }
          let d := sourceItemChanged env d
          let i := { i with selected := true }
          let d := setSourceList d { d.ui.sourceList with
            items := d.ui.sourceList.items.set row i }
          let d := setSourceList d { d.ui.sourceList with currentRow := some row }
          sourceCurrentRowChanged d
        else d
    let d := updateButtonsProperties d
    { d with ui := { d.ui with sourceEdit := d.ui.sourceEdit.setText "" } }

/-- Statement `delete ui->sourceList->currentItem()`: the item leaves the list
and the row after it (or, failing that, before it) becomes current. -/
def deleteCurrentSource (d : SatellitesDialog) : SatellitesDialog :=
  match currentSourceRow d with
  | some i =>
    let items := d.ui.sourceList.items.eraseIdx i
    let current :=
      if items.isEmpty then none
      else if i < items.length then some i
      else some (i - 1)
    sourceCurrentRowChanged
      (setSourceList d { d.ui.sourceList with items := items, currentRow := current })
  | none => d

/-- Slot `deleteSourceRow`; `confirmed` is the answer of `askConfirmation()`. -/
def deleteSourceRow (env : Env) (confirmed : Bool) (d : SatellitesDialog) :
    SatellitesDialog :=
  if confirmed then
    let d := { d with ui := { d.ui with sourceEdit := d.ui.sourceEdit.setText "" } }
    let d := deleteCurrentSource d
    let d := updateButtonsProperties d
    saveSourceList env d
  else d

/-- The body of the loop of `populateSourcesList` for one stored source. -/
def sourceItemOf (role : ItemDataRole) (url : String) : QListWidgetItem :=
  let checked := QString.startsWith url "1,"
  let url :=
    if QString.startsWith url "1," then QString.remove0 url 2
    else if QString.startsWith url "0," then QString.remove0 url 2
    else url
  (QListWidgetItem.new url).setData role
    (QVariant.checkState (if checked then CheckState.Checked else CheckState.Unchecked))

/-- Slot `populateSourcesList`: the list is rebuilt from the sources of the
plugin with signals blocked. -/
def populateSourcesList (d : SatellitesDialog) : SatellitesDialog :=
  let urls := d.plugin.tleSources
  let role :=
    if d.plugin.autoAddEnabled then ItemDataRole.CheckStateRole else ItemDataRole.UserRole
  let d := { d with checkStateRole := role }
  setSourceList d { d.ui.sourceList with
    items := urls.map (sourceItemOf role), currentRow := none, signalsBlocked := false }

/-! ### Settings tab -/

/-- Slot `updateCountdown`: the text of the label below the update button. -/
def updateCountdown (env : Env) (d : SatellitesDialog) : SatellitesDialog :=
  let nextUpdate := env.q_ "Next update"
  let updatesEnabled := d.plugin.updatesEnabled
  let text :=
    if !updatesEnabled then env.q_ "Internet updates disabled"
    else if d.plugin.updateState = UpdateState.Updating then env.q_ "Updating now..."
    else
      let secondsToUpdate := d.plugin.secondsToUpdate
      if secondsToUpdate ≤ 60 then nextUpdate ++ ": " ++ env.q_ "< 1 minute"
      else if secondsToUpdate < 3600 then
        let n := Int.tdiv secondsToUpdate 60 + 1
        nextUpdate ++ ": " ++ env.number n ++ " " ++ env.qc_ "m" "time"
      else
        let n := Int.tdiv secondsToUpdate 3600 + 1
        nextUpdate ++ ": " ++ env.number n ++ " " ++ env.qc_ "h" "time"
  { d with ui := { d.ui with nextUpdateLabel := text } }

/-- Slot `updateSettingsPage`. -/
def updateSettingsPage (env : Env) (d : SatellitesDialog) : SatellitesDialog :=
  let updatesEnabled := d.plugin.updatesEnabled
  let updateButton :=
    if updatesEnabled then d.ui.updateButton.setText (env.q_ "Update now")
    else d.ui.updateButton.setText (env.q_ "Update from files")
  let d := { d with ui := { d.ui with updateButton := updateButton } }
  let d := { d with ui := { d.ui with lastUpdateDateTimeEdit := d.plugin.lastUpdate } }
  updateCountdown env d

/-- The special groups of the filter menu in the order of their `insertItem`
statements; each is inserted at row 0, so the last one ends first. -/
def specialFilterItems (env : Env) : List QComboItem :=
  [ ⟨env.q_ "[orbit calculation error]", .string "[orbiterror]"⟩,
    ⟨env.q_ "[atmospheric entry]", .string "[reentry]"⟩,
    ⟨env.q_ "[all newly added]", .string "[newlyadded]"⟩,
    ⟨env.q_ "[all not displayed]", .string "[undisplayed]"⟩,
    ⟨env.q_ "[all displayed]", .string "[displayed]"⟩,
    ⟨env.q_ "[all communications]", .string "[communication]"⟩,
    ⟨env.q_ "[small satellites]", .string "[smallsize]"⟩,
    ⟨env.q_ "[medium satellites]", .string "[mediumsize]"⟩,
    ⟨env.q_ "[large satellites]", .string "[largesize]"⟩,
    ⟨env.q_ "[LEO satellites]", .string "[LEO]"⟩,
    ⟨env.q_ "[GEO/GSO satellites]", .string "[GSO]"⟩,
    ⟨env.q_ "[MEO satellites]", .string "[MEO]"⟩,
    ⟨env.q_ "[HEO satellites]", .string "[HEO]"⟩,
    ⟨env.q_ "[HGSO satellites]", .string "[HGSO]"⟩,
    ⟨env.q_ "[polar orbit satellites]", .string "[polarorbit]"⟩,
    ⟨env.q_ "[equatorial orbit satellites]", .string "[equatorialorbit]"⟩,
    ⟨env.q_ "[PSSO satellites]", .string "[PSSO]"⟩,
    ⟨env.q_ "[HEO/E satellites]", .string "[HEarthO]"⟩,
    ⟨env.q_ "[outdated TLE]", .string "[outdatedTLE]"⟩,
    ⟨env.q_ "[custom filter]", .string "[custom]"⟩,
    ⟨env.q_ "[all user defined]", .string "[userdefined]"⟩,
    ⟨env.q_ "[active satellites]", .string "[activeOS]"⟩,
    ⟨env.q_ "[operational satellites]", .string "[operationalOS]"⟩,
    ⟨env.q_ "[non-operational satellites]", .string "[nonopOS]"⟩,
    ⟨env.q_ "[partially operational satellites]", .string "[partiallyopOS]"⟩,
    ⟨env.q_ "[backup / standby satellites]", .string "[standbyOS]"⟩,
    ⟨env.q_ "[spare satellites]", .string "[spareOS]"⟩,
    ⟨env.q_ "[extended mission]", .string "[extmissionOS]"⟩,
    ⟨env.q_ "[decayed satellites]", .string "[decayedOS]"⟩,
    ⟨env.q_ "[all]", .string "all"⟩ ]

/-- Slot `handleOrbitLinesGroup`. -/
def handleOrbitLinesGroup (state : Bool) (d : SatellitesDialog) : SatellitesDialog :=
  { d with ui := { d.ui with
      orbitSegmentsSpin := state
      orbitFadeSpin := state
      orbitDurationSpin := state
      orbitThicknessSpin := state } }

/-- Slot `handleUmbraGroup`. -/
def handleUmbraGroup (state : Bool) (d : SatellitesDialog) : SatellitesDialog :=
  { d with ui := { d.ui with
      umbraAtAltitude := state
      umbraAltitude := state
      penumbraCheckBox := state } }

/-- Slot `restoreTleSources`; `confirmed` is the answer of `askConfirmation()`. -/
def restoreTleSources (env : Env) (confirmed : Bool) (d : SatellitesDialog) :
    SatellitesDialog :=
  if confirmed then
    let d := call env Effect.restoreDefaultTleSources d
    let d := call env Effect.loadSettings d
    populateSourcesList d
  else d

/-- Slot `updateTLEs`; `updateFiles` is what the file dialog returns when it is
opened. -/
def updateTLEs (env : Env) (updateFiles : List String) (d : SatellitesDialog) :
    SatellitesDialog :=
  if d.plugin.updatesEnabled then
    call env Effect.updateFromOnlineSources d
  else
    let d := modal (Effect.getOpenFileNames (env.q_ "Select TLE Update File")) d
    call env (Effect.updateFromFiles updateFiles false) d

/-! ### Satellites tab -/

/-- Slot `removeSatellites`; `confirmed` is the answer of `askConfirmation()`. -/
def removeSatellites (env : Env) (confirmed : Bool) (d : SatellitesDialog) :
    SatellitesDialog :=
  if confirmed then
    let idList := d.ui.satellitesList.selection.map fun index => (rowData d index).id
    if !idList.isEmpty then
      let d := call env (Effect.remove idList) d
      saveSatellites env d
    else d
  else d

/-- Slot `setRightSideToRWMode`: the widgets of the right side are enabled. -/
def setRightSideToRWMode (d : SatellitesDialog) : SatellitesDialog :=
  { d with ui := { d.ui with
      displayedCheckbox := d.ui.displayedCheckbox.setEnabled true
      orbitCheckbox := d.ui.orbitCheckbox.setEnabled true
      userCheckBox := d.ui.userCheckBox.setEnabled true
      nameEdit := d.ui.nameEdit.setEnabled true
      noradNumberEdit := d.ui.noradNumberEdit.setEnabled true
      cosparNumberEdit := d.ui.cosparNumberEdit.setEnabled true
      descriptionTextEdit := d.ui.descriptionTextEdit.setEnabled true
      groupsListWidget := { d.ui.groupsListWidget with enabled := true }
      tleFirstLineEdit := d.ui.tleFirstLineEdit.setEnabled true
      tleSecondLineEdit := d.ui.tleSecondLineEdit.setEnabled true
      stdMagnitudeLineEdit := d.ui.stdMagnitudeLineEdit.setEnabled true
      rcsLineEdit := d.ui.rcsLineEdit.setEnabled true
      removeSatellitesButton := d.ui.removeSatellitesButton.setEnabled true
      commSatelliteButton := d.ui.commSatelliteButton.setEnabled true
      perigeeLineEdit := d.ui.perigeeLineEdit.setEnabled true
      apogeeLineEdit := d.ui.apogeeLineEdit.setEnabled true
      periodLineEdit := d.ui.periodLineEdit.setEnabled true } }

/-- Slot `enableSatelliteDataForm`: blocks or releases the signals of the
three check boxes and of the description field. -/
def enableSatelliteDataForm (enabled : Bool) (d : SatellitesDialog) : SatellitesDialog :=
  { d with ui := { d.ui with
      displayedCheckbox := d.ui.displayedCheckbox.blockSignals (!enabled)
      orbitCheckbox := d.ui.orbitCheckbox.blockSignals (!enabled)
      userCheckBox := d.ui.userCheckBox.blockSignals (!enabled)
      descriptionTextEdit := d.ui.descriptionTextEdit.blockSignals (!enabled) } }

/-- The item that `addSpecialGroupItem` creates: enabled, editable and
selectable, in italics, with no user data and no check state. -/
def specialGroupItem (env : Env) : QListWidgetItem :=
  let item := QListWidgetItem.new (env.q_ "New group...")
  let item := { item with flags :=
    { ItemIsSelectable := true, ItemIsEditable := true, ItemIsDragEnabled := false,
      ItemIsUserCheckable := false, ItemIsEnabled := true, ItemIsAutoTristate := false } }
  { item with italic := true }

/-- Slot `addSpecialGroupItem`: the "New group..." item is inserted at row 0. -/
def addSpecialGroupItem (env : Env) (d : SatellitesDialog) : SatellitesDialog :=
  { d with ui := { d.ui with groupsListWidget := { d.ui.groupsListWidget with
      items := specialGroupItem env :: d.ui.groupsListWidget.items } } }

/-- The grey that stands for "no common colour", `Vec3f(0.7f, 0.7f, 0.7f)`. -/
def grey : Vec3f := ⟨f0_7, f0_7, f0_7⟩

/-- The loop over the selection from its second index on that compares the
colours of each satellite with those of the first; the first difference turns
all three colours grey and ends the loop. -/
def colorLoop (d : SatellitesDialog) (mColor oColor iColor : Vec3f) :
    List Nat → Vec3f × Vec3f × Vec3f
  | [] => (mColor, oColor, iColor)
  | idx :: rest =>
    let id := (rowData d idx).id
    let sat := d.plugin.getById id
    if sat.hintColor != mColor || sat.orbitColor != oColor || sat.infoColor != iColor then
      (grey, grey, grey)
    else colorLoop d mColor oColor iColor rest

/-- The loop over the selection from its second index on that compares each
description with the first; the first difference clears the text and ends the
loop. -/
def descLoop (d : SatellitesDialog) (descText : String) : List Nat → String
  | [] => descText
  | idx :: rest =>
    if descText != (rowData d idx).description then ""
    else descLoop d descText rest

/-- One of the three identical blocks of the cumulative loop: what a check
box becomes when index `i` of the selection has (`flagSet`) or has not the
flag of the box. -/
def triState (i : Nat) (flagSet : Bool) (box : QCheckBox) : QCheckBox :=
  if flagSet then
    if !box.isChecked then
      if i = 0 then box.setChecked true
      else box.setCheckState CheckState.PartiallyChecked
    else box
  else
    if box.isChecked then box.setCheckState CheckState.PartiallyChecked
    else box

/-- What the cumulative loop of `updateSatelliteData` accumulates. -/
structure Cumulative where
  displayedCheckbox : QCheckBox
  orbitCheckbox : QCheckBox
  userCheckBox : QCheckBox
  groupsUsedBySome : GroupSet
  groupsUsedByAll : GroupSet
  deriving DecidableEq, Repr

/-- The body of the cumulative loop for index `i` of the selection. -/
def cumulativeStep (env : Env) (d : SatellitesDialog) (i : Nat) (index : Nat)
    (c : Cumulative) : Cumulative :=
  let flags := (rowData d index).flags
  let groups := (rowData d index).groups
  { displayedCheckbox := triState i (testFlag flags env.flag.SatDisplayed) c.displayedCheckbox
    orbitCheckbox := triState i (testFlag flags env.flag.SatOrbit) c.orbitCheckbox
    userCheckBox := triState i (testFlag flags env.flag.SatUser) c.userCheckBox
    groupsUsedBySome := GroupSet.unite c.groupsUsedBySome groups
    groupsUsedByAll := GroupSet.intersect c.groupsUsedByAll groups }

/-- The cumulative loop `for (int i = 0; i < selection.size(); i++)`, entered
at index `i` with the rest of the selection. -/
def cumulativeLoop (env : Env) (d : SatellitesDialog) :
    Nat → List Nat → Cumulative → Cumulative
  | _, [], c => c
  | i, index :: rest, c => cumulativeLoop env d (i + 1) rest (cumulativeStep env d i index c)

/-- The item created for one group when the group selector is repopulated. -/
def groupItem (env : Env) (groupsUsedByAll groupsUsedBySome : GroupSet) (group : String) :
    QListWidgetItem :=
  let item := QListWidgetItem.new (env.q_ group)
  let item := { item with toolTip := env.q_ group }
  let item := item.setData ItemDataRole.UserRole (QVariant.string group)
  let state :=
    if GroupSet.contains groupsUsedByAll group then CheckState.Checked
    else if GroupSet.contains groupsUsedBySome group then CheckState.PartiallyChecked
    else CheckState.Unchecked
  item.setData ItemDataRole.CheckStateRole (QVariant.checkState state)

/-- The style sheet given to a colour button. -/
def colorStyleSheet (env : Env) (c : QColor) : String :=
  "QToolButton \x7b background-color:" ++ env.colorName c ++ "; \x7d"

/-- The character U+2014 shown for a missing value (`SatellitesDialog::dash`). -/
def dash : String := "—"

/-- The branch `selection.count() > 1` of `updateSatelliteData`: the data
fields are emptied, the colours and the description are those of the first
selected satellite when all the others agree with it.  The result is the
dialog together with the three colours for the buttons. -/
def multiSelection (env : Env) (selection : List Nat) (d : SatellitesDialog) :
    SatellitesDialog × Vec3f × Vec3f × Vec3f :=
  let d := { d with ui := { d.ui with
      nameEdit := d.ui.nameEdit.setText ""
      noradNumberEdit := d.ui.noradNumberEdit.setText ""
      cosparNumberEdit := d.ui.cosparNumberEdit.setText ""
      tleFirstLineEdit := d.ui.tleFirstLineEdit.setText ""
      tleSecondLineEdit := d.ui.tleSecondLineEdit.setText ""
      stdMagnitudeLineEdit := d.ui.stdMagnitudeLineEdit.setText ""
      rcsLineEdit := d.ui.rcsLineEdit.setText ""
      perigeeLineEdit := d.ui.perigeeLineEdit.setText ""
      apogeeLineEdit := d.ui.apogeeLineEdit.setText ""
      periodLineEdit := d.ui.periodLineEdit.setText ""
      labelTleEpochData := "" } }
  let index := selection.getD 0 0
  let id := (rowData d index).id
  let sat := d.plugin.getById id
  let colors := colorLoop d sat.hintColor sat.orbitColor sat.infoColor (selection.drop 1)
  let descText := (rowData d index).description
  let descText :=
    if !descText.isEmpty then descLoop d descText (selection.drop 1) else descText
  let d := { d with ui := { d.ui with
      descriptionTextEdit := d.ui.descriptionTextEdit.setText descText } }
  (call env (Effect.satSelectionChanged "") d, colors)

/-- The branch of `updateSatelliteData` for a single selected row: every field
shows the data of that row. -/
def singleSelection (env : Env) (selection : List Nat) (d : SatellitesDialog) :
    SatellitesDialog × Vec3f × Vec3f × Vec3f :=
  let index := selection.getD 0 0
  let row := rowData d index
  let id := row.id
  let stdMagnitude := row.stdMagnitude
  let stdMagString := if stdMagnitude < 99 then env.numberF stdMagnitude 2 else dash
  let rcs := row.rcs
  let rcsString := if rcs > 0 then env.numberF rcs 4 else dash
  let perigee := env.qRound row.perigee
  let perigeeString := if perigee > 0 then env.number perigee else dash
  let apogee := env.qRound row.apogee
  let apogeeString := if apogee > 0 then env.number apogee else dash
  let period := row.period
  let periodString := if period > 0 then env.numberF period 2 else dash
  let cosparID := row.cosparID
  let d := { d with ui := { d.ui with
      nameEdit := d.ui.nameEdit.setText row.name
      noradNumberEdit := d.ui.noradNumberEdit.setText id
      cosparNumberEdit := d.ui.cosparNumberEdit.setText (if cosparID.isEmpty then dash else cosparID)
      descriptionTextEdit := d.ui.descriptionTextEdit.setText row.description
      stdMagnitudeLineEdit := d.ui.stdMagnitudeLineEdit.setText stdMagString
      rcsLineEdit := d.ui.rcsLineEdit.setText rcsString
      perigeeLineEdit := d.ui.perigeeLineEdit.setText perigeeString
      apogeeLineEdit := d.ui.apogeeLineEdit.setText apogeeString
      periodLineEdit := d.ui.periodLineEdit.setText periodString
      tleFirstLineEdit := d.ui.tleFirstLineEdit.setText row.firstLine
      tleSecondLineEdit := d.ui.tleSecondLineEdit.setText row.secondLine
      labelTleEpochData := row.tleEpoch } }
  let sat := d.plugin.getById id
  (call env (Effect.satSelectionChanged id) d, sat.hintColor, sat.orbitColor, sat.infoColor)

/-- The statements under "set default": the three button colours are grey. -/
def setDefaultColors (d : SatellitesDialog) : SatellitesDialog :=
  { d with
    buttonMarkerColor := QColor.fromRgbF f0_7 f0_7 f0_7
    buttonOrbitColor := QColor.fromRgbF f0_7 f0_7 f0_7
    buttonInfoColor := QColor.fromRgbF f0_7 f0_7 f0_7 }

/-- The statement `if (selection.count() > 1) ... else ...` of
`updateSatelliteData`. -/
def selectionFields (env : Env) (selection : List Nat) (d : SatellitesDialog) :
    SatellitesDialog × Vec3f × Vec3f × Vec3f :=
  if selection.length > 1 then multiSelection env selection d
  else singleSelection env selection d

/-- The statements under "colourize the colorpicker button": the three
colours become the button colours and the style sheets of the buttons. -/
def colorizeButtons (env : Env) (mColor oColor iColor : Vec3f) (d : SatellitesDialog) :
    SatellitesDialog :=
  let d := { d with buttonMarkerColor := mColor.toQColor }
  let d := { d with ui := { d.ui with satMarkerColorPickerButton :=
    d.ui.satMarkerColorPickerButton.setStyleSheet (colorStyleSheet env d.buttonMarkerColor) } }
  let d := { d with buttonOrbitColor := oColor.toQColor }
  let d := { d with ui := { d.ui with satOrbitColorPickerButton :=
    d.ui.satOrbitColorPickerButton.setStyleSheet (colorStyleSheet env d.buttonOrbitColor) } }
  let d := { d with buttonInfoColor := iColor.toQColor }
  { d with ui := { d.ui with satInfoColorPickerButton :=
    d.ui.satInfoColorPickerButton.setStyleSheet (colorStyleSheet env d.buttonInfoColor) } }

/-- The statements under "Things that are cumulative in a multi-selection":
the three boxes are unchecked, no group is used by some row, every global
group is used by all rows, and the loop runs over the selection. -/
def cumulative (env : Env) (selection : List Nat) (d : SatellitesDialog) : Cumulative :=
  let globalGroups := d.plugin.groups
  let c : Cumulative :=
    { displayedCheckbox := d.ui.displayedCheckbox.setChecked false
      orbitCheckbox := d.ui.orbitCheckbox.setChecked false
      userCheckBox := d.ui.userCheckBox.setChecked false
      groupsUsedBySome := []
      groupsUsedByAll := globalGroups }
  cumulativeLoop env d 0 selection c

/-- The check boxes of the dialog are those the cumulative loop worked on. -/
def showCumulative (c : Cumulative) (d : SatellitesDialog) : SatellitesDialog :=
  { d with ui := { d.ui with
      displayedCheckbox := c.displayedCheckbox
      orbitCheckbox := c.orbitCheckbox
      userCheckBox := c.userCheckBox } }

/-- The statements under "Repopulate the group selector": with the signals of
the list blocked, the list is cleared, gets one item per global group, is
sorted and gets the "New group..." item in front. -/
def repopulateGroups (env : Env) (c : Cumulative) (d : SatellitesDialog) : SatellitesDialog :=
  let globalGroups := d.plugin.groups
  let d := { d with ui := { d.ui with groupsListWidget := { d.ui.groupsListWidget with
      signalsBlocked := true } } }
  let d := { d with ui := { d.ui with groupsListWidget := { d.ui.groupsListWidget with
      items := [], currentRow := none } } }
  let d := { d with ui := { d.ui with groupsListWidget := { d.ui.groupsListWidget with
      items := globalGroups.map (groupItem env c.groupsUsedByAll c.groupsUsedBySome) } } }
  let d := { d with ui := { d.ui with groupsListWidget := { d.ui.groupsListWidget with
      items := env.sortItems d.ui.groupsListWidget.items } } }
  let d := addSpecialGroupItem env d
  { d with ui := { d.ui with groupsListWidget := { d.ui.groupsListWidget with
      signalsBlocked := false } } }

/-- The statement `satelliteModified = false`. -/
def clearModified (d : SatellitesDialog) : SatellitesDialog :=
  { d with satelliteModified := false }

/-- Slot `updateSatelliteData`: the right side of the satellites tab is
brought in line with the selection.  With an empty selection only the widgets
are enabled.  Cursor positions and repaints are not part of the state. -/
def updateSatelliteData (env : Env) (d : SatellitesDialog) : SatellitesDialog :=
  let d := setRightSideToRWMode d
  let d := clearModified d
  let selection := d.ui.satellitesList.selection
  if selection.isEmpty then d
  else
    let d := enableSatelliteDataForm false d
    let d := setDefaultColors d
    let r := selectionFields env selection d
    let d := colorizeButtons env r.2.1 r.2.2.1 r.2.2.2 r.1
    let c := cumulative env selection d
    let d := showCumulative c d
    let d := repopulateGroups env c d
    enableSatelliteDataForm true d

/-- The dialog with another selection in the list view. -/
def withSelection (d : SatellitesDialog) (selection : List Nat) : SatellitesDialog :=
  { d with ui := { d.ui with satellitesList := { d.ui.satellitesList with
      selection := selection } } }

/-- The dialog with other rows in the list view. -/
def setRows (d : SatellitesDialog) (rows : List SatRow) : SatellitesDialog :=
  { d with ui := { d.ui with satellitesList := { d.ui.satellitesList with rows := rows } } }

/-- The loop of `descriptionTextChanged`: for every selected index the
satellite with the id of the index gets the new description.  The description
of a satellite is what the list model reports under `SatDescriptionRole` for
the rows with the id of the satellite. -/
def describedRows (newdesc : String) (selection : List Nat) (rows : List SatRow) :
    List SatRow :=
  selection.foldl
    (fun rows index =>
      let id := (rows.getD index SatRow.invalid).id
      rows.map fun r => if r.id = id then { r with description := newdesc } else r)
    rows

/-- Slot `descriptionTextChanged`: the text of the description field becomes
the description of every selected satellite and the catalogue is saved. -/
def descriptionTextChanged (env : Env) (d : SatellitesDialog) : SatellitesDialog :=
  let selection := d.ui.satellitesList.selection
  if selection.isEmpty then d
  else
    let newdesc := d.ui.descriptionTextEdit.text
    let d := setRows d (describedRows newdesc selection d.ui.satellitesList.rows)
    saveSatellites env d

/-- Statement `ui->descriptionTextEdit->setText(text)` without its signal. -/
def descriptionText (text : String) (d : SatellitesDialog) : SatellitesDialog :=
  { d with ui := { d.ui with
      descriptionTextEdit := d.ui.descriptionTextEdit.setText text } }

/-- Statement `ui->descriptionTextEdit->setText(text)` with the signal
`textChanged`, which the text field emits on every `setText` and which is
connected to `descriptionTextChanged`; a field that blocks its signals
delivers nothing. -/
def setDescriptionText (env : Env) (text : String) (d : SatellitesDialog) :
    SatellitesDialog :=
  let d := descriptionText text d
  if d.ui.descriptionTextEdit.signalsBlocked then d else descriptionTextChanged env d

/-- The statements of `setRightSideToROMode` down to
`ui->descriptionTextEdit->setEnabled(false)`. -/
def disableUpToDescription (d : SatellitesDialog) : SatellitesDialog :=
  { d with ui := { d.ui with
      removeSatellitesButton := d.ui.removeSatellitesButton.setEnabled false
      commSatelliteButton := d.ui.commSatelliteButton.setEnabled false
      displayedCheckbox := (d.ui.displayedCheckbox.setEnabled false).setChecked false
      orbitCheckbox := (d.ui.orbitCheckbox.setEnabled false).setChecked false
      userCheckBox := (d.ui.userCheckBox.setEnabled false).setChecked false
      nameEdit := (d.ui.nameEdit.setEnabled false).setText ""
      noradNumberEdit := (d.ui.noradNumberEdit.setEnabled false).setText ""
      cosparNumberEdit := (d.ui.cosparNumberEdit.setEnabled false).setText ""
      descriptionTextEdit := d.ui.descriptionTextEdit.setEnabled false } }

/-- The statements of `setRightSideToROMode` from
`ui->groupsListWidget->setEnabled(false)` on: the remaining widgets are
disabled and cleaned and the three colour buttons become grey. -/
def disableFromGroups (env : Env) (d : SatellitesDialog) : SatellitesDialog :=
  let d := { d with ui := { d.ui with
      groupsListWidget := { d.ui.groupsListWidget with
        enabled := false
        items := []
        currentRow := none }
      tleFirstLineEdit := (d.ui.tleFirstLineEdit.setEnabled false).setText ""
      tleSecondLineEdit := (d.ui.tleSecondLineEdit.setEnabled false).setText ""
      labelTleEpochData := ""
      stdMagnitudeLineEdit := (d.ui.stdMagnitudeLineEdit.setEnabled false).setText ""
      rcsLineEdit := (d.ui.rcsLineEdit.setEnabled false).setText ""
      perigeeLineEdit := (d.ui.perigeeLineEdit.setEnabled false).setText ""
      apogeeLineEdit := (d.ui.apogeeLineEdit.setEnabled false).setText ""
      periodLineEdit := (d.ui.periodLineEdit.setEnabled false).setText "" } }
  let d := setDefaultColors d
  { d with ui := { d.ui with
      satMarkerColorPickerButton :=
        d.ui.satMarkerColorPickerButton.setStyleSheet (colorStyleSheet env d.buttonMarkerColor)
      satOrbitColorPickerButton :=
        d.ui.satOrbitColorPickerButton.setStyleSheet (colorStyleSheet env d.buttonOrbitColor)
      satInfoColorPickerButton :=
        d.ui.satInfoColorPickerButton.setStyleSheet (colorStyleSheet env d.buttonInfoColor) } }

/-- Slot `setRightSideToROMode`: the widgets of the right side are disabled
and cleaned, the colours of the three colour buttons are grey. -/
def setRightSideToROMode (env : Env) (d : SatellitesDialog) : SatellitesDialog :=
  let d := disableUpToDescription d
  let d := setDescriptionText env "" d
  disableFromGroups env d

/-- The table `secondaryFilter` of `filterListByGroup`: the flag that stands
for each special group. -/
def secondaryFilter (f : SatFlag) : List (String × Nat) :=
  [ ("all", f.SatNoFlags),
    ("[displayed]", f.SatDisplayed),
    ("[userdefined]", f.SatUser),
    ("[undisplayed]", f.SatNotDisplayed),
    ("[newlyadded]", f.SatNew),
    ("[orbiterror]", f.SatError),
    ("[reentry]", f.SatReentry),
    ("[smallsize]", f.SatSmallSize),
    ("[mediumsize]", f.SatMediumSize),
    ("[largesize]", f.SatLargeSize),
    ("[LEO]", f.SatLEO),
    ("[GSO]", f.SatGSO),
    ("[MEO]", f.SatMEO),
    ("[HEO]", f.SatHEO),
    ("[HGSO]", f.SatHGSO),
    ("[polarorbit]", f.SatPolarOrbit),
    ("[equatorialorbit]", f.SatEquatOrbit),
    ("[PSSO]", f.SatPSSO),
    ("[HEarthO]", f.SatHEarthO),
    ("[outdatedTLE]", f.SatOutdatedTLE),
    ("[custom]", f.SatCustomFilter),
    ("[communication]", f.SatCommunication),
    ("[activeOS]", f.SatActiveOS),
    ("[operationalOS]", f.SatOperationalOS),
    ("[nonopOS]", f.SatNonoperationalOS),
    ("[partiallyopOS]", f.SatPartiallyOperationalOS),
    ("[standbyOS]", f.SatStandbyOS),
    ("[spareOS]", f.SatSpareOS),
    ("[extmissionOS]", f.SatExtendedMissionOS),
    ("[decayedOS]", f.SatDecayedOS) ]

/-- Getter `QMap::value(key, defaultValue)` on a table with distinct keys. -/
def mapValue (table : List (String × Nat)) (key : String) (defaultValue : Nat) : Nat :=
  (table.lookup key).getD defaultValue

/-- Modelled from the spec: `setSecondaryFilters` of the list filter model,
which is declared in SatellitesListFilterModel.hpp and not part of this file,
is taken to store the group and the flag and to filter the list again; the
rows that pass and the rows that stay selected are given by `env.filterRows`,
and when the selected rows are no longer the same the selection model emits
`selectionChanged`, which is connected to `updateSatelliteData`. -/
def setSecondaryFilters (env : Env) (group : String) (flag : Nat) (d : SatellitesDialog) :
    SatellitesDialog :=
  let d := { d with filterModel := { group := group, flag := flag } }
  let view := env.filterRows group flag d.plugin d.ui.satellitesList
  let changed := decide (view.selection ≠ d.ui.satellitesList.selection)
  let d := { d with ui := { d.ui with satellitesList := view } }
  if changed then updateSatelliteData env d else d

/-- The statements of `filterListByGroup` on the custom-filter button: it is
disabled, and enabled again for the group "[custom]". -/
def customFilterFor (groupId : String) (d : SatellitesDialog) : SatellitesDialog :=
  let d := { d with ui := { d.ui with
      customFilterButton := d.ui.customFilterButton.setEnabled false } }
  if groupId == "[custom]" then
    { d with ui := { d.ui with
        customFilterButton := d.ui.customFilterButton.setEnabled true } }
  else d

/-- The statement of `filterListByGroup` that sets the secondary filter: for
an id with a "[" and for "all", no group and the flag of the table; for any
other id, the id as group and no flag. -/
def secondaryFiltersFor (env : Env) (groupId : String) (d : SatellitesDialog) :
    SatellitesDialog :=
  if QString.contains groupId "[" || groupId == "all" then
    setSecondaryFilters env ""
      (mapValue (secondaryFilter env.flag) groupId env.flag.SatNoFlags) d
  else setSecondaryFilters env groupId env.flag.SatNoFlags d

/-- The last statements of `filterListByGroup`: unless the list is empty, the
first selected row, or else the first row, becomes the current index and is
scrolled to. -/
def scrollToFirst (d : SatellitesDialog) : SatellitesDialog :=
  if d.ui.satellitesList.rows.length ≤ 0 then d
  else
    let first :=
      if !d.ui.satellitesList.selection.isEmpty then d.ui.satellitesList.selection.getD 0 0
      else 0
    { d with ui := { d.ui with satellitesList := { d.ui.satellitesList with
        currentIndex := some first
        scroll := ScrollRequest.scrollTo first ScrollHint.EnsureVisible } } }

/-- Slot `filterListByGroup`: the secondary filter of the list is set from the
entry `index` of the group filter box, then the first selected row, or the
first row, becomes current and is scrolled to. -/
def filterListByGroup (env : Env) (index : Int) (d : SatellitesDialog) : SatellitesDialog :=
  if index < 0 then d
  else
    let groupId := (d.ui.groupFilterCombo.itemData index).toString
    let d := customFilterFor groupId d
    let d := secondaryFiltersFor env groupId d
    scrollToFirst d

/-- The dialog with another group filter box. -/
def setGroupFilterCombo (d : SatellitesDialog) (combo : QComboBox) : SatellitesDialog :=
  { d with ui := { d.ui with groupFilterCombo := combo } }

/-- Statement `ui->groupFilterCombo->setCurrentIndex(index)`; an index outside
the box makes no entry current.  When the current index changes, the signal
`currentIndexChanged(int)` runs the two slots connected to it,
`filterListByGroup` and then `setRightSideToROMode`; a box that blocks its
signals delivers nothing. -/
def setGroupFilterIndex (env : Env) (index : Int) (d : SatellitesDialog) : SatellitesDialog :=
  let index :=
    if 0 ≤ index ∧ index < d.ui.groupFilterCombo.items.length then index else -1
  let changed := decide (d.ui.groupFilterCombo.currentIndex ≠ index)
  let d := setGroupFilterCombo d { d.ui.groupFilterCombo with currentIndex := index }
  if changed && !d.ui.groupFilterCombo.signalsBlocked then
    setRightSideToROMode env (filterListByGroup env index d)
  else d

/-- The id that `populateFilterMenu` saves under "Save current selection, if
any": the id of the current entry, or the empty string when there is none. -/
def selectedFilterId (d : SatellitesDialog) : String :=
  let combo := d.ui.groupFilterCombo
  let index := combo.currentIndex
  if combo.items.length > 0 && index ≥ 0 then (combo.itemData index).toString else ""

/-- The group filter box as `populateFilterMenu` rebuilds it: with its signals
blocked, it is cleared, filled with the groups of the plugin, sorted, and
given the special groups, each inserted at row 0.  No signal of the box is
delivered on the way. -/
def repopulatedCombo (env : Env) (d : SatellitesDialog) : QComboBox :=
  let combo := d.ui.groupFilterCombo
  let combo := { combo with signalsBlocked := true }
  let combo := { combo with items := [], currentIndex := -1 }
  let combo := { combo with items :=
    d.plugin.groupIdList.map fun group => (⟨env.q_ group, .string group⟩ : QComboItem) }
  let combo := { combo with items := env.sortCombo combo.items }
  { combo with items :=
    (specialFilterItems env).foldl (fun items it => it :: items) combo.items }

/-- Slot `populateFilterMenu`: the id of the current entry is saved, the box
is rebuilt with its signals blocked (so that the list is not filtered again),
and the entry with the saved id, if there is one, is made current again;
otherwise the first entry is. -/
def populateFilterMenu (env : Env) (d : SatellitesDialog) : SatellitesDialog :=
  let selectedId := selectedFilterId d
  let combo := repopulatedCombo env d
  let d := setGroupFilterCombo d combo
  let index :=
    if !selectedId.isEmpty then max 0 (combo.findData (.string selectedId)) else 0
  let d := setGroupFilterIndex env index d
  setGroupFilterCombo d { d.ui.groupFilterCombo with signalsBlocked := false }

/-- Slot `restoreDefaults`; `confirmed` is the answer of `askConfirmation()`. -/
def restoreDefaults (env : Env) (confirmed : Bool) (d : SatellitesDialog) :
    SatellitesDialog :=
  if confirmed then
    let d := call env Effect.restoreDefaults d
    let d := call env Effect.loadSettings d
    let d := updateSettingsPage env d
    let d := populateFilterMenu env d
    let d := populateSourcesList d
    let d := { d with ui := { d.ui with fontSizeSpinBox := d.plugin.flagLabelsVisible } }
    let d := handleOrbitLinesGroup d.plugin.flagOrbitLines d
    let d := handleUmbraGroup d.plugin.flagUmbraVisible d
    { d with ui := { d.ui with hideInvisibleSatellites := d.plugin.flagIconicMode } }
  else d

/-- Statement `selectionModel->clearSelection()`: no row is selected any
more; when some row was selected, the signal `selectionChanged` runs
`updateSatelliteData`. -/
def clearSelection (env : Env) (d : SatellitesDialog) : SatellitesDialog :=
  if d.ui.satellitesList.selection.isEmpty then d
  else updateSatelliteData env (withSelection d [])

/-- Statement `selectionModel->select(index, QItemSelectionModel::Select)` for
the index of `row`: the row joins the selection; when it was not selected
before, the signal `selectionChanged` runs `updateSatelliteData`. -/
def select (env : Env) (row : Nat) (d : SatellitesDialog) : SatellitesDialog :=
  if row ∈ d.ui.satellitesList.selection ∨ d.ui.satellitesList.rows.length ≤ row then d
  else updateSatelliteData env (withSelection d (d.ui.satellitesList.selection ++ [row]))

/-- What the second loop of `addSatellites` carries along: the dialog, the ids
still to be found, and the first index selected. -/
structure SelectNew where
  dialog : SatellitesDialog
  newIds : GroupSet
  firstSelectedIndex : Option Nat

/-- The body of the second loop of `addSatellites` for one row of the list. -/
def selectNewStep (env : Env) (st : SelectNew) (row : Nat) : SelectNew :=
  let id := (rowData st.dialog row).id
  if GroupSet.contains st.newIds id then
    { dialog := select env row st.dialog
      newIds := GroupSet.remove st.newIds id
      firstSelectedIndex :=
        if st.firstSelectedIndex.isSome then st.firstSelectedIndex else some row }
  else st

/-- The statements of `addSatellites` under "Select the satellites that were
added just now": the selection is cleared, the first row of each new id is
selected, and the view scrolls to the first selected row or to the top.  The
loop runs over the rows the model has when it starts; nothing in it adds or
removes a row. -/
def selectNewSatellites (env : Env) (newSatellites : List TleData) (d : SatellitesDialog) :
    SatellitesDialog :=
  let d := clearSelection env d
  let newIds := newSatellites.foldl (fun s sat => GroupSet.insert s sat.id) []
  let st := (List.range d.ui.satellitesList.rows.length).foldl (selectNewStep env)
    { dialog := d, newIds := newIds, firstSelectedIndex := none }
  let d := st.dialog
  match st.firstSelectedIndex with
  | some first =>
    { d with ui := { d.ui with satellitesList := { d.ui.satellitesList with
        scroll := ScrollRequest.scrollTo first ScrollHint.PositionAtTop } } }
  | none =>
    { d with ui := { d.ui with satellitesList := { d.ui.satellitesList with
        scroll := ScrollRequest.scrollToTop } } }

/-- The statements of `addSatellites` under "Trigger re-loading the list to
display the new satellites": the entry "[newlyadded]" of the group filter box
is made current, which filters the list, or, when it is current already, the
list is filtered directly. -/
def showNewlyAdded (env : Env) (d : SatellitesDialog) : SatellitesDialog :=
  let index := d.ui.groupFilterCombo.findData (QVariant.string "[newlyadded]")
  if d.ui.groupFilterCombo.currentIndex = index then filterListByGroup env index d
  else setGroupFilterIndex env index d

/-- Slot `addSatellites`. -/
def addSatellites (env : Env) (newSatellites : List TleData) (d : SatellitesDialog) :
    SatellitesDialog :=
  let d := call env (Effect.add newSatellites) d
  let d := saveSatellites env d
  let d := showNewlyAdded env d
  selectNewSatellites env newSatellites d

/-- Everything in the dialog that `setRightSideToRWMode` has no statement for:
the widgets that are not on the right side of the satellites tab and the
members of the dialog. -/
def outsideRightSide (d : SatellitesDialog) :=
  (d.ui.satellitesList, d.ui.sourceList, d.ui.sourceEdit, d.ui.addSourceButton,
    d.ui.editSourceButton, d.ui.deleteSourceButton, d.ui.saveSourceButton, d.ui.updateButton,
    d.ui.nextUpdateLabel, d.ui.lastUpdateDateTimeEdit, d.ui.groupFilterCombo,
    d.ui.customFilterButton, d.ui.fontSizeSpinBox, d.ui.orbitSegmentsSpin, d.ui.orbitFadeSpin,
    d.ui.orbitDurationSpin, d.ui.orbitThicknessSpin, d.ui.umbraAtAltitude, d.ui.umbraAltitude,
    d.ui.penumbraCheckBox, d.ui.hideInvisibleSatellites, d.satelliteModified,
    d.checkStateRole, d.filterModel, d.plugin, d.trace)

/-- The id of the current entry of the group filter box,
`itemData(currentIndex()).toString()`; empty when no entry is current. -/
def currentFilterId (d : SatellitesDialog) : String :=
  (d.ui.groupFilterCombo.itemData d.ui.groupFilterCombo.currentIndex).toString

/-- Row `r` of `rows` is the first row that carries its id, and the id is one
of `ids`. -/
def FirstWithNewId (rows : List SatRow) (ids : GroupSet) (r : Nat) : Prop :=
  (rows.getD r SatRow.invalid).id ∈ ids ∧
  ∀ r2, r2 < r → (rows.getD r2 SatRow.invalid).id ≠ (rows.getD r SatRow.invalid).id

/-- The invariant of the second loop of `addSatellites` before row `k`: the
rows are untouched, the selected rows are the rows before `k` that are the
first with their id among the new ids, in increasing order, the ids still to
be found are the new ids that no row before `k` carries, and the first
selected index is the head of the selection. -/
def SelectNewInv (rows : List SatRow) (ids : GroupSet) (k : Nat) (st : SelectNew) : Prop :=
  st.dialog.ui.satellitesList.rows = rows ∧
  (∀ r, r ∈ st.dialog.ui.satellitesList.selection ↔ r < k ∧ FirstWithNewId rows ids r) ∧
  st.dialog.ui.satellitesList.selection.Pairwise (fun a b => a < b) ∧
  (∀ x, x ∈ st.newIds ↔
    x ∈ ids ∧ ∀ r2, r2 < k → (rows.getD r2 SatRow.invalid).id ≠ x) ∧
  st.firstSelectedIndex = st.dialog.ui.satellitesList.selection.head?

/-- The dialog of `updateSatelliteData` after the colour buttons have been
coloured, just before the cumulative part. -/
def shownSelection (env : Env) (d : SatellitesDialog) : SatellitesDialog :=
  let selection := d.ui.satellitesList.selection
  let d := setRightSideToRWMode d
  let d := clearModified d
  let d := enableSatelliteDataForm false d
  let d := setDefaultColors d
  let r := selectionFields env selection d
  colorizeButtons env r.2.1 r.2.2.1 r.2.2.2 r.1

/-- The cumulative loop restricted to one check box: `flagOf index` tells
whether the row of `index` has the flag of the box. -/
def triLoop (flagOf : Nat → Bool) : Nat → List Nat → QCheckBox → QCheckBox
  | _, [], box => box
  | i, index :: rest, box => triLoop flagOf (i + 1) rest (triState i (flagOf index) box)

end SatellitesDialog

/-! ## Sample values -/

/-- An assignment of pairwise distinct bits to the enumerators of `SatFlag`. -/
def sampleFlag : SatFlag :=
  { SatNoFlags := 0x0, SatDisplayed := 0x1, SatNotDisplayed := 0x2, SatUser := 0x4,
    SatOrbit := 0x8, SatNew := 0x10, SatError := 0x20, SatSmallSize := 0x40,
    SatMediumSize := 0x80, SatLargeSize := 0x100, SatLEO := 0x200, SatMEO := 0x400,
    SatGSO := 0x800, SatHEO := 0x1000, SatHGSO := 0x2000, SatPolarOrbit := 0x4000,
    SatEquatOrbit := 0x8000, SatPSSO := 0x10000, SatHEarthO := 0x20000,
    SatOutdatedTLE := 0x40000, SatCustomFilter := 0x80000, SatCommunication := 0x100000,
    SatReentry := 0x200000, SatActiveOS := 0x400000, SatOperationalOS := 0x800000,
    SatNonoperationalOS := 0x1000000, SatPartiallyOperationalOS := 0x2000000,
    SatStandbyOS := 0x4000000, SatSpareOS := 0x8000000,
    SatExtendedMissionOS := 0x10000000, SatDecayedOS := 0x20000000 }

/-- An environment in which nothing is translated, integers are printed in
decimal, items are sorted by their text, the plugin does not react to requests, and the list filter keeps the
rows that have the flag and are in the group asked for and drops the
selection. -/
def sampleEnv : Env :=
  { q_ := fun s => s
    qc_ := fun s _ => s
    trimmed := fun s => s
    urlIsValid := fun _ => true
    number := fun n => toString n
    numberF := fun _ _ => "#"
    qRound := fun _ => 0
    colorName := fun _ => "#"
    sortItems := fun l => l.insertionSort fun a b => a.text.toList ≤ b.text.toList
    sortCombo := fun l => l.insertionSort fun a b => a.text.toList ≤ b.text.toList
    flag := sampleFlag
    exec := fun _ p => p
    filterRows := fun group flag _ view =>
      { view with
        rows := view.rows.filter fun r =>
          (flag == 0 || testFlag r.flags flag) && (group == "" || GroupSet.contains r.groups group)
        selection := []
        currentIndex := none } }

/-- A satellite of one colour. -/
def sampleSatellite (c : QFloat) : Satellite :=
  { hintColor := ⟨c, c, c⟩, orbitColor := ⟨c, c, c⟩, infoColor := ⟨c, c, c⟩ }

/-- A plugin with updates enabled, two groups and, for every id but "2", a
black satellite; the satellite with id "2" is white. -/
def samplePlugin : Satellites :=
  { updatesEnabled := true, autoAddEnabled := false, updateState := UpdateState.CompleteNoUpdates,
    secondsToUpdate := 125, lastUpdate := 0, tleSources := ["1,http://a/b.txt", "http://c/d.txt"],
    groups := ["science", "amateur"], groupIdList := ["science", "amateur"],
    flagLabelsVisible := true, flagOrbitLines := false, flagUmbraVisible := false,
    flagIconicMode := false,
    getById := fun id => if id = "2" then sampleSatellite 1 else sampleSatellite 0 }

/-- A list row with the given id, description, flags and groups. -/
def sampleRow (id description : String) (flags : SatFlags) (groups : GroupSet) : SatRow :=
  { SatRow.invalid with
    id := id
    name := id
    description := description
    flags := flags
    groups := groups }

/-- A widget set in its initial state, with the given rows, selection and
items of the groups list. -/
def sampleUi (rows : List SatRow) (selection : List Nat) (groupItems : List QListWidgetItem) :
    Ui :=
  let button : QButton := { enabled := false, text := "", styleSheet := "" }
  let box : QCheckBox := { enabled := false, checkState := CheckState.Unchecked,
                           signalsBlocked := false }
  let edit : QLineEdit := { enabled := false, text := "", signalsBlocked := false }
  let list : QListWidget := { enabled := false, items := [], currentRow := none,
                              signalsBlocked := false }
  { removeSatellitesButton := button, commSatelliteButton := button,
    displayedCheckbox := box, orbitCheckbox := box, userCheckBox := box,
    nameEdit := edit, noradNumberEdit := edit, cosparNumberEdit := edit,
    descriptionTextEdit := edit, tleFirstLineEdit := edit, tleSecondLineEdit := edit,
    stdMagnitudeLineEdit := edit, rcsLineEdit := edit, perigeeLineEdit := edit,
    apogeeLineEdit := edit, periodLineEdit := edit, labelTleEpochData := "",
    groupsListWidget := { list with items := groupItems },
    satMarkerColorPickerButton := button, satOrbitColorPickerButton := button,
    satInfoColorPickerButton := button,
    satellitesList := { rows := rows, selection := selection, currentIndex := none,
                        scroll := ScrollRequest.none },
    sourceList := list, sourceEdit := edit, addSourceButton := button,
    editSourceButton := button, deleteSourceButton := button, saveSourceButton := button,
    updateButton := button, nextUpdateLabel := "", lastUpdateDateTimeEdit := 0,
    groupFilterCombo := { items := [], currentIndex := -1, signalsBlocked := false },
    customFilterButton := button,
    fontSizeSpinBox := false, orbitSegmentsSpin := false, orbitFadeSpin := false,
    orbitDurationSpin := false, orbitThicknessSpin := false, umbraAtAltitude := false,
    umbraAltitude := false, penumbraCheckBox := false, hideInvisibleSatellites := false }

/-- A dialog over `samplePlugin` with the given rows, selection and items of
the groups list. -/
def sampleDialog (rows : List SatRow) (selection : List Nat)
    (groupItems : List QListWidgetItem) : SatellitesDialog :=
  { ui := sampleUi rows selection groupItems, satelliteModified := false,
    checkStateRole := ItemDataRole.UserRole,
    buttonMarkerColor := QColor.fromRgbF f0_7 f0_7 f0_7,
    buttonOrbitColor := QColor.fromRgbF f0_7 f0_7 f0_7,
    buttonInfoColor := QColor.fromRgbF f0_7 f0_7 f0_7,
    filterModel := { group := "", flag := 0 },
    plugin := samplePlugin, trace := [] }

/-- Two rows: the first is displayed and in group "amateur", the second is
neither displayed nor in a group; the satellite of the second is white. -/
def twoRows : List SatRow :=
  [sampleRow "1" "first" 0x1 ["amateur"], sampleRow "2" "second" 0x0 []]

/-- The dialog with other items in the groups list. -/
def withGroupItems (d : SatellitesDialog) (items : List QListWidgetItem) : SatellitesDialog :=
  { d with ui := { d.ui with groupsListWidget := { d.ui.groupsListWidget with items := items } } }

/-- The dialog with both rows of `twoRows` selected. -/
def mixedSelection : SatellitesDialog := sampleDialog twoRows [0, 1] []

/-- The dialog `mixedSelection` after `updateSatelliteData`. -/
def mixedShown : SatellitesDialog :=
  SatellitesDialog.updateSatelliteData sampleEnv mixedSelection

/-- The user ticks the Orbit box: `clicked(bool)` is connected to
`setChecked(bool)` of the box itself. -/
def tickOrbit (d : SatellitesDialog) : SatellitesDialog :=
  { d with ui := { d.ui with orbitCheckbox := d.ui.orbitCheckbox.setChecked true } }

/-- The dialog with no selection and the text "no url" in the source field. -/
def noUrlTyped : SatellitesDialog :=
  { sampleDialog twoRows [] [] with
    ui := { sampleUi twoRows [] [] with
      sourceEdit := { enabled := true, text := "no url", signalsBlocked := false } } }

/-- A dialog whose group filter box has one entry, with the empty id, which
is current, over a plugin that has one group, with the empty name. -/
def emptyIdCurrent : SatellitesDialog :=
  SatellitesDialog.setGroupFilterCombo
    { sampleDialog twoRows [] [] with
      plugin := { samplePlugin with groupIdList := [""] } }
    { items := [⟨"", QVariant.string ""⟩], currentIndex := 0, signalsBlocked := false }

/-- The dialog `mixedSelection` after `populateFilterMenu`, with the entry
"science" of the group filter box current. -/
def scienceCurrent : SatellitesDialog :=
  SatellitesDialog.setGroupFilterCombo (SatellitesDialog.populateFilterMenu sampleEnv mixedSelection)
    { (SatellitesDialog.populateFilterMenu sampleEnv mixedSelection).ui.groupFilterCombo with
      currentIndex := 31 }

/-- Four rows: the first three are new, the first and the third carry the
same id, the fourth is not new. -/
def fourRows : List SatRow :=
  [sampleRow "1" "a" 0x11 [], sampleRow "2" "b" 0x10 [], sampleRow "1" "c" 0x10 [],
    sampleRow "3" "d" 0x0 []]

/-- The dialog over `fourRows` with the fourth row selected, after
`populateFilterMenu`: the entry "all" of the group filter box is current. -/
def populated : SatellitesDialog :=
  SatellitesDialog.populateFilterMenu sampleEnv (sampleDialog fourRows [3] [])

/-- An entry of a `TleDataList` with the given id. -/
def sampleTle (id : String) : TleData :=
  { id := id, name := id, first := "", second := "" }

/-- Three new satellites, with the ids "2", "1" and "9". -/
def threeNew : List TleData := [sampleTle "2", sampleTle "1", sampleTle "9"]

/-! ## Theorems -/

/-! ### Sets of groups -/

theorem GroupSet.mem_insert (s : GroupSet) (x g : String) :
    g ∈ GroupSet.insert s x ↔ g ∈ s ∨ g = x := by
  unfold GroupSet.insert
  split_ifs with h
  · constructor
    · exact Or.inl
    · rintro (h1 | h1)
      · exact h1
      · exact h1 ▸ h
  · simp [List.mem_append]

theorem GroupSet.mem_unite (s other : GroupSet) (g : String) :
    g ∈ GroupSet.unite s other ↔ g ∈ s ∨ g ∈ other := by
  unfold GroupSet.unite
  induction other generalizing s with
  | nil => simp
  | cons x rest ih =>
    rw [List.foldl_cons, ih, GroupSet.mem_insert, List.mem_cons]
    tauto

theorem GroupSet.mem_subtract (s other : GroupSet) (g : String) :
    g ∈ GroupSet.subtract s other ↔ g ∈ s ∧ g ∉ other := by
  simp [GroupSet.subtract, GroupSet.contains, List.mem_filter]

theorem GroupSet.mem_intersect (s other : GroupSet) (g : String) :
    g ∈ GroupSet.intersect s other ↔ g ∈ s ∧ g ∈ other := by
  simp [GroupSet.intersect, GroupSet.contains, List.mem_filter]

namespace SatellitesDialog

/-! ### Rows of the list model -/

theorem rowData_setRow (d : SatellitesDialog) (i j : Nat) (r : SatRow) :
    rowData (setRow d i r) j =
      if j = i ∧ i < d.ui.satellitesList.rows.length then r else rowData d j := by
  simp only [rowData, setRow, List.getD_eq_getElem?_getD, List.getElem?_set]
  by_cases hij : i = j
  · subst hij
    by_cases hlt : i < d.ui.satellitesList.rows.length
    · simp [hlt]
    · simp [hlt, List.getElem?_eq_none (Nat.le_of_not_lt hlt)]
  · have hji : ¬ j = i := fun h => hij h.symm
    simp [hij, hji]

theorem rows_length_setRow (d : SatellitesDialog) (i : Nat) (r : SatRow) :
    (setRow d i r).ui.satellitesList.rows.length = d.ui.satellitesList.rows.length := by
  simp [setRow]

/-! ### setGroups -/

/-- A group is to be added when a checked item that is not editable carries it. -/
theorem mem_groupsToAdd (items : List QListWidgetItem) (g : String) :
    g ∈ (groupsToAddRemove items).1 ↔
      ∃ item ∈ items, item.flags.ItemIsEditable = false ∧
        item.checkState = CheckState.Checked ∧ item.userRole.toString = g := by
  unfold groupsToAddRemove
  suffices h : ∀ acc : GroupSet × GroupSet,
      g ∈ (items.foldl
        (fun acc item =>
          if item.flags.ItemIsEditable then acc
          else if item.checkState = CheckState.Checked then
            (GroupSet.insert acc.1 item.userRole.toString, acc.2)
          else if item.checkState = CheckState.Unchecked then
            (acc.1, GroupSet.insert acc.2 item.userRole.toString)
          else acc) acc).1 ↔
      g ∈ acc.1 ∨ ∃ item ∈ items, item.flags.ItemIsEditable = false ∧
        item.checkState = CheckState.Checked ∧ item.userRole.toString = g by
    simpa using h ([], [])
  induction items with
  | nil => intro acc; simp
  | cons it rest ih =>
    intro acc
    rw [List.foldl_cons, ih]
    by_cases he : it.flags.ItemIsEditable = true
    · simp [he]
    · have he2 : it.flags.ItemIsEditable = false := by simpa using he
      by_cases hc : it.checkState = CheckState.Checked
      · have hg : g = it.userRole.toString ↔ it.userRole.toString = g := eq_comm
        simp [he2, hc, GroupSet.mem_insert, hg]
        tauto
      · by_cases hu : it.checkState = CheckState.Unchecked
        · simp [he2, hc, hu]
        · simp [he2, hc, hu]

/-- A group is to be removed when an unchecked item that is not editable
carries it. -/
theorem mem_groupsToRemove (items : List QListWidgetItem) (g : String) :
    g ∈ (groupsToAddRemove items).2 ↔
      ∃ item ∈ items, item.flags.ItemIsEditable = false ∧
        item.checkState = CheckState.Unchecked ∧ item.userRole.toString = g := by
  unfold groupsToAddRemove
  suffices h : ∀ acc : GroupSet × GroupSet,
      g ∈ (items.foldl
        (fun acc item =>
          if item.flags.ItemIsEditable then acc
          else if item.checkState = CheckState.Checked then
            (GroupSet.insert acc.1 item.userRole.toString, acc.2)
          else if item.checkState = CheckState.Unchecked then
            (acc.1, GroupSet.insert acc.2 item.userRole.toString)
          else acc) acc).2 ↔
      g ∈ acc.2 ∨ ∃ item ∈ items, item.flags.ItemIsEditable = false ∧
        item.checkState = CheckState.Unchecked ∧ item.userRole.toString = g by
    simpa using h ([], [])
  induction items with
  | nil => intro acc; simp
  | cons it rest ih =>
    intro acc
    rw [List.foldl_cons, ih]
    by_cases he : it.flags.ItemIsEditable = true
    · simp [he]
    · have he2 : it.flags.ItemIsEditable = false := by simpa using he
      by_cases hc : it.checkState = CheckState.Checked
      · simp [he2, hc]
      · by_cases hu : it.checkState = CheckState.Unchecked
        · have hg : g = it.userRole.toString ↔ it.userRole.toString = g := eq_comm
          simp [he2, hu, GroupSet.mem_insert, hg]
          tauto
        · simp [he2, hc, hu]

/-- Editable items take no part in the first loop of `setGroups`. -/
theorem groupsToAddRemove_filter (items : List QListWidgetItem) :
    groupsToAddRemove (items.filter fun it => !it.flags.ItemIsEditable) =
      groupsToAddRemove items := by
  unfold groupsToAddRemove
  generalize (([], []) : GroupSet × GroupSet) = acc
  induction items generalizing acc with
  | nil => rfl
  | cons it rest ih =>
    by_cases he : it.flags.ItemIsEditable = true
    · simp only [List.filter_cons, he, Bool.not_true, Bool.false_eq_true, if_false,
        List.foldl_cons, if_true]
      exact ih acc
    · have he2 : it.flags.ItemIsEditable = false := by simpa using he
      simp only [List.filter_cons, he2, Bool.not_false, if_true, List.foldl_cons]
      exact ih _

/-- What the second loop of `setGroups` leaves in the rows: a row whose index
was visited holds the old groups without those to remove, with those to add;
every other row is as before. -/
theorem setGroups_loop (groupsToAdd groupsToRemove : GroupSet) (selection : List Nat)
    (d : SatellitesDialog) :
    (selection.foldl (setGroupsRow groupsToAdd groupsToRemove) d).ui.satellitesList.rows.length
        = d.ui.satellitesList.rows.length ∧
    (selection.foldl (setGroupsRow groupsToAdd groupsToRemove) d).ui.groupsListWidget
        = d.ui.groupsListWidget ∧
    (∀ i, (i ∉ selection ∨ d.ui.satellitesList.rows.length ≤ i) →
      rowData (selection.foldl (setGroupsRow groupsToAdd groupsToRemove) d) i = rowData d i) ∧
    (∀ i, i ∈ selection → i < d.ui.satellitesList.rows.length → ∀ g,
      (g ∈ (rowData (selection.foldl (setGroupsRow groupsToAdd groupsToRemove) d) i).groups ↔
        (g ∈ (rowData d i).groups ∧ g ∉ groupsToRemove) ∨ g ∈ groupsToAdd)) := by
  induction selection generalizing d with
  | nil => simp
  | cons j rest ih =>
    obtain ⟨hlen, hgl, hout, hin⟩ := ih (setGroupsRow groupsToAdd groupsToRemove d j)
    have hlen1 : (setGroupsRow groupsToAdd groupsToRemove d j).ui.satellitesList.rows.length
        = d.ui.satellitesList.rows.length := rows_length_setRow _ _ _
    have hne : ∀ i, ¬ (i = j ∧ j < d.ui.satellitesList.rows.length) →
        rowData (setGroupsRow groupsToAdd groupsToRemove d j) i = rowData d i := by
      intro i h
      unfold setGroupsRow
      rw [rowData_setRow, if_neg h]
    have hnew : j < d.ui.satellitesList.rows.length → ∀ g,
        (g ∈ (rowData (setGroupsRow groupsToAdd groupsToRemove d j) j).groups ↔
          (g ∈ (rowData d j).groups ∧ g ∉ groupsToRemove) ∨ g ∈ groupsToAdd) := by
      intro hj g
      unfold setGroupsRow
      rw [rowData_setRow, if_pos ⟨rfl, hj⟩]
      simp only [GroupSet.mem_unite, GroupSet.mem_subtract]
    rw [List.foldl_cons]
    refine ⟨hlen.trans hlen1, hgl.trans rfl, ?_, ?_⟩
    · intro i hi
      have h1 : i ∉ rest ∨
          (setGroupsRow groupsToAdd groupsToRemove d j).ui.satellitesList.rows.length ≤ i := by
        rcases hi with hi | hi
        · exact Or.inl fun hm => hi (List.mem_cons_of_mem _ hm)
        · exact Or.inr (hlen1 ▸ hi)
      rw [hout i h1]
      apply hne
      rintro ⟨rfl, hlt⟩
      rcases hi with hi | hi
      · exact hi (List.mem_cons_self _ _)
      · exact absurd hlt (Nat.not_lt.mpr hi)
    · intro i hi hlt g
      by_cases hmem : i ∈ rest
      · rw [hin i hmem (hlen1.symm ▸ hlt) g]
        by_cases hij : i = j
        · subst hij
          rw [hnew hlt g]
          tauto
        · rw [hne i (fun h => hij h.1)]
      · have hij : i = j := by
          rcases List.mem_cons.mp hi with h | h
          · exact h
          · exact absurd h hmem
        subst hij
        rw [hout i (Or.inl hmem)]
        exact hnew hlt g

/-- The second loop of `setGroups` reads nothing but the list view. -/
theorem setGroups_loop_congr (groupsToAdd groupsToRemove : GroupSet) (selection : List Nat)
    (d d2 : SatellitesDialog) (h : d.ui.satellitesList = d2.ui.satellitesList) :
    (selection.foldl (setGroupsRow groupsToAdd groupsToRemove) d).ui.satellitesList =
      (selection.foldl (setGroupsRow groupsToAdd groupsToRemove) d2).ui.satellitesList := by
  induction selection generalizing d d2 with
  | nil => exact h
  | cons j rest ih =>
    rw [List.foldl_cons, List.foldl_cons]
    apply ih
    simp only [setGroupsRow, setRow, rowData, h]

/-- C2: for a non-empty selection `setGroups` gives every selected row the
old groups, minus the groups of the unchecked items, plus the groups of the
checked items, where only items that are not editable count.  Hence a group
all of whose items are partially checked keeps its members, the editable
"New group..." item may be dropped from the list without changing the
outcome, and rows outside the selection keep their groups. -/
theorem setGroups_spec (env : Env) (d : SatellitesDialog)
    (h : d.ui.satellitesList.selection ≠ []) :
    (∀ i, i ∈ d.ui.satellitesList.selection → i < d.ui.satellitesList.rows.length → ∀ g,
      (g ∈ (rowData (setGroups env d) i).groups ↔
        (g ∈ (rowData d i).groups ∧
          ¬ ∃ item ∈ d.ui.groupsListWidget.items, item.flags.ItemIsEditable = false ∧
            item.checkState = CheckState.Unchecked ∧ item.userRole.toString = g) ∨
        ∃ item ∈ d.ui.groupsListWidget.items, item.flags.ItemIsEditable = false ∧
          item.checkState = CheckState.Checked ∧ item.userRole.toString = g)) ∧
    (∀ i, i ∈ d.ui.satellitesList.selection → i < d.ui.satellitesList.rows.length → ∀ g,
      (∀ item ∈ d.ui.groupsListWidget.items, item.flags.ItemIsEditable = false →
        item.userRole.toString = g → item.checkState = CheckState.PartiallyChecked) →
      (g ∈ (rowData (setGroups env d) i).groups ↔ g ∈ (rowData d i).groups)) ∧
    (setGroups env (withGroupItems d
        (d.ui.groupsListWidget.items.filter fun it => !it.flags.ItemIsEditable))).ui.satellitesList
      = (setGroups env d).ui.satellitesList ∧
    (∀ i, i ∉ d.ui.satellitesList.selection →
      rowData (setGroups env d) i = rowData d i) ∧
    (setGroups env d).ui.satellitesList.rows.length = d.ui.satellitesList.rows.length := by
  have hsel : d.ui.satellitesList.selection.isEmpty = false := by
    cases hs : d.ui.satellitesList.selection with
    | nil => exact absurd hs h
    | cons a l => rfl
  have hrow : ∀ i, rowData (setGroups env d) i =
      rowData (d.ui.satellitesList.selection.foldl
        (setGroupsRow (groupsToAddRemove d.ui.groupsListWidget.items).1
          (groupsToAddRemove d.ui.groupsListWidget.items).2) d) i := by
    intro i
    simp [setGroups, hsel, saveSatellites, call, rowData]
  obtain ⟨hlen, -, hout, hin⟩ := setGroups_loop
    (groupsToAddRemove d.ui.groupsListWidget.items).1
    (groupsToAddRemove d.ui.groupsListWidget.items).2 d.ui.satellitesList.selection d
  have hmain : ∀ i, i ∈ d.ui.satellitesList.selection → i < d.ui.satellitesList.rows.length →
      ∀ g, (g ∈ (rowData (setGroups env d) i).groups ↔
        (g ∈ (rowData d i).groups ∧
          ¬ ∃ item ∈ d.ui.groupsListWidget.items, item.flags.ItemIsEditable = false ∧
            item.checkState = CheckState.Unchecked ∧ item.userRole.toString = g) ∨
        ∃ item ∈ d.ui.groupsListWidget.items, item.flags.ItemIsEditable = false ∧
          item.checkState = CheckState.Checked ∧ item.userRole.toString = g) := by
    intro i hi hlt g
    rw [hrow i, hin i hi hlt g, mem_groupsToAdd, mem_groupsToRemove]
  refine ⟨hmain, ?_, ?_, ?_, ?_⟩
  · intro i hi hlt g hp
    rw [hmain i hi hlt g]
    constructor
    · rintro (⟨hg, -⟩ | ⟨item, hitem, he, hc, hd⟩)
      · exact hg
      · have := hp item hitem he hd
        rw [hc] at this
        exact absurd this (by decide)
    · intro hg
      refine Or.inl ⟨hg, ?_⟩
      rintro ⟨item, hitem, he, hc, hd⟩
      have := hp item hitem he hd
      rw [hc] at this
      exact absurd this (by decide)
  · have hsel2 : (withGroupItems d (d.ui.groupsListWidget.items.filter
        fun it => !it.flags.ItemIsEditable)).ui.satellitesList.selection.isEmpty = false := hsel
    simp only [setGroups, hsel, hsel2, Bool.false_eq_true, if_false, saveSatellites, call]
    have hitems : (withGroupItems d (d.ui.groupsListWidget.items.filter
        fun it => !it.flags.ItemIsEditable)).ui.groupsListWidget.items =
        d.ui.groupsListWidget.items.filter fun it => !it.flags.ItemIsEditable := rfl
    rw [hitems, groupsToAddRemove_filter]
    exact setGroups_loop_congr _ _ _ _ _ rfl
  · intro i hi
    rw [hrow i, hout i (Or.inl hi)]
  · simpa [setGroups, hsel, saveSatellites, call] using hlen

/-- Witness of C2: both rows selected, the group "science" unchecked and the
group "amateur" partially checked. -/
theorem setGroups_spec_witness :
    mixedShown.ui.satellitesList.selection ≠ [] ∧
    ∀ i, i ∈ mixedShown.ui.satellitesList.selection →
      i < mixedShown.ui.satellitesList.rows.length → ∀ g,
      (g ∈ (rowData (setGroups sampleEnv mixedShown) i).groups ↔
        (g ∈ (rowData mixedShown i).groups ∧
          ¬ ∃ item ∈ mixedShown.ui.groupsListWidget.items, item.flags.ItemIsEditable = false ∧
            item.checkState = CheckState.Unchecked ∧ item.userRole.toString = g) ∨
        ∃ item ∈ mixedShown.ui.groupsListWidget.items, item.flags.ItemIsEditable = false ∧
          item.checkState = CheckState.Checked ∧ item.userRole.toString = g) :=
  ⟨by decide, (setGroups_spec sampleEnv mixedShown (by decide)).1⟩

/-! ### The cumulative loop of updateSatelliteData -/

/-- From the second index on, a checked box stays checked while every row has
the flag, an unchecked box stays unchecked while no row has it, and every
other case ends partially checked. -/
theorem triLoop_succ (flagOf : Nat → Bool) (selection : List Nat) (i : Nat) (box : QCheckBox)
    (hi : 0 < i) :
    (triLoop flagOf i selection box).checkState =
      match box.checkState with
      | CheckState.Checked =>
        if selection.all flagOf then CheckState.Checked else CheckState.PartiallyChecked
      | CheckState.Unchecked =>
        if selection.all (fun idx => !flagOf idx) then CheckState.Unchecked
        else CheckState.PartiallyChecked
      | CheckState.PartiallyChecked => CheckState.PartiallyChecked := by
  induction selection generalizing i box with
  | nil =>
    cases h : box.checkState <;> simp [triLoop, h]
  | cons idx rest ih =>
    have hi0 : i ≠ 0 := Nat.pos_iff_ne_zero.mp hi
    rw [triLoop, ih (i + 1) _ (Nat.succ_pos i)]
    cases hf : flagOf idx <;> cases hc : box.checkState <;>
      simp [triState, QCheckBox.isChecked, QCheckBox.setCheckState, QCheckBox.setChecked,
        hf, hc, hi0]

/-- The loop over a non-empty selection, entered with an unchecked box, ends
checked when every row has the flag, unchecked when none has it and partially
checked otherwise. -/
theorem triLoop_zero (flagOf : Nat → Bool) (selection : List Nat) (box : QCheckBox)
    (hne : selection ≠ []) (hbox : box.checkState = CheckState.Unchecked) :
    (triLoop flagOf 0 selection box).checkState =
      if selection.all flagOf then CheckState.Checked
      else if selection.all (fun idx => !flagOf idx) then CheckState.Unchecked
      else CheckState.PartiallyChecked := by
  cases selection with
  | nil => exact absurd rfl hne
  | cons idx rest =>
    rw [triLoop, triLoop_succ flagOf rest 1 _ Nat.one_pos]
    cases hf : flagOf idx <;>
      simp [triState, QCheckBox.isChecked, QCheckBox.setCheckState, QCheckBox.setChecked,
        hf, hbox]

/-- The three readings of the outcome of `triLoop_zero`. -/
theorem triLoop_zero_iff (flagOf : Nat → Bool) (selection : List Nat) (box : QCheckBox)
    (hne : selection ≠ []) (hbox : box.checkState = CheckState.Unchecked) :
    ((triLoop flagOf 0 selection box).checkState = CheckState.Checked ↔
      ∀ idx ∈ selection, flagOf idx = true) ∧
    ((triLoop flagOf 0 selection box).checkState = CheckState.Unchecked ↔
      ∀ idx ∈ selection, flagOf idx = false) ∧
    ((triLoop flagOf 0 selection box).checkState = CheckState.PartiallyChecked ↔
      (¬ ∀ idx ∈ selection, flagOf idx = true) ∧ ¬ ∀ idx ∈ selection, flagOf idx = false) := by
  rw [triLoop_zero flagOf selection box hne hbox]
  have hall : selection.all flagOf = true ↔ ∀ idx ∈ selection, flagOf idx = true :=
    List.all_eq_true
  have hnone : selection.all (fun idx => !flagOf idx) = true ↔
      ∀ idx ∈ selection, flagOf idx = false := by
    simp [List.all_eq_true]
  have hexcl : (∀ idx ∈ selection, flagOf idx = true) →
      ¬ ∀ idx ∈ selection, flagOf idx = false := by
    intro h1 h2
    cases selection with
    | nil => exact hne rfl
    | cons a l =>
      have e1 := h1 a (List.mem_cons_self _ _)
      have e2 := h2 a (List.mem_cons_self _ _)
      rw [e1] at e2
      exact absurd e2 (by decide)
  by_cases h1 : selection.all flagOf = true
  · have p1 := hall.mp h1
    have p2 := hexcl p1
    rw [if_pos h1]
    refine ⟨⟨fun _ => p1, fun _ => rfl⟩, ⟨fun h => absurd h (by decide), fun h => absurd h p2⟩,
      ⟨fun h => absurd h (by decide), fun h => absurd p1 h.1⟩⟩
  · have p1 : ¬ ∀ idx ∈ selection, flagOf idx = true := fun h => h1 (hall.mpr h)
    by_cases h2 : selection.all (fun idx => !flagOf idx) = true
    · have p2 := hnone.mp h2
      rw [if_neg h1, if_pos h2]
      refine ⟨⟨fun h => absurd h (by decide), fun h => absurd h p1⟩, ⟨fun _ => p2, fun _ => rfl⟩,
        ⟨fun h => absurd h (by decide), fun h => absurd p2 h.2⟩⟩
    · have p2 : ¬ ∀ idx ∈ selection, flagOf idx = false := fun h => h2 (hnone.mpr h)
      rw [if_neg h1, if_neg h2]
      refine ⟨⟨fun h => absurd h (by decide), fun h => absurd h p1⟩,
        ⟨fun h => absurd h (by decide), fun h => absurd h p2⟩, ⟨fun _ => ⟨p1, p2⟩, fun _ => rfl⟩⟩

/-- The cumulative loop on each check box is `triLoop` for the flag of the box. -/
theorem cumulativeLoop_boxes (env : Env) (d : SatellitesDialog) (selection : List Nat)
    (i : Nat) (c : Cumulative) :
    (cumulativeLoop env d i selection c).displayedCheckbox =
      triLoop (fun idx => testFlag (rowData d idx).flags env.flag.SatDisplayed) i selection
        c.displayedCheckbox ∧
    (cumulativeLoop env d i selection c).orbitCheckbox =
      triLoop (fun idx => testFlag (rowData d idx).flags env.flag.SatOrbit) i selection
        c.orbitCheckbox ∧
    (cumulativeLoop env d i selection c).userCheckBox =
      triLoop (fun idx => testFlag (rowData d idx).flags env.flag.SatUser) i selection
        c.userCheckBox := by
  induction selection generalizing i c with
  | nil => exact ⟨rfl, rfl, rfl⟩
  | cons idx rest ih =>
    rw [cumulativeLoop]
    obtain ⟨h1, h2, h3⟩ := ih (i + 1) (cumulativeStep env d i idx c)
    exact ⟨h1, h2, h3⟩

/-- The cumulative loop reads nothing of the dialog but the list view. -/
theorem cumulativeLoop_congr (env : Env) (d d2 : SatellitesDialog)
    (h : d.ui.satellitesList = d2.ui.satellitesList) (selection : List Nat) (i : Nat)
    (c : Cumulative) :
    cumulativeLoop env d i selection c = cumulativeLoop env d2 i selection c := by
  induction selection generalizing i c with
  | nil => rfl
  | cons idx rest ih =>
    rw [cumulativeLoop, cumulativeLoop, ih]
    simp only [cumulativeStep, rowData, h]

/-! ### updateSatelliteData -/

/-- Unfolding of `updateSatelliteData` for a non-empty selection. -/
theorem updateSatelliteData_eq (env : Env) (d : SatellitesDialog)
    (h : d.ui.satellitesList.selection ≠ []) :
    updateSatelliteData env d =
      enableSatelliteDataForm true
        (repopulateGroups env
          (cumulative env d.ui.satellitesList.selection (shownSelection env d))
          (showCumulative
            (cumulative env d.ui.satellitesList.selection (shownSelection env d))
            (shownSelection env d))) := by
  have hsel : (clearModified (setRightSideToRWMode d)).ui.satellitesList.selection.isEmpty
      = false := by
    show d.ui.satellitesList.selection.isEmpty = false
    cases hs : d.ui.satellitesList.selection with
    | nil => exact absurd hs h
    | cons a l => rfl
  unfold updateSatelliteData
  simp only [hsel, Bool.false_eq_true, if_false]
  rfl

/-- Nothing before the cumulative part touches the list view. -/
theorem satellitesList_shownSelection (env : Env) (d : SatellitesDialog) :
    (shownSelection env d).ui.satellitesList = d.ui.satellitesList := by
  unfold shownSelection selectionFields
  simp only
  split_ifs <;> rfl

/-- The cumulative part of `updateSatelliteData`, with the rows read from the
dialog the slot was called on. -/
theorem cumulative_shownSelection (env : Env) (d : SatellitesDialog) :
    cumulative env d.ui.satellitesList.selection (shownSelection env d) =
      cumulativeLoop env d 0 d.ui.satellitesList.selection
        { displayedCheckbox := (shownSelection env d).ui.displayedCheckbox.setChecked false
          orbitCheckbox := (shownSelection env d).ui.orbitCheckbox.setChecked false
          userCheckBox := (shownSelection env d).ui.userCheckBox.setChecked false
          groupsUsedBySome := []
          groupsUsedByAll := (shownSelection env d).plugin.groups } := by
  unfold cumulative
  exact cumulativeLoop_congr env _ _ (satellitesList_shownSelection env d) _ _ _

/-- The check states that `updateSatelliteData` leaves in the three boxes. -/
theorem updateSatelliteData_checkStates (env : Env) (d : SatellitesDialog)
    (h : d.ui.satellitesList.selection ≠ []) :
    (updateSatelliteData env d).ui.displayedCheckbox.checkState =
      (triLoop (fun idx => testFlag (rowData d idx).flags env.flag.SatDisplayed) 0
        d.ui.satellitesList.selection
        ((shownSelection env d).ui.displayedCheckbox.setChecked false)).checkState ∧
    (updateSatelliteData env d).ui.orbitCheckbox.checkState =
      (triLoop (fun idx => testFlag (rowData d idx).flags env.flag.SatOrbit) 0
        d.ui.satellitesList.selection
        ((shownSelection env d).ui.orbitCheckbox.setChecked false)).checkState ∧
    (updateSatelliteData env d).ui.userCheckBox.checkState =
      (triLoop (fun idx => testFlag (rowData d idx).flags env.flag.SatUser) 0
        d.ui.satellitesList.selection
        ((shownSelection env d).ui.userCheckBox.setChecked false)).checkState := by
  obtain ⟨h1, h2, h3⟩ := cumulativeLoop_boxes env d d.ui.satellitesList.selection 0
    { displayedCheckbox := (shownSelection env d).ui.displayedCheckbox.setChecked false
      orbitCheckbox := (shownSelection env d).ui.orbitCheckbox.setChecked false
      userCheckBox := (shownSelection env d).ui.userCheckBox.setChecked false
      groupsUsedBySome := []
      groupsUsedByAll := (shownSelection env d).plugin.groups }
  rw [← cumulative_shownSelection] at h1 h2 h3
  rw [updateSatelliteData_eq env d h]
  refine ⟨?_, ?_, ?_⟩
  · rw [← h1]; rfl
  · rw [← h2]; rfl
  · rw [← h3]; rfl

/-- The outcome of `triLoop_zero` does not depend on the order of the selection. -/
theorem triLoop_zero_perm (flagOf : Nat → Bool) (selection selection2 : List Nat)
    (box box2 : QCheckBox) (hne : selection ≠ []) (hp : selection2.Perm selection)
    (hbox : box.checkState = CheckState.Unchecked)
    (hbox2 : box2.checkState = CheckState.Unchecked) :
    (triLoop flagOf 0 selection2 box2).checkState =
      (triLoop flagOf 0 selection box).checkState := by
  have hne2 : selection2 ≠ [] := by
    intro h0
    rw [h0] at hp
    exact hne (List.Perm.nil_eq hp).symm
  have hall : ∀ f : Nat → Bool, selection2.all f = selection.all f := by
    intro f
    rw [Bool.eq_iff_iff, List.all_eq_true, List.all_eq_true]
    exact ⟨fun h x hx => h x (hp.mem_iff.mpr hx), fun h x hx => h x (hp.mem_iff.mp hx)⟩
  rw [triLoop_zero flagOf selection box hne hbox, triLoop_zero flagOf selection2 box2 hne2 hbox2,
    hall, hall]

/-- C7: three-state display.  For a non-empty selection, after
`updateSatelliteData` the Displayed box is checked exactly when every selected
row has the flag `SatDisplayed`, unchecked exactly when none has it, and
partially checked exactly when neither is the case; likewise the Orbit box
for `SatOrbit` and the user box for `SatUser`; and a selection of the same
rows in another order gives the same three check states. -/
theorem updateSatelliteData_three_state (env : Env) (d : SatellitesDialog)
    (selection2 : List Nat) (h : d.ui.satellitesList.selection ≠ [])
    (hp : selection2.Perm d.ui.satellitesList.selection) :
    (((updateSatelliteData env d).ui.displayedCheckbox.checkState = CheckState.Checked ↔
        ∀ idx ∈ d.ui.satellitesList.selection,
          testFlag (rowData d idx).flags env.flag.SatDisplayed = true) ∧
      ((updateSatelliteData env d).ui.displayedCheckbox.checkState = CheckState.Unchecked ↔
        ∀ idx ∈ d.ui.satellitesList.selection,
          testFlag (rowData d idx).flags env.flag.SatDisplayed = false) ∧
      ((updateSatelliteData env d).ui.displayedCheckbox.checkState
          = CheckState.PartiallyChecked ↔
        (¬ ∀ idx ∈ d.ui.satellitesList.selection,
          testFlag (rowData d idx).flags env.flag.SatDisplayed = true) ∧
        ¬ ∀ idx ∈ d.ui.satellitesList.selection,
          testFlag (rowData d idx).flags env.flag.SatDisplayed = false)) ∧
    (((updateSatelliteData env d).ui.orbitCheckbox.checkState = CheckState.Checked ↔
        ∀ idx ∈ d.ui.satellitesList.selection,
          testFlag (rowData d idx).flags env.flag.SatOrbit = true) ∧
      ((updateSatelliteData env d).ui.orbitCheckbox.checkState = CheckState.Unchecked ↔
        ∀ idx ∈ d.ui.satellitesList.selection,
          testFlag (rowData d idx).flags env.flag.SatOrbit = false) ∧
      ((updateSatelliteData env d).ui.orbitCheckbox.checkState
          = CheckState.PartiallyChecked ↔
        (¬ ∀ idx ∈ d.ui.satellitesList.selection,
          testFlag (rowData d idx).flags env.flag.SatOrbit = true) ∧
        ¬ ∀ idx ∈ d.ui.satellitesList.selection,
          testFlag (rowData d idx).flags env.flag.SatOrbit = false)) ∧
    (((updateSatelliteData env d).ui.userCheckBox.checkState = CheckState.Checked ↔
        ∀ idx ∈ d.ui.satellitesList.selection,
          testFlag (rowData d idx).flags env.flag.SatUser = true) ∧
      ((updateSatelliteData env d).ui.userCheckBox.checkState = CheckState.Unchecked ↔
        ∀ idx ∈ d.ui.satellitesList.selection,
          testFlag (rowData d idx).flags env.flag.SatUser = false) ∧
      ((updateSatelliteData env d).ui.userCheckBox.checkState
          = CheckState.PartiallyChecked ↔
        (¬ ∀ idx ∈ d.ui.satellitesList.selection,
          testFlag (rowData d idx).flags env.flag.SatUser = true) ∧
        ¬ ∀ idx ∈ d.ui.satellitesList.selection,
          testFlag (rowData d idx).flags env.flag.SatUser = false)) ∧
    (updateSatelliteData env (withSelection d selection2)).ui.displayedCheckbox.checkState =
      (updateSatelliteData env d).ui.displayedCheckbox.checkState ∧
    (updateSatelliteData env (withSelection d selection2)).ui.orbitCheckbox.checkState =
      (updateSatelliteData env d).ui.orbitCheckbox.checkState ∧
    (updateSatelliteData env (withSelection d selection2)).ui.userCheckBox.checkState =
      (updateSatelliteData env d).ui.userCheckBox.checkState := by
  have hne2 : (withSelection d selection2).ui.satellitesList.selection ≠ [] := by
    show selection2 ≠ []
    intro h0
    rw [h0] at hp
    exact h (List.Perm.nil_eq hp).symm
  obtain ⟨e1, e2, e3⟩ := updateSatelliteData_checkStates env d h
  obtain ⟨f1, f2, f3⟩ := updateSatelliteData_checkStates env (withSelection d selection2) hne2
  rw [e1, e2, e3, f1, f2, f3]
  exact ⟨triLoop_zero_iff _ _ _ h rfl, triLoop_zero_iff _ _ _ h rfl,
    triLoop_zero_iff _ _ _ h rfl,
    triLoop_zero_perm _ _ _ _ _ h hp rfl rfl,
    triLoop_zero_perm _ _ _ _ _ h hp rfl rfl,
    triLoop_zero_perm _ _ _ _ _ h hp rfl rfl⟩

/-- Witness of C7: of the two selected rows only the first is displayed, so
the Displayed box is partially checked, in either order of the selection. -/
theorem updateSatelliteData_three_state_witness :
    mixedSelection.ui.satellitesList.selection ≠ [] ∧
    [1, 0].Perm mixedSelection.ui.satellitesList.selection ∧
    ((updateSatelliteData sampleEnv mixedSelection).ui.displayedCheckbox.checkState
        = CheckState.PartiallyChecked ↔
      (¬ ∀ idx ∈ mixedSelection.ui.satellitesList.selection,
        testFlag (rowData mixedSelection idx).flags sampleEnv.flag.SatDisplayed = true) ∧
      ¬ ∀ idx ∈ mixedSelection.ui.satellitesList.selection,
        testFlag (rowData mixedSelection idx).flags sampleEnv.flag.SatDisplayed = false) ∧
    (updateSatelliteData sampleEnv (withSelection mixedSelection [1, 0])).ui.displayedCheckbox.checkState
      = (updateSatelliteData sampleEnv mixedSelection).ui.displayedCheckbox.checkState :=
  ⟨by decide, by decide,
    (updateSatelliteData_three_state sampleEnv mixedSelection [1, 0] (by decide)
      (by decide)).1.2.2,
    (updateSatelliteData_three_state sampleEnv mixedSelection [1, 0] (by decide)
      (by decide)).2.2.2.1⟩

/-- What the cumulative loop accumulates in its two sets of groups. -/
theorem cumulativeLoop_groups (env : Env) (d : SatellitesDialog) (selection : List Nat)
    (i : Nat) (c : Cumulative) (g : String) :
    (g ∈ (cumulativeLoop env d i selection c).groupsUsedBySome ↔
      g ∈ c.groupsUsedBySome ∨ ∃ idx ∈ selection, g ∈ (rowData d idx).groups) ∧
    (g ∈ (cumulativeLoop env d i selection c).groupsUsedByAll ↔
      g ∈ c.groupsUsedByAll ∧ ∀ idx ∈ selection, g ∈ (rowData d idx).groups) := by
  induction selection generalizing i c with
  | nil => simp [cumulativeLoop]
  | cons idx rest ih =>
    rw [cumulativeLoop]
    obtain ⟨h1, h2⟩ := ih (i + 1) (cumulativeStep env d i idx c)
    rw [h1, h2]
    simp only [cumulativeStep, GroupSet.mem_unite, GroupSet.mem_intersect, List.mem_cons,
      exists_eq_or_imp, forall_eq_or_imp]
    constructor
    · exact or_assoc
    · exact and_assoc

/-- The check state of the item created for a group. -/
theorem checkState_groupItem (env : Env) (groupsUsedByAll groupsUsedBySome : GroupSet)
    (g : String) :
    (groupItem env groupsUsedByAll groupsUsedBySome g).checkState =
      if g ∈ groupsUsedByAll then CheckState.Checked
      else if g ∈ groupsUsedBySome then CheckState.PartiallyChecked
      else CheckState.Unchecked := by
  simp only [groupItem, QListWidgetItem.checkState, QListWidgetItem.setData,
    QVariant.toCheckState, GroupSet.contains, decide_eq_true_eq]

/-- The groups list that `updateSatelliteData` builds. -/
theorem updateSatelliteData_groupItems (env : Env) (d : SatellitesDialog)
    (h : d.ui.satellitesList.selection ≠ []) :
    (updateSatelliteData env d).ui.groupsListWidget.items =
      specialGroupItem env ::
        env.sortItems ((updateSatelliteData env d).plugin.groups.map
          (groupItem env
            (cumulative env d.ui.satellitesList.selection
              (shownSelection env d)).groupsUsedByAll
            (cumulative env d.ui.satellitesList.selection
              (shownSelection env d)).groupsUsedBySome)) := by
  rw [updateSatelliteData_eq env d h]
  rfl

/-- C8: for a non-empty selection, after `updateSatelliteData` the groups list
is the editable "New group..." item at row 0 followed by items that are not
editable and are user-checkable: exactly one for each group of the global
group set of the plugin and no other, the item of a group being checked
exactly when every selected row is in the group, unchecked exactly when no
selected row is in it, and partially checked exactly when neither holds.
(The global group set has no duplicates and sorting permutes the items.) -/
theorem updateSatelliteData_groups (env : Env) (d : SatellitesDialog)
    (h : d.ui.satellitesList.selection ≠ [])
    (hnd : (updateSatelliteData env d).plugin.groups.Nodup)
    (hsort : ∀ l, (env.sortItems l).Perm l) :
    ∃ rest, (updateSatelliteData env d).ui.groupsListWidget.items
        = specialGroupItem env :: rest ∧
      (specialGroupItem env).flags.ItemIsEditable = true ∧
      (specialGroupItem env).text = env.q_ "New group..." ∧
      rest.length = (updateSatelliteData env d).plugin.groups.length ∧
      (∀ g ∈ (updateSatelliteData env d).plugin.groups,
        (rest.filter fun it => it.userRole = QVariant.string g).length = 1) ∧
      (∀ it ∈ rest, it.flags.ItemIsEditable = false ∧ it.flags.ItemIsUserCheckable = true ∧
        ∃ g ∈ (updateSatelliteData env d).plugin.groups, it.userRole = QVariant.string g ∧
          (it.checkState = CheckState.Checked ↔
            ∀ idx ∈ d.ui.satellitesList.selection, g ∈ (rowData d idx).groups) ∧
          (it.checkState = CheckState.Unchecked ↔
            ∀ idx ∈ d.ui.satellitesList.selection, g ∉ (rowData d idx).groups) ∧
          (it.checkState = CheckState.PartiallyChecked ↔
            (¬ ∀ idx ∈ d.ui.satellitesList.selection, g ∈ (rowData d idx).groups) ∧
            ¬ ∀ idx ∈ d.ui.satellitesList.selection, g ∉ (rowData d idx).groups)) := by
  refine ⟨_, updateSatelliteData_groupItems env d h, rfl, rfl, ?_, ?_, ?_⟩
  · rw [(hsort _).length_eq, List.length_map]
  · intro g hg
    rw [((hsort _).filter _).length_eq, List.filter_map, List.length_map]
    have hf : (List.filter
        ((fun it : QListWidgetItem => decide (it.userRole = QVariant.string g)) ∘
          groupItem env
            (cumulative env d.ui.satellitesList.selection
              (shownSelection env d)).groupsUsedByAll
            (cumulative env d.ui.satellitesList.selection
              (shownSelection env d)).groupsUsedBySome)
        (updateSatelliteData env d).plugin.groups) =
        List.filter (fun x => x == g) (updateSatelliteData env d).plugin.groups := by
      apply List.filter_congr
      intro x _
      simp only [Function.comp, groupItem, QListWidgetItem.setData, QVariant.string.injEq]
      by_cases hx : x = g <;> simp [hx]
    rw [hf, ← List.countP_eq_length_filter]
    exact List.count_eq_one_of_mem hnd hg
  · intro it hit
    rw [(hsort _).mem_iff, List.mem_map] at hit
    obtain ⟨g, hg, rfl⟩ := hit
    refine ⟨rfl, rfl, g, hg, rfl, ?_⟩
    have hG : (updateSatelliteData env d).plugin.groups = (shownSelection env d).plugin.groups := by
      rw [updateSatelliteData_eq env d h]
      rfl
    obtain ⟨hsome, hall⟩ := cumulativeLoop_groups env d d.ui.satellitesList.selection 0
      { displayedCheckbox := (shownSelection env d).ui.displayedCheckbox.setChecked false
        orbitCheckbox := (shownSelection env d).ui.orbitCheckbox.setChecked false
        userCheckBox := (shownSelection env d).ui.userCheckBox.setChecked false
        groupsUsedBySome := []
        groupsUsedByAll := (shownSelection env d).plugin.groups } g
    rw [← cumulative_shownSelection] at hsome hall
    have hsome2 : g ∈ (cumulative env d.ui.satellitesList.selection
        (shownSelection env d)).groupsUsedBySome ↔
        ∃ idx ∈ d.ui.satellitesList.selection, g ∈ (rowData d idx).groups := by
      rw [hsome]
      simp
    have hall2 : g ∈ (cumulative env d.ui.satellitesList.selection
        (shownSelection env d)).groupsUsedByAll ↔
        ∀ idx ∈ d.ui.satellitesList.selection, g ∈ (rowData d idx).groups := by
      rw [hall]
      exact ⟨fun hh => hh.2, fun hh => ⟨hG ▸ hg, hh⟩⟩
    have hexcl : (∀ idx ∈ d.ui.satellitesList.selection, g ∈ (rowData d idx).groups) →
        ¬ ∀ idx ∈ d.ui.satellitesList.selection, g ∉ (rowData d idx).groups := by
      intro h1 h2
      cases hs : d.ui.satellitesList.selection with
      | nil => exact h hs
      | cons a l =>
        rw [hs] at h1 h2
        exact h2 a (List.mem_cons_self _ _) (h1 a (List.mem_cons_self _ _))
    have hnone : (¬ ∃ idx ∈ d.ui.satellitesList.selection, g ∈ (rowData d idx).groups) ↔
        ∀ idx ∈ d.ui.satellitesList.selection, g ∉ (rowData d idx).groups := by
      constructor
      · intro hh idx hidx hm
        exact hh ⟨idx, hidx, hm⟩
      · rintro hh ⟨idx, hidx, hm⟩
        exact hh idx hidx hm
    rw [checkState_groupItem]
    by_cases hA : g ∈ (cumulative env d.ui.satellitesList.selection
        (shownSelection env d)).groupsUsedByAll
    · have p1 := hall2.mp hA
      have p2 := hexcl p1
      rw [if_pos hA]
      exact ⟨⟨fun _ => p1, fun _ => rfl⟩, ⟨fun hh => absurd hh (by decide), fun hh => absurd hh p2⟩,
        ⟨fun hh => absurd hh (by decide), fun hh => absurd p1 hh.1⟩⟩
    · have p1 : ¬ ∀ idx ∈ d.ui.satellitesList.selection, g ∈ (rowData d idx).groups :=
        fun hh => hA (hall2.mpr hh)
      rw [if_neg hA]
      by_cases hS : g ∈ (cumulative env d.ui.satellitesList.selection
          (shownSelection env d)).groupsUsedBySome
      · have p2 : ¬ ∀ idx ∈ d.ui.satellitesList.selection, g ∉ (rowData d idx).groups :=
          fun hh => hnone.mpr hh (hsome2.mp hS)
        rw [if_pos hS]
        exact ⟨⟨fun hh => absurd hh (by decide), fun hh => absurd hh p1⟩,
          ⟨fun hh => absurd hh (by decide), fun hh => absurd hh p2⟩,
          ⟨fun _ => ⟨p1, p2⟩, fun _ => rfl⟩⟩
      · have p2 : ∀ idx ∈ d.ui.satellitesList.selection, g ∉ (rowData d idx).groups :=
          hnone.mp fun hh => hS (hsome2.mpr hh)
        rw [if_neg hS]
        exact ⟨⟨fun hh => absurd hh (by decide), fun hh => absurd hh p1⟩,
          ⟨fun _ => p2, fun _ => rfl⟩,
          ⟨fun hh => absurd hh (by decide), fun hh => absurd p2 hh.2⟩⟩

/-- Witness of C8: the plugin has the two groups "science" and "amateur". -/
theorem updateSatelliteData_groups_witness :
    mixedSelection.ui.satellitesList.selection ≠ [] ∧
    (updateSatelliteData sampleEnv mixedSelection).plugin.groups.Nodup ∧
    (∀ l, (sampleEnv.sortItems l).Perm l) ∧
    ∃ rest, (updateSatelliteData sampleEnv mixedSelection).ui.groupsListWidget.items
        = specialGroupItem sampleEnv :: rest ∧
      rest.length = (updateSatelliteData sampleEnv mixedSelection).plugin.groups.length :=
  ⟨by decide, by decide, fun l => List.perm_insertionSort _ l,
    (updateSatelliteData_groups sampleEnv mixedSelection (by decide) (by decide)
      (fun l => List.perm_insertionSort _ l)).imp fun _ hr => ⟨hr.1, hr.2.2.2.1⟩⟩

/-! ### Several rows selected -/

/-- The colour loop reads the rows and the satellites of the plugin only. -/
theorem colorLoop_congr (d d2 : SatellitesDialog)
    (h1 : d.ui.satellitesList = d2.ui.satellitesList) (h2 : d.plugin = d2.plugin)
    (mColor oColor iColor : Vec3f) (l : List Nat) :
    colorLoop d mColor oColor iColor l = colorLoop d2 mColor oColor iColor l := by
  induction l with
  | nil => rfl
  | cons idx rest ih => simp only [colorLoop, rowData, h1, h2, ih]

/-- The colour loop ends grey when some satellite differs from the given
colours, and with the given colours when none does. -/
theorem colorLoop_spec (d : SatellitesDialog) (mColor oColor iColor : Vec3f) (l : List Nat) :
    ((∃ idx ∈ l, (d.plugin.getById (rowData d idx).id).hintColor ≠ mColor ∨
        (d.plugin.getById (rowData d idx).id).orbitColor ≠ oColor ∨
        (d.plugin.getById (rowData d idx).id).infoColor ≠ iColor) →
      colorLoop d mColor oColor iColor l = (grey, grey, grey)) ∧
    ((∀ idx ∈ l, (d.plugin.getById (rowData d idx).id).hintColor = mColor ∧
        (d.plugin.getById (rowData d idx).id).orbitColor = oColor ∧
        (d.plugin.getById (rowData d idx).id).infoColor = iColor) →
      colorLoop d mColor oColor iColor l = (mColor, oColor, iColor)) := by
  induction l with
  | nil =>
    constructor
    · rintro ⟨idx, hidx, -⟩
      exact absurd hidx (List.not_mem_nil _)
    · intro _
      rfl
  | cons a rest ih =>
    by_cases hsame : (d.plugin.getById (rowData d a).id).hintColor = mColor ∧
        (d.plugin.getById (rowData d a).id).orbitColor = oColor ∧
        (d.plugin.getById (rowData d a).id).infoColor = iColor
    · have hstep : colorLoop d mColor oColor iColor (a :: rest) =
          colorLoop d mColor oColor iColor rest := by
        simp [colorLoop, hsame.1, hsame.2.1, hsame.2.2]
      rw [hstep]
      constructor
      · rintro ⟨idx, hidx, hdiff⟩
        rcases List.mem_cons.mp hidx with rfl | hmem
        · rcases hdiff with h | h | h
          · exact absurd hsame.1 h
          · exact absurd hsame.2.1 h
          · exact absurd hsame.2.2 h
        · exact ih.1 ⟨idx, hmem, hdiff⟩
      · intro hall
        exact ih.2 fun idx hidx => hall idx (List.mem_cons_of_mem _ hidx)
    · have hstep : colorLoop d mColor oColor iColor (a :: rest) = (grey, grey, grey) := by
        have hdiff : ((d.plugin.getById (rowData d a).id).hintColor != mColor ||
            (d.plugin.getById (rowData d a).id).orbitColor != oColor ||
            (d.plugin.getById (rowData d a).id).infoColor != iColor) = true := by
          simp only [Bool.or_eq_true, bne_iff_ne, ne_eq]
          by_contra hc
          push_neg at hc
          exact hsame ⟨hc.1.1, hc.1.2, hc.2⟩
        rw [colorLoop]
        simp only [hdiff, if_true]
      rw [hstep]
      constructor
      · intro _
        rfl
      · intro hall
        exact absurd (hall a (List.mem_cons_self _ _)) hsame

/-- The description loop reads the rows only. -/
theorem descLoop_congr (d d2 : SatellitesDialog)
    (h1 : d.ui.satellitesList = d2.ui.satellitesList) (descText : String) (l : List Nat) :
    descLoop d descText l = descLoop d2 descText l := by
  induction l with
  | nil => rfl
  | cons idx rest ih => simp only [descLoop, rowData, h1, ih]

/-- The description loop keeps the text when every row has it and clears it
otherwise. -/
theorem descLoop_spec (d : SatellitesDialog) (descText : String) (l : List Nat) :
    ((∀ idx ∈ l, (rowData d idx).description = descText) → descLoop d descText l = descText) ∧
    ((¬ ∀ idx ∈ l, (rowData d idx).description = descText) → descLoop d descText l = "") := by
  induction l with
  | nil =>
    constructor
    · intro _
      rfl
    · intro hn
      exact absurd (fun idx hidx => absurd hidx (List.not_mem_nil _)) hn
  | cons a rest ih =>
    by_cases hsame : (rowData d a).description = descText
    · have hstep : descLoop d descText (a :: rest) = descLoop d descText rest := by
        simp [descLoop, hsame]
      rw [hstep]
      constructor
      · intro hall
        exact ih.1 fun idx hidx => hall idx (List.mem_cons_of_mem _ hidx)
      · intro hn
        apply ih.2
        intro hall
        apply hn
        intro idx hidx
        rcases List.mem_cons.mp hidx with rfl | hmem
        · exact hsame
        · exact hall idx hmem
    · have hstep : descLoop d descText (a :: rest) = "" := by
        have hne : descText ≠ (rowData d a).description := fun hh => hsame hh.symm
        simp [descLoop, hne]
      rw [hstep]
      constructor
      · intro hall
        exact absurd (hall a (List.mem_cons_self _ _)) hsame
      · intro _
        rfl

/-- With two or more rows selected, what `updateSatelliteData` leaves in the
colour buttons, the description and the data fields. -/
theorem updateSatelliteData_multi (env : Env) (d : SatellitesDialog) (i0 : Nat)
    (rest : List Nat) (hsel : d.ui.satellitesList.selection = i0 :: rest) (hrest : rest ≠ []) :
    (updateSatelliteData env d).buttonMarkerColor =
      (colorLoop d (d.plugin.getById (rowData d i0).id).hintColor
        (d.plugin.getById (rowData d i0).id).orbitColor
        (d.plugin.getById (rowData d i0).id).infoColor rest).1.toQColor ∧
    (updateSatelliteData env d).buttonOrbitColor =
      (colorLoop d (d.plugin.getById (rowData d i0).id).hintColor
        (d.plugin.getById (rowData d i0).id).orbitColor
        (d.plugin.getById (rowData d i0).id).infoColor rest).2.1.toQColor ∧
    (updateSatelliteData env d).buttonInfoColor =
      (colorLoop d (d.plugin.getById (rowData d i0).id).hintColor
        (d.plugin.getById (rowData d i0).id).orbitColor
        (d.plugin.getById (rowData d i0).id).infoColor rest).2.2.toQColor ∧
    (updateSatelliteData env d).ui.satMarkerColorPickerButton.styleSheet =
      colorStyleSheet env (updateSatelliteData env d).buttonMarkerColor ∧
    (updateSatelliteData env d).ui.satOrbitColorPickerButton.styleSheet =
      colorStyleSheet env (updateSatelliteData env d).buttonOrbitColor ∧
    (updateSatelliteData env d).ui.satInfoColorPickerButton.styleSheet =
      colorStyleSheet env (updateSatelliteData env d).buttonInfoColor ∧
    (updateSatelliteData env d).ui.descriptionTextEdit.text =
      (if !(rowData d i0).description.isEmpty then descLoop d (rowData d i0).description rest
       else (rowData d i0).description) ∧
    (updateSatelliteData env d).ui.nameEdit.text = "" ∧
    (updateSatelliteData env d).ui.noradNumberEdit.text = "" ∧
    (updateSatelliteData env d).ui.cosparNumberEdit.text = "" ∧
    (updateSatelliteData env d).ui.tleFirstLineEdit.text = "" ∧
    (updateSatelliteData env d).ui.tleSecondLineEdit.text = "" ∧
    (updateSatelliteData env d).ui.stdMagnitudeLineEdit.text = "" ∧
    (updateSatelliteData env d).ui.rcsLineEdit.text = "" ∧
    (updateSatelliteData env d).ui.perigeeLineEdit.text = "" ∧
    (updateSatelliteData env d).ui.apogeeLineEdit.text = "" ∧
    (updateSatelliteData env d).ui.periodLineEdit.text = "" ∧
    (updateSatelliteData env d).ui.labelTleEpochData = "" := by
  have hne : d.ui.satellitesList.selection ≠ [] := by
    rw [hsel]
    exact List.cons_ne_nil _ _
  have hlen : (i0 :: rest).length > 1 := by
    cases rest with
    | nil => exact absurd rfl hrest
    | cons a l => simp
  have hshown : shownSelection env d =
      colorizeButtons env
        (multiSelection env (i0 :: rest) (setDefaultColors (enableSatelliteDataForm false
          (clearModified (setRightSideToRWMode d))))).2.1
        (multiSelection env (i0 :: rest) (setDefaultColors (enableSatelliteDataForm false
          (clearModified (setRightSideToRWMode d))))).2.2.1
        (multiSelection env (i0 :: rest) (setDefaultColors (enableSatelliteDataForm false
          (clearModified (setRightSideToRWMode d))))).2.2.2
        (multiSelection env (i0 :: rest) (setDefaultColors (enableSatelliteDataForm false
          (clearModified (setRightSideToRWMode d))))).1 := by
    unfold shownSelection selectionFields
    simp only [hsel, hlen, if_true]
  have hcol : (multiSelection env (i0 :: rest) (setDefaultColors (enableSatelliteDataForm false
        (clearModified (setRightSideToRWMode d))))).2 =
      colorLoop d (d.plugin.getById (rowData d i0).id).hintColor
        (d.plugin.getById (rowData d i0).id).orbitColor
        (d.plugin.getById (rowData d i0).id).infoColor rest := by
    have hc : ∀ dX : SatellitesDialog, dX.ui.satellitesList = d.ui.satellitesList →
        dX.plugin = d.plugin →
        colorLoop dX (d.plugin.getById (rowData d i0).id).hintColor
          (d.plugin.getById (rowData d i0).id).orbitColor
          (d.plugin.getById (rowData d i0).id).infoColor rest =
        colorLoop d (d.plugin.getById (rowData d i0).id).hintColor
          (d.plugin.getById (rowData d i0).id).orbitColor
          (d.plugin.getById (rowData d i0).id).infoColor rest :=
      fun dX h1 h2 => colorLoop_congr dX d h1 h2 _ _ _ _
    exact hc _ rfl rfl
  have hdesc : (multiSelection env (i0 :: rest) (setDefaultColors (enableSatelliteDataForm false
        (clearModified (setRightSideToRWMode d))))).1.ui.descriptionTextEdit.text =
      (if !(rowData d i0).description.isEmpty then descLoop d (rowData d i0).description rest
       else (rowData d i0).description) := by
    have hc : ∀ dX : SatellitesDialog, dX.ui.satellitesList = d.ui.satellitesList →
        (if !(rowData d i0).description.isEmpty then descLoop dX (rowData d i0).description rest
         else (rowData d i0).description) =
        (if !(rowData d i0).description.isEmpty then descLoop d (rowData d i0).description rest
         else (rowData d i0).description) := by
      intro dX h1
      rw [descLoop_congr dX d h1]
    exact hc _ rfl
  rw [updateSatelliteData_eq env d hne, hshown]
  refine ⟨?_, ?_, ?_, rfl, rfl, rfl, ?_, rfl, rfl, rfl, rfl, rfl, rfl, rfl, rfl, rfl, rfl, rfl⟩
  · rw [← hcol]; rfl
  · rw [← hcol]; rfl
  · rw [← hcol]; rfl
  · rw [← hdesc]; rfl

/-- C9: with two or more rows selected, `updateSatelliteData` shows grey
(0.7, 0.7, 0.7) on the marker, orbit and info colour buttons when some selected
satellite differs from the first one in its hint, orbit or info colour, and
shows the hint, orbit and info colour of the first satellite when every
selected satellite has the same three colours as the first; in both cases the
style sheet of each button is the one of its colour. -/
theorem updateSatelliteData_colors (env : Env) (d : SatellitesDialog) (i0 : Nat)
    (rest : List Nat) (hsel : d.ui.satellitesList.selection = i0 :: rest) (hrest : rest ≠ []) :
    ((∃ idx ∈ i0 :: rest,
        (d.plugin.getById (rowData d idx).id).hintColor
          ≠ (d.plugin.getById (rowData d i0).id).hintColor ∨
        (d.plugin.getById (rowData d idx).id).orbitColor
          ≠ (d.plugin.getById (rowData d i0).id).orbitColor ∨
        (d.plugin.getById (rowData d idx).id).infoColor
          ≠ (d.plugin.getById (rowData d i0).id).infoColor) →
      (updateSatelliteData env d).buttonMarkerColor = QColor.fromRgbF f0_7 f0_7 f0_7 ∧
      (updateSatelliteData env d).buttonOrbitColor = QColor.fromRgbF f0_7 f0_7 f0_7 ∧
      (updateSatelliteData env d).buttonInfoColor = QColor.fromRgbF f0_7 f0_7 f0_7) ∧
    ((∀ idx ∈ i0 :: rest,
        (d.plugin.getById (rowData d idx).id).hintColor
          = (d.plugin.getById (rowData d i0).id).hintColor ∧
        (d.plugin.getById (rowData d idx).id).orbitColor
          = (d.plugin.getById (rowData d i0).id).orbitColor ∧
        (d.plugin.getById (rowData d idx).id).infoColor
          = (d.plugin.getById (rowData d i0).id).infoColor) →
      (updateSatelliteData env d).buttonMarkerColor
        = (d.plugin.getById (rowData d i0).id).hintColor.toQColor ∧
      (updateSatelliteData env d).buttonOrbitColor
        = (d.plugin.getById (rowData d i0).id).orbitColor.toQColor ∧
      (updateSatelliteData env d).buttonInfoColor
        = (d.plugin.getById (rowData d i0).id).infoColor.toQColor) ∧
    (updateSatelliteData env d).ui.satMarkerColorPickerButton.styleSheet =
      colorStyleSheet env (updateSatelliteData env d).buttonMarkerColor ∧
    (updateSatelliteData env d).ui.satOrbitColorPickerButton.styleSheet =
      colorStyleSheet env (updateSatelliteData env d).buttonOrbitColor ∧
    (updateSatelliteData env d).ui.satInfoColorPickerButton.styleSheet =
      colorStyleSheet env (updateSatelliteData env d).buttonInfoColor := by
  obtain ⟨hm, ho, hi, sm, so, si, -⟩ := updateSatelliteData_multi env d i0 rest hsel hrest
  obtain ⟨hgrey, hsame⟩ := colorLoop_spec d (d.plugin.getById (rowData d i0).id).hintColor
    (d.plugin.getById (rowData d i0).id).orbitColor
    (d.plugin.getById (rowData d i0).id).infoColor rest
  refine ⟨?_, ?_, sm, so, si⟩
  · rintro ⟨idx, hidx, hdiff⟩
    have hrestmem : idx ∈ rest := by
      rcases List.mem_cons.mp hidx with rfl | hmem
      · rcases hdiff with hh | hh | hh <;> exact absurd rfl hh
      · exact hmem
    rw [hm, ho, hi, hgrey ⟨idx, hrestmem, hdiff⟩]
    exact ⟨rfl, rfl, rfl⟩
  · intro hall
    rw [hm, ho, hi, hsame fun idx hidx => hall idx (List.mem_cons_of_mem _ hidx)]
    exact ⟨rfl, rfl, rfl⟩

/-- Witness of C9: the satellite of the second row is white, that of the
first black, so the marker button is grey. -/
theorem updateSatelliteData_colors_witness :
    mixedSelection.ui.satellitesList.selection = 0 :: [1] ∧
    ([1] : List Nat) ≠ [] ∧
    (updateSatelliteData sampleEnv mixedSelection).buttonMarkerColor
      = QColor.fromRgbF f0_7 f0_7 f0_7 :=
  ⟨by decide, by decide,
    ((updateSatelliteData_colors sampleEnv mixedSelection 0 [1] (by decide) (by decide)).1
      ⟨1, by decide, Or.inl (by decide)⟩).1⟩

/-- C10: with two or more rows selected, after `updateSatelliteData` the
description field shows the description of the first selected row when every
other selected row has exactly the same description and is empty otherwise,
and the name, NORAD number, COSPAR number, TLE line, standard magnitude, RCS,
perigee, apogee, period and TLE epoch fields are empty. -/
theorem updateSatelliteData_description (env : Env) (d : SatellitesDialog) (i0 : Nat)
    (rest : List Nat) (hsel : d.ui.satellitesList.selection = i0 :: rest) (hrest : rest ≠ []) :
    ((∀ idx ∈ rest, (rowData d idx).description = (rowData d i0).description) →
      (updateSatelliteData env d).ui.descriptionTextEdit.text = (rowData d i0).description) ∧
    ((¬ ∀ idx ∈ rest, (rowData d idx).description = (rowData d i0).description) →
      (updateSatelliteData env d).ui.descriptionTextEdit.text = "") ∧
    (updateSatelliteData env d).ui.nameEdit.text = "" ∧
    (updateSatelliteData env d).ui.noradNumberEdit.text = "" ∧
    (updateSatelliteData env d).ui.cosparNumberEdit.text = "" ∧
    (updateSatelliteData env d).ui.tleFirstLineEdit.text = "" ∧
    (updateSatelliteData env d).ui.tleSecondLineEdit.text = "" ∧
    (updateSatelliteData env d).ui.stdMagnitudeLineEdit.text = "" ∧
    (updateSatelliteData env d).ui.rcsLineEdit.text = "" ∧
    (updateSatelliteData env d).ui.perigeeLineEdit.text = "" ∧
    (updateSatelliteData env d).ui.apogeeLineEdit.text = "" ∧
    (updateSatelliteData env d).ui.periodLineEdit.text = "" ∧
    (updateSatelliteData env d).ui.labelTleEpochData = "" := by
  obtain ⟨-, -, -, -, -, -, hdesc, hfields⟩ := updateSatelliteData_multi env d i0 rest hsel hrest
  obtain ⟨hkeep, hclear⟩ := descLoop_spec d (rowData d i0).description rest
  refine ⟨?_, ?_, hfields⟩
  · intro hall
    rw [hdesc]
    by_cases he : (rowData d i0).description.isEmpty = true
    · simp [he]
    · simp only [he, Bool.not_false, if_true]
      exact hkeep hall
  · intro hn
    rw [hdesc]
    by_cases he : (rowData d i0).description.isEmpty = true
    · simp only [he, Bool.not_true, Bool.false_eq_true, if_false]
      exact (String.isEmpty_iff _).mp he
    · simp only [he, Bool.not_false, if_true]
      exact hclear hn

/-- Witness of C10: the two selected rows have different descriptions, so the
description field is empty. -/
theorem updateSatelliteData_description_witness :
    mixedSelection.ui.satellitesList.selection = 0 :: [1] ∧
    ([1] : List Nat) ≠ [] ∧
    (updateSatelliteData sampleEnv mixedSelection).ui.descriptionTextEdit.text = "" :=
  ⟨by decide, by decide,
    (updateSatelliteData_description sampleEnv mixedSelection 0 [1] (by decide)
      (by decide)).2.1 (by decide)⟩

/-- C1: with the Displayed box partially checked, `setFlags` does not leave the
Displayed flag alone.  Two rows are selected, the first displayed, the second
not, so `updateSatelliteData` shows the box partially checked; the user then
ticks the Orbit box and `setFlags` runs: the second row, which was not
displayed, now has the flag `SatDisplayed`. -/
theorem setFlags_partiallyChecked_sets_flag :
    (updateSatelliteData sampleEnv mixedSelection).ui.displayedCheckbox.checkState
      = CheckState.PartiallyChecked ∧
    testFlag (rowData (tickOrbit (updateSatelliteData sampleEnv mixedSelection)) 1).flags
      sampleFlag.SatDisplayed = false ∧
    testFlag (rowData (setFlags sampleEnv
      (tickOrbit (updateSatelliteData sampleEnv mixedSelection))) 1).flags
      sampleFlag.SatDisplayed = true := by
  decide

/-- C3: when the trimmed text of the source edit field is empty, or is not a
valid URL, or has no "://", `saveEditedSource` changes no widget (so the
current item, the items of the source list with their order, texts and check
states, the edit field and the buttons stay as they are), changes nothing in
the plugin and only shows one warning box. -/
theorem saveEditedSource_invalid_keeps_widgets (env : Env) (d : SatellitesDialog)
    (h : env.trimmed d.ui.sourceEdit.text = "" ∨
      env.urlIsValid (env.trimmed d.ui.sourceEdit.text) = false ∨
      QString.contains (env.trimmed d.ui.sourceEdit.text) "://" = false) :
    (saveEditedSource env d).ui = d.ui ∧
    (saveEditedSource env d).checkStateRole = d.checkStateRole ∧
    (saveEditedSource env d).plugin = d.plugin ∧
    ∃ text, (saveEditedSource env d).trace = d.trace ++ [Effect.warning (env.q_ "Warning!") text] := by
  unfold saveEditedSource
  by_cases h1 : ((env.trimmed d.ui.sourceEdit.text).isEmpty ||
      env.trimmed d.ui.sourceEdit.text == "") = true
  · rw [if_pos h1]
    exact ⟨rfl, rfl, rfl, _, rfl⟩
  · have h2 : (!env.urlIsValid (env.trimmed d.ui.sourceEdit.text) ||
        !QString.contains (env.trimmed d.ui.sourceEdit.text) "://") = true := by
      rcases h with h | h | h
      · exact absurd (by simp [h]) h1
      · simp [h]
      · simp [h]
    rw [if_neg h1, if_pos h2]
    exact ⟨rfl, rfl, rfl, _, rfl⟩

/-- Witness of C3: the text "no url" has no "://". -/
theorem saveEditedSource_invalid_keeps_widgets_witness :
    (sampleEnv.trimmed noUrlTyped.ui.sourceEdit.text = "" ∨
      sampleEnv.urlIsValid (sampleEnv.trimmed noUrlTyped.ui.sourceEdit.text) = false ∨
      QString.contains (sampleEnv.trimmed noUrlTyped.ui.sourceEdit.text) "://" = false) ∧
    (saveEditedSource sampleEnv noUrlTyped).ui = noUrlTyped.ui :=
  ⟨by decide,
   (saveEditedSource_invalid_keeps_widgets sampleEnv noUrlTyped (by decide)).1⟩

/-- C4: when the user declines the confirmation, `deleteSourceRow`,
`restoreDefaults` and `restoreTleSources` return the dialog as it was: no
widget changes and nothing is asked of the plugin. -/
theorem declined_confirmation_changes_nothing (env : Env) (d : SatellitesDialog) :
    deleteSourceRow env false d = d ∧
    restoreDefaults env false d = d ∧
    restoreTleSources env false d = d :=
  ⟨rfl, rfl, rfl⟩

/-- C5: `removeSatellites` asks the plugin for `remove` followed by
`saveCatalog` exactly when the user confirmed and the selection is not empty,
and then `remove` receives the ids of the selected rows, one per row, in
selection order; otherwise nothing is asked of the plugin. -/
theorem removeSatellites_trace (env : Env) (confirmed : Bool) (d : SatellitesDialog) :
    (removeSatellites env confirmed d).trace =
      d.trace ++
        (if confirmed = true ∧ d.ui.satellitesList.selection ≠ [] then
          [Effect.remove (d.ui.satellitesList.selection.map fun index => (rowData d index).id),
           Effect.saveCatalog]
         else []) := by
  unfold removeSatellites
  cases confirmed with
  | false => simp
  | true =>
    cases hs : d.ui.satellitesList.selection with
    | nil => simp
    | cons a l => simp [saveSatellites, call, hs]

/-- C6: `updateTLEs` asks the plugin for exactly one operation:
`updateFromOnlineSources`, with no file dialog, when the plugin reports that
updates are enabled; otherwise `updateFromFiles` with the list returned by the
file dialog (whatever it is) and `false`.  The label that
`updateSettingsPage` gives the button is "Update now" in the first case and
"Update from files" in the second. -/
theorem updateTLEs_delegates (env : Env) (updateFiles : List String) (d : SatellitesDialog) :
    (updateTLEs env updateFiles d).trace =
      d.trace ++
        (if d.plugin.updatesEnabled = true then [Effect.updateFromOnlineSources]
         else [Effect.getOpenFileNames (env.q_ "Select TLE Update File"),
               Effect.updateFromFiles updateFiles false]) ∧
    (updateSettingsPage env d).ui.updateButton.text =
      (if d.plugin.updatesEnabled = true then env.q_ "Update now"
       else env.q_ "Update from files") := by
  unfold updateTLEs updateSettingsPage
  cases h : d.plugin.updatesEnabled <;>
    simp [call, modal, updateCountdown, QButton.setText]

/-! ### The right side of the satellites tab -/

/-- Setting the description text either only sets the text, or also runs
`descriptionTextChanged` on a non-empty selection; in both cases the widgets
other than the list view are those of `descriptionText`. -/
theorem setDescriptionText_cases (env : Env) (text : String) (d : SatellitesDialog) :
    setDescriptionText env text d = descriptionText text d ∨
    setDescriptionText env text d =
      saveSatellites env (setRows (descriptionText text d)
        (describedRows text d.ui.satellitesList.selection d.ui.satellitesList.rows)) := by
  unfold setDescriptionText descriptionTextChanged
  by_cases h1 : (descriptionText text d).ui.descriptionTextEdit.signalsBlocked = true
  · left
    rw [if_pos h1]
  · by_cases h2 : (descriptionText text d).ui.satellitesList.selection.isEmpty = true
    · left
      rw [if_neg h1, if_pos h2]
    · right
      rw [if_neg h1, if_neg h2]
      rfl

/-- The two courses `setRightSideToROMode` can take: the description text is
set without effect on the satellites, or it is written to the selected
satellites and the catalogue is saved. -/
theorem setRightSideToROMode_cases (env : Env) (d : SatellitesDialog) :
    setRightSideToROMode env d =
        disableFromGroups env (descriptionText "" (disableUpToDescription d)) ∨
      setRightSideToROMode env d =
        disableFromGroups env (saveSatellites env (setRows
          (descriptionText "" (disableUpToDescription d))
          (describedRows "" (disableUpToDescription d).ui.satellitesList.selection
            (disableUpToDescription d).ui.satellitesList.rows))) := by
  unfold setRightSideToROMode
  rcases setDescriptionText_cases env "" (disableUpToDescription d) with h | h
  · left
    simp only [h]
  · right
    simp only [h]

/-- Writing a description to rows changes neither their number nor their ids. -/
theorem describedRows_ids (newdesc : String) (selection : List Nat) (rows : List SatRow) :
    (describedRows newdesc selection rows).map (fun r => r.id) = rows.map (fun r => r.id) := by
  unfold describedRows
  induction selection generalizing rows with
  | nil => rfl
  | cons i rest ih =>
    rw [List.foldl_cons, ih, List.map_map]
    apply List.map_congr_left
    intro r _
    simp only [Function.comp]
    split_ifs <;> rfl

/-- What `setRightSideToROMode` leaves alone: the filter, the group filter
box, the selection and the ids of the rows; and it only adds to the trace. -/
theorem setRightSideToROMode_frame (env : Env) (d : SatellitesDialog) :
    (setRightSideToROMode env d).filterModel = d.filterModel ∧
    (setRightSideToROMode env d).ui.groupFilterCombo = d.ui.groupFilterCombo ∧
    (setRightSideToROMode env d).ui.satellitesList.selection = d.ui.satellitesList.selection ∧
    (setRightSideToROMode env d).ui.satellitesList.rows.map (fun r => r.id)
      = d.ui.satellitesList.rows.map (fun r => r.id) ∧
    ∃ t, (setRightSideToROMode env d).trace = d.trace ++ t := by
  rcases setRightSideToROMode_cases env d with h | h
  · rw [h]
    exact ⟨rfl, rfl, rfl, rfl, [], (List.append_nil _).symm⟩
  · rw [h]
    refine ⟨rfl, rfl, rfl, ?_, _, rfl⟩
    exact describedRows_ids _ _ _

/-- C11: after `setRightSideToROMode`, from every state of the dialog, the
remove and communication buttons, the three check boxes, the name, NORAD,
COSPAR, description, TLE line, standard magnitude, RCS, perigee, apogee and
period fields and the groups list are disabled, each of these text fields
and the TLE epoch label is empty, the three check boxes are unchecked, the
groups list has no item, and the three button colours are grey
(0.7, 0.7, 0.7), which is also what the style sheets of the colour buttons
show.  `setRightSideToRWMode` enables the same seventeen widgets and leaves
everything else as it is: their texts, check states and items, the epoch
label, the colours, the colour buttons and all that is outside the right
side. -/
theorem rightSide_readOnly_readWrite (env : Env) (d : SatellitesDialog) :
    ((setRightSideToROMode env d).ui.removeSatellitesButton.enabled = false ∧
      (setRightSideToROMode env d).ui.commSatelliteButton.enabled = false ∧
      (setRightSideToROMode env d).ui.displayedCheckbox.enabled = false ∧
      (setRightSideToROMode env d).ui.orbitCheckbox.enabled = false ∧
      (setRightSideToROMode env d).ui.userCheckBox.enabled = false ∧
      (setRightSideToROMode env d).ui.nameEdit.enabled = false ∧
      (setRightSideToROMode env d).ui.noradNumberEdit.enabled = false ∧
      (setRightSideToROMode env d).ui.cosparNumberEdit.enabled = false ∧
      (setRightSideToROMode env d).ui.descriptionTextEdit.enabled = false ∧
      (setRightSideToROMode env d).ui.tleFirstLineEdit.enabled = false ∧
      (setRightSideToROMode env d).ui.tleSecondLineEdit.enabled = false ∧
      (setRightSideToROMode env d).ui.stdMagnitudeLineEdit.enabled = false ∧
      (setRightSideToROMode env d).ui.rcsLineEdit.enabled = false ∧
      (setRightSideToROMode env d).ui.perigeeLineEdit.enabled = false ∧
      (setRightSideToROMode env d).ui.apogeeLineEdit.enabled = false ∧
      (setRightSideToROMode env d).ui.periodLineEdit.enabled = false ∧
      (setRightSideToROMode env d).ui.groupsListWidget.enabled = false) ∧
    ((setRightSideToROMode env d).ui.nameEdit.text = "" ∧
      (setRightSideToROMode env d).ui.noradNumberEdit.text = "" ∧
      (setRightSideToROMode env d).ui.cosparNumberEdit.text = "" ∧
      (setRightSideToROMode env d).ui.descriptionTextEdit.text = "" ∧
      (setRightSideToROMode env d).ui.tleFirstLineEdit.text = "" ∧
      (setRightSideToROMode env d).ui.tleSecondLineEdit.text = "" ∧
      (setRightSideToROMode env d).ui.stdMagnitudeLineEdit.text = "" ∧
      (setRightSideToROMode env d).ui.rcsLineEdit.text = "" ∧
      (setRightSideToROMode env d).ui.perigeeLineEdit.text = "" ∧
      (setRightSideToROMode env d).ui.apogeeLineEdit.text = "" ∧
      (setRightSideToROMode env d).ui.periodLineEdit.text = "" ∧
      (setRightSideToROMode env d).ui.labelTleEpochData = "") ∧
    ((setRightSideToROMode env d).ui.displayedCheckbox.checkState = CheckState.Unchecked ∧
      (setRightSideToROMode env d).ui.orbitCheckbox.checkState = CheckState.Unchecked ∧
      (setRightSideToROMode env d).ui.userCheckBox.checkState = CheckState.Unchecked ∧
      (setRightSideToROMode env d).ui.groupsListWidget.items = []) ∧
    ((setRightSideToROMode env d).buttonMarkerColor = QColor.fromRgbF f0_7 f0_7 f0_7 ∧
      (setRightSideToROMode env d).buttonOrbitColor = QColor.fromRgbF f0_7 f0_7 f0_7 ∧
      (setRightSideToROMode env d).buttonInfoColor = QColor.fromRgbF f0_7 f0_7 f0_7 ∧
      (setRightSideToROMode env d).ui.satMarkerColorPickerButton.styleSheet =
        colorStyleSheet env (QColor.fromRgbF f0_7 f0_7 f0_7) ∧
      (setRightSideToROMode env d).ui.satOrbitColorPickerButton.styleSheet =
        colorStyleSheet env (QColor.fromRgbF f0_7 f0_7 f0_7) ∧
      (setRightSideToROMode env d).ui.satInfoColorPickerButton.styleSheet =
        colorStyleSheet env (QColor.fromRgbF f0_7 f0_7 f0_7)) ∧
    ((setRightSideToRWMode d).ui.removeSatellitesButton
        = d.ui.removeSatellitesButton.setEnabled true ∧
      (setRightSideToRWMode d).ui.commSatelliteButton
        = d.ui.commSatelliteButton.setEnabled true ∧
      (setRightSideToRWMode d).ui.displayedCheckbox = d.ui.displayedCheckbox.setEnabled true ∧
      (setRightSideToRWMode d).ui.orbitCheckbox = d.ui.orbitCheckbox.setEnabled true ∧
      (setRightSideToRWMode d).ui.userCheckBox = d.ui.userCheckBox.setEnabled true ∧
      (setRightSideToRWMode d).ui.nameEdit = d.ui.nameEdit.setEnabled true ∧
      (setRightSideToRWMode d).ui.noradNumberEdit = d.ui.noradNumberEdit.setEnabled true ∧
      (setRightSideToRWMode d).ui.cosparNumberEdit = d.ui.cosparNumberEdit.setEnabled true ∧
      (setRightSideToRWMode d).ui.descriptionTextEdit
        = d.ui.descriptionTextEdit.setEnabled true ∧
      (setRightSideToRWMode d).ui.tleFirstLineEdit = d.ui.tleFirstLineEdit.setEnabled true ∧
      (setRightSideToRWMode d).ui.tleSecondLineEdit = d.ui.tleSecondLineEdit.setEnabled true ∧
      (setRightSideToRWMode d).ui.stdMagnitudeLineEdit
        = d.ui.stdMagnitudeLineEdit.setEnabled true ∧
      (setRightSideToRWMode d).ui.rcsLineEdit = d.ui.rcsLineEdit.setEnabled true ∧
      (setRightSideToRWMode d).ui.perigeeLineEdit = d.ui.perigeeLineEdit.setEnabled true ∧
      (setRightSideToRWMode d).ui.apogeeLineEdit = d.ui.apogeeLineEdit.setEnabled true ∧
      (setRightSideToRWMode d).ui.periodLineEdit = d.ui.periodLineEdit.setEnabled true ∧
      (setRightSideToRWMode d).ui.groupsListWidget.enabled = true ∧
      (setRightSideToRWMode d).ui.groupsListWidget.items = d.ui.groupsListWidget.items ∧
      (setRightSideToRWMode d).ui.groupsListWidget.currentRow
        = d.ui.groupsListWidget.currentRow ∧
      (setRightSideToRWMode d).ui.groupsListWidget.signalsBlocked
        = d.ui.groupsListWidget.signalsBlocked) ∧
    ((setRightSideToRWMode d).ui.labelTleEpochData = d.ui.labelTleEpochData ∧
      (setRightSideToRWMode d).buttonMarkerColor = d.buttonMarkerColor ∧
      (setRightSideToRWMode d).buttonOrbitColor = d.buttonOrbitColor ∧
      (setRightSideToRWMode d).buttonInfoColor = d.buttonInfoColor ∧
      (setRightSideToRWMode d).ui.satMarkerColorPickerButton
        = d.ui.satMarkerColorPickerButton ∧
      (setRightSideToRWMode d).ui.satOrbitColorPickerButton = d.ui.satOrbitColorPickerButton ∧
      (setRightSideToRWMode d).ui.satInfoColorPickerButton = d.ui.satInfoColorPickerButton ∧
      outsideRightSide (setRightSideToRWMode d) = outsideRightSide d) := by
  have hro := setRightSideToROMode_cases env d
  refine ⟨?_, ?_, ?_, ?_, ?_, ?_⟩
  · rcases hro with h | h <;> rw [h] <;>
      exact ⟨rfl, rfl, rfl, rfl, rfl, rfl, rfl, rfl, rfl, rfl, rfl, rfl, rfl, rfl, rfl, rfl, rfl⟩
  · rcases hro with h | h <;> rw [h] <;>
      exact ⟨rfl, rfl, rfl, rfl, rfl, rfl, rfl, rfl, rfl, rfl, rfl, rfl⟩
  · rcases hro with h | h <;> rw [h] <;> exact ⟨rfl, rfl, rfl, rfl⟩
  · rcases hro with h | h <;> rw [h] <;> exact ⟨rfl, rfl, rfl, rfl, rfl, rfl⟩
  · exact ⟨rfl, rfl, rfl, rfl, rfl, rfl, rfl, rfl, rfl, rfl, rfl, rfl, rfl, rfl, rfl, rfl, rfl,
      rfl, rfl, rfl⟩
  · exact ⟨rfl, rfl, rfl, rfl, rfl, rfl, rfl, rfl⟩

/-! ### The group filter -/

/-- What `updateSatelliteData` leaves alone: the filter, the group filter box
with its button, and the list view; and it only adds to the trace. -/
theorem updateSatelliteData_frame (env : Env) (d : SatellitesDialog) :
    (updateSatelliteData env d).filterModel = d.filterModel ∧
    (updateSatelliteData env d).ui.customFilterButton = d.ui.customFilterButton ∧
    (updateSatelliteData env d).ui.groupFilterCombo = d.ui.groupFilterCombo ∧
    (updateSatelliteData env d).ui.satellitesList = d.ui.satellitesList ∧
    ∃ t, (updateSatelliteData env d).trace = d.trace ++ t := by
  by_cases h : d.ui.satellitesList.selection = []
  · have hsel : (clearModified (setRightSideToRWMode d)).ui.satellitesList.selection.isEmpty
        = true := by
      show d.ui.satellitesList.selection.isEmpty = true
      rw [h]
      rfl
    have he : updateSatelliteData env d = clearModified (setRightSideToRWMode d) := by
      unfold updateSatelliteData
      simp only [hsel, if_true]
    rw [he]
    exact ⟨rfl, rfl, rfl, rfl, [], (List.append_nil _).symm⟩
  · rw [updateSatelliteData_eq env d h]
    have hs : (shownSelection env d).filterModel = d.filterModel ∧
        (shownSelection env d).ui.customFilterButton = d.ui.customFilterButton ∧
        (shownSelection env d).ui.groupFilterCombo = d.ui.groupFilterCombo ∧
        (shownSelection env d).ui.satellitesList = d.ui.satellitesList ∧
        ∃ t, (shownSelection env d).trace = d.trace ++ t := by
      unfold shownSelection selectionFields
      simp only
      split_ifs
      · exact ⟨rfl, rfl, rfl, rfl, _, rfl⟩
      · exact ⟨rfl, rfl, rfl, rfl, _, rfl⟩
    exact hs

/-- What `setSecondaryFilters` does to the filter, the group filter box and
the list view. -/
theorem setSecondaryFilters_frame (env : Env) (group : String) (flag : Nat)
    (d : SatellitesDialog) :
    (setSecondaryFilters env group flag d).filterModel = SecondaryFilters.mk group flag ∧
    (setSecondaryFilters env group flag d).ui.customFilterButton = d.ui.customFilterButton ∧
    (setSecondaryFilters env group flag d).ui.groupFilterCombo = d.ui.groupFilterCombo ∧
    (setSecondaryFilters env group flag d).ui.satellitesList =
      env.filterRows group flag d.plugin d.ui.satellitesList ∧
    ∃ t, (setSecondaryFilters env group flag d).trace = d.trace ++ t := by
  unfold setSecondaryFilters
  simp only
  split_ifs
  · obtain ⟨h1, h2, h3, h4, t, h5⟩ := updateSatelliteData_frame env
      { d with
        filterModel := SecondaryFilters.mk group flag
        ui := { d.ui with satellitesList := env.filterRows group flag d.plugin d.ui.satellitesList } }
    exact ⟨h1, h2, h3, h4, t, h5⟩
  · exact ⟨rfl, rfl, rfl, rfl, [], (List.append_nil _).symm⟩

/-- What `filterListByGroup` does for an index that is not negative. -/
theorem filterListByGroup_frame (env : Env) (index : Int) (d : SatellitesDialog)
    (h : 0 ≤ index) :
    (filterListByGroup env index d).filterModel =
      (if QString.contains (d.ui.groupFilterCombo.itemData index).toString "[" = true ∨
          (d.ui.groupFilterCombo.itemData index).toString = "all" then
        SecondaryFilters.mk ""
          (mapValue (secondaryFilter env.flag) (d.ui.groupFilterCombo.itemData index).toString
            env.flag.SatNoFlags)
       else
        SecondaryFilters.mk (d.ui.groupFilterCombo.itemData index).toString
          env.flag.SatNoFlags) ∧
    (filterListByGroup env index d).ui.customFilterButton =
      d.ui.customFilterButton.setEnabled
        (decide ((d.ui.groupFilterCombo.itemData index).toString = "[custom]")) ∧
    (filterListByGroup env index d).ui.groupFilterCombo = d.ui.groupFilterCombo ∧
    (filterListByGroup env index d).ui.satellitesList.rows =
      (env.filterRows (filterListByGroup env index d).filterModel.group
        (filterListByGroup env index d).filterModel.flag d.plugin d.ui.satellitesList).rows ∧
    (filterListByGroup env index d).ui.satellitesList.selection =
      (env.filterRows (filterListByGroup env index d).filterModel.group
        (filterListByGroup env index d).filterModel.flag d.plugin d.ui.satellitesList).selection ∧
    ∃ t, (filterListByGroup env index d).trace = d.trace ++ t := by
  have hbutton : ∀ g : String, (customFilterFor g d).ui.customFilterButton =
      d.ui.customFilterButton.setEnabled (decide (g = "[custom]")) ∧
      (customFilterFor g d).ui.groupFilterCombo = d.ui.groupFilterCombo ∧
      (customFilterFor g d).ui.satellitesList = d.ui.satellitesList ∧
      (customFilterFor g d).plugin = d.plugin ∧
      (customFilterFor g d).trace = d.trace := by
    intro g
    unfold customFilterFor
    dsimp only
    by_cases hg : g = "[custom]"
    · have hb : (g == "[custom]") = true := by simpa using hg
      rw [if_pos hb, decide_eq_true hg]
      exact ⟨rfl, rfl, rfl, rfl, rfl⟩
    · have hb : ¬ (g == "[custom]") = true := by simpa using hg
      rw [if_neg hb, decide_eq_false hg]
      exact ⟨rfl, rfl, rfl, rfl, rfl⟩
  have hscroll : ∀ x : SatellitesDialog, (scrollToFirst x).filterModel = x.filterModel ∧
      (scrollToFirst x).ui.customFilterButton = x.ui.customFilterButton ∧
      (scrollToFirst x).ui.groupFilterCombo = x.ui.groupFilterCombo ∧
      (scrollToFirst x).ui.satellitesList.rows = x.ui.satellitesList.rows ∧
      (scrollToFirst x).ui.satellitesList.selection = x.ui.satellitesList.selection ∧
      (scrollToFirst x).trace = x.trace := by
    intro x
    unfold scrollToFirst
    split_ifs <;> exact ⟨rfl, rfl, rfl, rfl, rfl, rfl⟩
  have hidx : ¬ index < 0 := not_lt.mpr h
  unfold filterListByGroup
  rw [if_neg hidx]
  simp only
  obtain ⟨b1, b2, b3, b4, b5⟩ := hbutton (d.ui.groupFilterCombo.itemData index).toString
  obtain ⟨s1, s2, s3, s4, s5, s6⟩ := hscroll
    (secondaryFiltersFor env (d.ui.groupFilterCombo.itemData index).toString
      (customFilterFor (d.ui.groupFilterCombo.itemData index).toString d))
  rw [s1, s2, s3, s4, s5, s6]
  unfold secondaryFiltersFor
  by_cases hc : QString.contains (d.ui.groupFilterCombo.itemData index).toString "[" = true ∨
      (d.ui.groupFilterCombo.itemData index).toString = "all"
  · have hcb : (QString.contains (d.ui.groupFilterCombo.itemData index).toString "[" ||
        (d.ui.groupFilterCombo.itemData index).toString == "all") = true := by
      rcases hc with hc | hc
      · simp [hc]
      · simp [hc]
    rw [if_pos hcb, if_pos hc]
    obtain ⟨f1, f2, f3, f4, t, f5⟩ := setSecondaryFilters_frame env ""
      (mapValue (secondaryFilter env.flag) (d.ui.groupFilterCombo.itemData index).toString
        env.flag.SatNoFlags)
      (customFilterFor (d.ui.groupFilterCombo.itemData index).toString d)
    rw [f1, f2, f3, f4, f5, b1, b2, b3, b4, b5]
    exact ⟨rfl, rfl, rfl, rfl, rfl, t, rfl⟩
  · have hcb : ¬ (QString.contains (d.ui.groupFilterCombo.itemData index).toString "[" ||
        (d.ui.groupFilterCombo.itemData index).toString == "all") = true := by
      intro hb
      apply hc
      rcases Bool.or_eq_true _ _ |>.mp hb with h1 | h1
      · exact Or.inl h1
      · exact Or.inr (by simpa using h1)
    rw [if_neg hcb, if_neg hc]
    obtain ⟨f1, f2, f3, f4, t, f5⟩ := setSecondaryFilters_frame env
      (d.ui.groupFilterCombo.itemData index).toString env.flag.SatNoFlags
      (customFilterFor (d.ui.groupFilterCombo.itemData index).toString d)
    rw [f1, f2, f3, f4, f5, b1, b2, b3, b4, b5]
    exact ⟨rfl, rfl, rfl, rfl, rfl, t, rfl⟩

/-- C12: for an index that is not negative, with `g` the id of the entry of the
group filter box at that index, `filterListByGroup` sets the secondary filter
of the list to no group and the flag of its table for `g` (`SatNoFlags` when
`g` is not in the table) if `g` has a "[" or is "all", and to the group `g`
with `SatNoFlags` otherwise; the custom-filter button ends enabled exactly
when `g` is "[custom]".  For a negative index nothing changes at all. -/
theorem filterListByGroup_spec (env : Env) (index : Int) (d : SatellitesDialog) :
    (0 ≤ index →
      ((QString.contains (d.ui.groupFilterCombo.itemData index).toString "[" = true ∨
          (d.ui.groupFilterCombo.itemData index).toString = "all") →
        (filterListByGroup env index d).filterModel =
          SecondaryFilters.mk ""
            (mapValue (secondaryFilter env.flag)
              (d.ui.groupFilterCombo.itemData index).toString env.flag.SatNoFlags)) ∧
      (¬ (QString.contains (d.ui.groupFilterCombo.itemData index).toString "[" = true ∨
          (d.ui.groupFilterCombo.itemData index).toString = "all") →
        (filterListByGroup env index d).filterModel =
          SecondaryFilters.mk (d.ui.groupFilterCombo.itemData index).toString
            env.flag.SatNoFlags) ∧
      ((filterListByGroup env index d).ui.customFilterButton.enabled = true ↔
        (d.ui.groupFilterCombo.itemData index).toString = "[custom]")) ∧
    (index < 0 → filterListByGroup env index d = d) := by
  constructor
  · intro h
    obtain ⟨hf, hb, -⟩ := filterListByGroup_frame env index d h
    refine ⟨fun hc => ?_, fun hc => ?_, ?_⟩
    · rw [hf, if_pos hc]
    · rw [hf, if_neg hc]
    · rw [hb]
      simp [QButton.setEnabled]
  · intro h
    unfold filterListByGroup
    rw [if_pos h]

/-- Witness of C12: in the populated box the entry 10 is "[custom]", so the
filter is no group with `SatCustomFilter` and the button is enabled; the entry
31 is the group "science", so the filter is that group with `SatNoFlags` and
the button is disabled. -/
theorem filterListByGroup_spec_witness :
    (0 : Int) ≤ 10 ∧
    (populated.ui.groupFilterCombo.itemData 10).toString = "[custom]" ∧
    (filterListByGroup sampleEnv 10 populated).filterModel
      = SecondaryFilters.mk "" sampleEnv.flag.SatCustomFilter ∧
    (filterListByGroup sampleEnv 10 populated).ui.customFilterButton.enabled = true ∧
    (populated.ui.groupFilterCombo.itemData 31).toString = "science" ∧
    (filterListByGroup sampleEnv 31 populated).filterModel
      = SecondaryFilters.mk "science" sampleEnv.flag.SatNoFlags ∧
    ¬ (filterListByGroup sampleEnv 31 populated).ui.customFilterButton.enabled = true :=
  ⟨by decide, by decide,
    ((filterListByGroup_spec sampleEnv 10 populated).1 (by decide)).1 (by decide),
    ((filterListByGroup_spec sampleEnv 10 populated).1 (by decide)).2.2.mpr (by decide),
    by decide,
    ((filterListByGroup_spec sampleEnv 31 populated).1 (by decide)).2.1 (by decide),
    fun h => absurd (((filterListByGroup_spec sampleEnv 31 populated).1 (by decide)).2.2.mp h)
      (by decide)⟩

/-! ### The countdown -/

/-- C15: the label that `updateCountdown` sets depends on the dialog only
through three values of the plugin: whether updates are enabled, the update
state and the seconds to the next update `s`.  It is "Internet updates
disabled" when updates are disabled; otherwise "Updating now..." in the state
`Updating`; otherwise "Next update: < 1 minute" when `s ≤ 60`, "Next update:
n m" with `n = s / 60 + 1` when `60 < s < 3600`, and "Next update: n h" with
`n = s / 3600 + 1` when `3600 ≤ s` (each text is passed through the
translator, the number through `QString::number`). -/
theorem updateCountdown_label (env : Env) (d : SatellitesDialog) :
    (d.plugin.updatesEnabled = false →
      (updateCountdown env d).ui.nextUpdateLabel = env.q_ "Internet updates disabled") ∧
    (d.plugin.updatesEnabled = true → d.plugin.updateState = UpdateState.Updating →
      (updateCountdown env d).ui.nextUpdateLabel = env.q_ "Updating now...") ∧
    (d.plugin.updatesEnabled = true → d.plugin.updateState ≠ UpdateState.Updating →
      d.plugin.secondsToUpdate ≤ 60 →
      (updateCountdown env d).ui.nextUpdateLabel =
        env.q_ "Next update" ++ ": " ++ env.q_ "< 1 minute") ∧
    (d.plugin.updatesEnabled = true → d.plugin.updateState ≠ UpdateState.Updating →
      60 < d.plugin.secondsToUpdate → d.plugin.secondsToUpdate < 3600 →
      (updateCountdown env d).ui.nextUpdateLabel =
        env.q_ "Next update" ++ ": " ++ env.number (d.plugin.secondsToUpdate / 60 + 1)
          ++ " " ++ env.qc_ "m" "time") ∧
    (d.plugin.updatesEnabled = true → d.plugin.updateState ≠ UpdateState.Updating →
      3600 ≤ d.plugin.secondsToUpdate →
      (updateCountdown env d).ui.nextUpdateLabel =
        env.q_ "Next update" ++ ": " ++ env.number (d.plugin.secondsToUpdate / 3600 + 1)
          ++ " " ++ env.qc_ "h" "time") ∧
    (∀ d2 : SatellitesDialog, d2.plugin.updatesEnabled = d.plugin.updatesEnabled →
      d2.plugin.updateState = d.plugin.updateState →
      d2.plugin.secondsToUpdate = d.plugin.secondsToUpdate →
      (updateCountdown env d2).ui.nextUpdateLabel = (updateCountdown env d).ui.nextUpdateLabel) := by
  refine ⟨?_, ?_, ?_, ?_, ?_, ?_⟩
  · intro h
    simp [updateCountdown, h]
  · intro h1 h2
    simp [updateCountdown, h1, h2]
  · intro h1 h2 h3
    simp [updateCountdown, h1, h2, h3]
  · intro h1 h2 h3 h4
    have h5 : ¬ d.plugin.secondsToUpdate ≤ 60 := not_le.mpr h3
    have h6 : Int.tdiv d.plugin.secondsToUpdate 60 = d.plugin.secondsToUpdate / 60 :=
      Int.tdiv_eq_ediv (by omega) (by decide)
    simp [updateCountdown, h1, h2, h5, h4, h6]
  · intro h1 h2 h3
    have h5 : ¬ d.plugin.secondsToUpdate ≤ 60 := by omega
    have h4 : ¬ d.plugin.secondsToUpdate < 3600 := not_lt.mpr h3
    have h6 : Int.tdiv d.plugin.secondsToUpdate 3600 = d.plugin.secondsToUpdate / 3600 :=
      Int.tdiv_eq_ediv (by omega) (by decide)
    simp [updateCountdown, h1, h2, h5, h4, h6]
  · intro d2 h1 h2 h3
    simp only [updateCountdown, h1, h2, h3]

/-- Witness of C15: with updates enabled, no update running and 125 seconds to
go, the label is "Next update: 3 m". -/
theorem updateCountdown_label_witness :
    mixedSelection.plugin.updatesEnabled = true ∧
    mixedSelection.plugin.updateState ≠ UpdateState.Updating ∧
    60 < mixedSelection.plugin.secondsToUpdate ∧
    mixedSelection.plugin.secondsToUpdate < 3600 ∧
    (updateCountdown sampleEnv mixedSelection).ui.nextUpdateLabel = "Next update: 3 m" :=
  ⟨by decide, by decide, by decide, by decide,
    ((updateCountdown_label sampleEnv mixedSelection).2.2.2.1 (by decide) (by decide)
      (by decide) (by decide)).trans (by decide)⟩

/-! ### The filter menu -/

/-- Inserting the items of a list one by one at row 0 puts them in front in
reverse order. -/
theorem foldl_insert_front (l init : List QComboItem) :
    l.foldl (fun items it => it :: items) init = l.reverse ++ init := by
  induction l generalizing init with
  | nil => rfl
  | cons x rest ih => simp [List.foldl_cons, ih]

/-- An id that some entry of a box carries is found by `findData`, at an index
of the box whose entry carries it. -/
theorem findData_of_mem (c : QComboBox) (v : QVariant)
    (h : ∃ it ∈ c.items, it.data = v) :
    0 ≤ c.findData v ∧ c.findData v < c.items.length ∧ c.itemData (c.findData v) = v := by
  unfold QComboBox.findData
  cases hf : c.items.findIdx? (fun it => decide (it.data = v)) with
  | none =>
    rw [List.findIdx?_eq_none_iff] at hf
    obtain ⟨it, hit, hv⟩ := h
    have := hf it hit
    simp [hv] at this
  | some i =>
    rw [List.findIdx?_eq_some_iff_getElem] at hf
    obtain ⟨hlt, hp, -⟩ := hf
    refine ⟨Int.ofNat_nonneg i, Int.ofNat_lt.mpr hlt, ?_⟩
    unfold QComboBox.itemData
    simp only [Int.ofNat_nonneg, if_true, Int.toNat_ofNat, List.get?_eq_getElem?,
      List.getElem?_eq_getElem hlt]
    simpa using hp

/-- An id that no entry of a box carries is not found. -/
theorem findData_of_not_mem (c : QComboBox) (v : QVariant)
    (h : ¬ ∃ it ∈ c.items, it.data = v) : c.findData v = -1 := by
  unfold QComboBox.findData
  have hf : c.items.findIdx? (fun it => decide (it.data = v)) = none := by
    rw [List.findIdx?_eq_none_iff]
    intro it hit
    simp only [decide_eq_false_iff_not]
    exact fun hv => h ⟨it, hit, hv⟩
  rw [hf]

/-- The rebuilt box blocks its signals, starts with the entry "all" and is not
empty. -/
theorem repopulatedCombo_facts (env : Env) (d : SatellitesDialog) :
    (repopulatedCombo env d).signalsBlocked = true ∧
    (repopulatedCombo env d).itemData 0 = QVariant.string "all" ∧
    (0 : Int) < (repopulatedCombo env d).items.length := by
  have hitems : (repopulatedCombo env d).items =
      (specialFilterItems env).reverse ++ env.sortCombo
        (d.plugin.groupIdList.map fun group => (⟨env.q_ group, .string group⟩ : QComboItem)) :=
    foldl_insert_front _ _
  refine ⟨rfl, ?_, ?_⟩
  · unfold QComboBox.itemData
    rw [hitems]
    simp [specialFilterItems]
  · rw [hitems]
    simp [specialFilterItems]
    omega

/-- With the signals of the box blocked, `setCurrentIndex` changes the current
index and nothing else. -/
theorem setGroupFilterIndex_blocked (env : Env) (index : Int) (d : SatellitesDialog)
    (hb : d.ui.groupFilterCombo.signalsBlocked = true) (h0 : 0 ≤ index)
    (h1 : index < d.ui.groupFilterCombo.items.length) :
    setGroupFilterIndex env index d =
      setGroupFilterCombo d (QComboBox.mk d.ui.groupFilterCombo.items index true) := by
  unfold setGroupFilterIndex
  have hr : (0 ≤ index ∧ index < d.ui.groupFilterCombo.items.length) := ⟨h0, h1⟩
  simp only [if_pos hr]
  have hs : (setGroupFilterCombo d { d.ui.groupFilterCombo with
      currentIndex := index }).ui.groupFilterCombo.signalsBlocked = true := hb
  simp only [hs, Bool.not_true, Bool.and_false, Bool.false_eq_true, if_false]
  unfold setGroupFilterCombo
  congr 3
  rw [← hb]

/-- The saved id is the id of the current entry. -/
theorem selectedFilterId_eq (d : SatellitesDialog) : selectedFilterId d = currentFilterId d := by
  unfold selectedFilterId currentFilterId
  simp only
  split_ifs with h
  · rfl
  · simp only [Bool.and_eq_true, decide_eq_true_eq, not_and_or] at h
    unfold QComboBox.itemData
    rcases h with h | h
    · have hl : d.ui.groupFilterCombo.items = [] := by
        cases hi : d.ui.groupFilterCombo.items with
        | nil => rfl
        | cons a l => rw [hi] at h; simp at h
      rw [hl]
      split_ifs <;> rfl
    · have h2 : ¬ 0 ≤ d.ui.groupFilterCombo.currentIndex := by omega
      rw [if_neg h2]
      rfl

/-- Unfolding of `populateFilterMenu`: only the group filter box changes; it
gets the rebuilt entries and the restored index and no longer blocks its
signals. -/
theorem populateFilterMenu_eq (env : Env) (d : SatellitesDialog) :
    populateFilterMenu env d =
      setGroupFilterCombo d (QComboBox.mk (repopulatedCombo env d).items
        (if currentFilterId d ≠ "" then
          max 0 ((repopulatedCombo env d).findData (QVariant.string (currentFilterId d)))
         else 0) false) := by
  obtain ⟨hb, -, hlen⟩ := repopulatedCombo_facts env d
  have hidx : (if !(selectedFilterId d).isEmpty then
        max 0 ((repopulatedCombo env d).findData (QVariant.string (selectedFilterId d)))
      else 0) =
      (if currentFilterId d ≠ "" then
        max 0 ((repopulatedCombo env d).findData (QVariant.string (currentFilterId d)))
       else 0) := by
    rw [selectedFilterId_eq]
    by_cases he : currentFilterId d = ""
    · have hi : (currentFilterId d).isEmpty = true := (String.isEmpty_iff _).mpr he
      have hn : ¬ (!(currentFilterId d).isEmpty) = true := by simp [hi]
      rw [if_neg hn, if_neg (not_not.mpr he)]
    · have hi : ¬ (currentFilterId d).isEmpty = true :=
        fun h => he ((String.isEmpty_iff _).mp h)
      have hp : (!(currentFilterId d).isEmpty) = true := by simpa using hi
      rw [if_pos hp, if_pos he]
  have h0 : (0 : Int) ≤ (if currentFilterId d ≠ "" then
        max 0 ((repopulatedCombo env d).findData (QVariant.string (currentFilterId d)))
       else 0) := by
    split_ifs
    · exact le_max_left _ _
    · exact le_refl _
  have h1 : (if currentFilterId d ≠ "" then
        max 0 ((repopulatedCombo env d).findData (QVariant.string (currentFilterId d)))
       else 0) < ((repopulatedCombo env d).items.length : Int) := by
    split_ifs
    · by_cases hm : ∃ it ∈ (repopulatedCombo env d).items,
          it.data = QVariant.string (currentFilterId d)
      · exact max_lt hlen (findData_of_mem _ _ hm).2.1
      · rw [findData_of_not_mem _ _ hm]
        exact max_lt hlen (by omega)
    · exact hlen
  unfold populateFilterMenu
  simp only
  rw [hidx, setGroupFilterIndex_blocked env _ (setGroupFilterCombo d (repopulatedCombo env d))
    hb h0 h1]
  rfl

/-- C13, as amended: `populateFilterMenu` changes nothing but the group filter
box, so the list is not filtered again during the call.  When the id of the
entry that was current before is not empty and is the id of an entry of the
rebuilt box, the current entry afterwards has that id.  When no entry was
current before, or the id of the current entry was empty, or no entry of the
rebuilt box has it, the current index afterwards is 0, which is the entry
"all". -/
theorem populateFilterMenu_restores (env : Env) (d : SatellitesDialog) :
    (currentFilterId d ≠ "" →
      (∃ it ∈ (populateFilterMenu env d).ui.groupFilterCombo.items,
        it.data = QVariant.string (currentFilterId d)) →
      (populateFilterMenu env d).ui.groupFilterCombo.itemData
        (populateFilterMenu env d).ui.groupFilterCombo.currentIndex
          = QVariant.string (currentFilterId d)) ∧
    ((d.ui.groupFilterCombo.currentIndex < 0 ∨ currentFilterId d = "" ∨
        ¬ ∃ it ∈ (populateFilterMenu env d).ui.groupFilterCombo.items,
          it.data = QVariant.string (currentFilterId d)) →
      (populateFilterMenu env d).ui.groupFilterCombo.currentIndex = 0) ∧
    (populateFilterMenu env d).ui.groupFilterCombo.itemData 0 = QVariant.string "all" ∧
    (populateFilterMenu env d).ui.groupFilterCombo.signalsBlocked = false ∧
    populateFilterMenu env d =
      setGroupFilterCombo d (populateFilterMenu env d).ui.groupFilterCombo ∧
    (populateFilterMenu env d).filterModel = d.filterModel ∧
    (populateFilterMenu env d).ui.satellitesList = d.ui.satellitesList ∧
    (populateFilterMenu env d).ui.customFilterButton = d.ui.customFilterButton ∧
    (populateFilterMenu env d).trace = d.trace := by
  have he := populateFilterMenu_eq env d
  have hitems : (populateFilterMenu env d).ui.groupFilterCombo.items =
      (repopulatedCombo env d).items := by rw [he]; rfl
  have hindex : (populateFilterMenu env d).ui.groupFilterCombo.currentIndex =
      (if currentFilterId d ≠ "" then
        max 0 ((repopulatedCombo env d).findData (QVariant.string (currentFilterId d)))
       else 0) := by rw [he]; rfl
  have hdata : ∀ i, (populateFilterMenu env d).ui.groupFilterCombo.itemData i =
      (repopulatedCombo env d).itemData i := by
    intro i
    unfold QComboBox.itemData
    rw [hitems]
  have hneg : d.ui.groupFilterCombo.currentIndex < 0 → currentFilterId d = "" := by
    intro hlt
    unfold currentFilterId QComboBox.itemData
    rw [if_neg (by omega)]
    rfl
  refine ⟨?_, ?_, ?_, ?_, ?_, ?_, ?_, ?_, ?_⟩
  · intro hne hm
    rw [hitems] at hm
    obtain ⟨f0, -, f2⟩ := findData_of_mem _ _ hm
    rw [hdata, hindex, if_pos hne, max_eq_right f0]
    exact f2
  · intro h
    rw [hindex]
    by_cases hne : currentFilterId d = ""
    · rw [if_neg (not_not.mpr hne)]
    · rw [if_pos hne]
      rcases h with h | h | h
      · exact absurd (hneg h) hne
      · exact absurd h hne
      · rw [hitems] at h
        rw [findData_of_not_mem _ _ h]
        rfl
  · rw [hdata]
    exact (repopulatedCombo_facts env d).2.1
  · rw [he]; rfl
  · conv_lhs => rw [he]
    rw [he]
    rfl
  · rw [he]; rfl
  · rw [he]; rfl
  · rw [he]; rfl
  · rw [he]; rfl

/-- Witness of C13: the entry "science" was current, the plugin still has the
group, and the entry is current again. -/
theorem populateFilterMenu_restores_witness :
    currentFilterId scienceCurrent ≠ "" ∧
    (∃ it ∈ (populateFilterMenu sampleEnv scienceCurrent).ui.groupFilterCombo.items,
      it.data = QVariant.string (currentFilterId scienceCurrent)) ∧
    (populateFilterMenu sampleEnv scienceCurrent).ui.groupFilterCombo.itemData
      (populateFilterMenu sampleEnv scienceCurrent).ui.groupFilterCombo.currentIndex
        = QVariant.string (currentFilterId scienceCurrent) :=
  ⟨by decide, by decide,
    (populateFilterMenu_restores sampleEnv scienceCurrent).1 (by decide) (by decide)⟩

/-- C13 as stated fails for an empty id: the current entry has the empty id,
the rebuilt box still has an entry with the empty id, and yet the current
entry afterwards is "all", at index 0. -/
theorem populateFilterMenu_empty_id_not_restored :
    (emptyIdCurrent.ui.groupFilterCombo.itemData emptyIdCurrent.ui.groupFilterCombo.currentIndex
      = QVariant.string "") ∧
    (∃ it ∈ (populateFilterMenu sampleEnv emptyIdCurrent).ui.groupFilterCombo.items,
      it.data = QVariant.string "") ∧
    (populateFilterMenu sampleEnv emptyIdCurrent).ui.groupFilterCombo.currentIndex = 0 ∧
    (populateFilterMenu sampleEnv emptyIdCurrent).ui.groupFilterCombo.itemData
      (populateFilterMenu sampleEnv emptyIdCurrent).ui.groupFilterCombo.currentIndex
        = QVariant.string "all" ∧
    ¬ ((∃ it ∈ (populateFilterMenu sampleEnv emptyIdCurrent).ui.groupFilterCombo.items,
        it.data = emptyIdCurrent.ui.groupFilterCombo.itemData
          emptyIdCurrent.ui.groupFilterCombo.currentIndex) →
      (populateFilterMenu sampleEnv emptyIdCurrent).ui.groupFilterCombo.itemData
        (populateFilterMenu sampleEnv emptyIdCurrent).ui.groupFilterCombo.currentIndex
          = emptyIdCurrent.ui.groupFilterCombo.itemData
            emptyIdCurrent.ui.groupFilterCombo.currentIndex) := by
  decide

/-! ### addSatellites -/

theorem GroupSet.mem_remove (s : GroupSet) (g x : String) :
    x ∈ GroupSet.remove s g ↔ x ∈ s ∧ x ≠ g := by
  simp [GroupSet.remove, List.mem_filter]

/-- The set of new ids holds the ids that occur in the list of new satellites. -/
theorem mem_newIds (newSatellites : List TleData) (x : String) :
    x ∈ newSatellites.foldl (fun s sat => GroupSet.insert s sat.id) [] ↔
      ∃ sat ∈ newSatellites, sat.id = x := by
  suffices h : ∀ acc : GroupSet,
      x ∈ newSatellites.foldl (fun s sat => GroupSet.insert s sat.id) acc ↔
        x ∈ acc ∨ ∃ sat ∈ newSatellites, sat.id = x by
    simpa using h []
  induction newSatellites with
  | nil => intro acc; simp
  | cons a rest ih =>
    intro acc
    rw [List.foldl_cons, ih, GroupSet.mem_insert]
    simp only [List.mem_cons, exists_eq_or_imp]
    constructor
    · rintro ((h | h) | h)
      · exact Or.inl h
      · exact Or.inr (Or.inl h.symm)
      · exact Or.inr (Or.inr h)
    · rintro (h | h | h)
      · exact Or.inl (Or.inl h)
      · exact Or.inl (Or.inr h.symm)
      · exact Or.inr h

/-- What `clearSelection` does: no row is selected afterwards; the rows, the
filter and the group filter box are as before and the trace only grows. -/
theorem clearSelection_frame (env : Env) (d : SatellitesDialog) :
    (clearSelection env d).ui.satellitesList.rows = d.ui.satellitesList.rows ∧
    (clearSelection env d).ui.satellitesList.selection = [] ∧
    (clearSelection env d).filterModel = d.filterModel ∧
    (clearSelection env d).ui.groupFilterCombo = d.ui.groupFilterCombo ∧
    ∃ t, (clearSelection env d).trace = d.trace ++ t := by
  unfold clearSelection
  split_ifs with h
  · refine ⟨rfl, ?_, rfl, rfl, [], (List.append_nil _).symm⟩
    exact List.isEmpty_iff.mp h
  · obtain ⟨h1, -, h3, h4, t, h5⟩ := updateSatelliteData_frame env (withSelection d [])
    rw [h1, h3, h4, h5]
    exact ⟨rfl, rfl, rfl, rfl, t, rfl⟩

/-- What `select` does: a row of the list that is not selected yet joins the
selection at its end; the rows, the filter and the group filter box are as
before and the trace only grows. -/
theorem select_frame (env : Env) (row : Nat) (d : SatellitesDialog)
    (hnew : row ∉ d.ui.satellitesList.selection)
    (hlt : row < d.ui.satellitesList.rows.length) :
    (select env row d).ui.satellitesList.rows = d.ui.satellitesList.rows ∧
    (select env row d).ui.satellitesList.selection = d.ui.satellitesList.selection ++ [row] ∧
    (select env row d).filterModel = d.filterModel ∧
    (select env row d).ui.groupFilterCombo = d.ui.groupFilterCombo ∧
    ∃ t, (select env row d).trace = d.trace ++ t := by
  unfold select
  have hc : ¬ (row ∈ d.ui.satellitesList.selection ∨ d.ui.satellitesList.rows.length ≤ row) := by
    rintro (h | h)
    · exact hnew h
    · omega
  rw [if_neg hc]
  obtain ⟨h1, -, h3, h4, t, h5⟩ := updateSatelliteData_frame env
    (withSelection d (d.ui.satellitesList.selection ++ [row]))
  rw [h1, h3, h4, h5]
  exact ⟨rfl, rfl, rfl, rfl, t, rfl⟩

/-- One turn of the second loop of `addSatellites` keeps its invariant, the
filter and the group filter box, and only adds to the trace. -/
theorem selectNewStep_inv (env : Env) (rows : List SatRow) (ids : GroupSet) (k : Nat)
    (st : SelectNew) (hk : k < rows.length) (hinv : SelectNewInv rows ids k st) :
    SelectNewInv rows ids (k + 1) (selectNewStep env st k) ∧
    (selectNewStep env st k).dialog.filterModel = st.dialog.filterModel ∧
    (selectNewStep env st k).dialog.ui.groupFilterCombo = st.dialog.ui.groupFilterCombo ∧
    ∃ t, (selectNewStep env st k).dialog.trace = st.dialog.trace ++ t := by
  obtain ⟨hrows, hsel, hpw, hids, hfirst⟩ := hinv
  have hid : (rowData st.dialog k).id = (rows.getD k SatRow.invalid).id := by
    unfold rowData
    rw [hrows]
  have hlast : ∀ (P : Nat → Prop), (∀ r2, r2 < k + 1 → P r2) ↔ (∀ r2, r2 < k → P r2) ∧ P k := by
    intro P
    constructor
    · intro h
      exact ⟨fun r2 h2 => h r2 (by omega), h k (by omega)⟩
    · rintro ⟨h1, h2⟩ r2 h3
      by_cases he : r2 = k
      · exact he ▸ h2
      · exact h1 r2 (by omega)
  unfold selectNewStep
  simp only [GroupSet.contains, decide_eq_true_eq]
  by_cases hc : (rowData st.dialog k).id ∈ st.newIds
  · rw [if_pos hc]
    have hknew : k ∉ st.dialog.ui.satellitesList.selection := by
      intro h
      have := ((hsel k).mp h).1
      omega
    obtain ⟨s1, s2, s3, s4, t, s5⟩ := select_frame env k st.dialog hknew (by rw [hrows]; exact hk)
    have hck := (hids _).mp (hid ▸ hc)
    refine ⟨⟨?_, ?_, ?_, ?_, ?_⟩, s3, s4, t, s5⟩
    · exact s1.trans hrows
    · intro r
      show r ∈ (select env k st.dialog).ui.satellitesList.selection ↔ _
      rw [s2, List.mem_append, List.mem_singleton, hsel r]
      constructor
      · rintro (⟨h1, h2⟩ | h1)
        · exact ⟨by omega, h2⟩
        · subst h1
          exact ⟨by omega, hck.1, fun r2 h2 => hck.2 r2 h2⟩
      · rintro ⟨h1, h2⟩
        by_cases he : r = k
        · exact Or.inr he
        · exact Or.inl ⟨by omega, h2⟩
    · show (select env k st.dialog).ui.satellitesList.selection.Pairwise _
      rw [s2, List.pairwise_append]
      refine ⟨hpw, List.pairwise_singleton _ _, ?_⟩
      intro a ha b hb
      rw [List.mem_singleton] at hb
      subst hb
      exact ((hsel a).mp ha).1
    · intro x
      show x ∈ GroupSet.remove st.newIds (rowData st.dialog k).id ↔ _
      rw [GroupSet.mem_remove, hids x, hid, hlast (fun r2 => (rows.getD r2 SatRow.invalid).id ≠ x)]
      constructor
      · rintro ⟨⟨h1, h2⟩, h3⟩
        exact ⟨h1, h2, fun h => h3 h.symm⟩
      · rintro ⟨h1, h2, h3⟩
        exact ⟨⟨h1, h2⟩, fun h => h3 h.symm⟩
    · show (if st.firstSelectedIndex.isSome = true then st.firstSelectedIndex else some k) =
        (select env k st.dialog).ui.satellitesList.selection.head?
      rw [s2, hfirst]
      cases st.dialog.ui.satellitesList.selection with
      | nil => rfl
      | cons a l => rfl
  · rw [if_neg hc]
    have hnot : ¬ FirstWithNewId rows ids k := by
      rintro ⟨h1, h2⟩
      exact hc (hid ▸ (hids _).mpr ⟨h1, h2⟩)
    refine ⟨⟨hrows, ?_, hpw, ?_, hfirst⟩, rfl, rfl, [], (List.append_nil _).symm⟩
    · intro r
      rw [hsel r]
      constructor
      · rintro ⟨h1, h2⟩
        exact ⟨by omega, h2⟩
      · rintro ⟨h1, h2⟩
        by_cases he : r = k
        · exact absurd (he ▸ h2) hnot
        · exact ⟨by omega, h2⟩
    · intro x
      rw [hids x, hlast (fun r2 => (rows.getD r2 SatRow.invalid).id ≠ x)]
      constructor
      · rintro ⟨h1, h2⟩
        refine ⟨h1, h2, ?_⟩
        intro he
        apply hc
        rw [hid, he]
        exact (hids x).mpr ⟨h1, h2⟩
      · rintro ⟨h1, h2, -⟩
        exact ⟨h1, h2⟩

/-- The second loop of `addSatellites`, run over the first `k` rows from a
dialog with no selection, establishes its invariant before row `k`. -/
theorem selectNew_loop (env : Env) (ids : GroupSet) (d0 : SatellitesDialog)
    (hsel : d0.ui.satellitesList.selection = []) (k : Nat)
    (hk : k ≤ d0.ui.satellitesList.rows.length) :
    SelectNewInv d0.ui.satellitesList.rows ids k
      ((List.range k).foldl (selectNewStep env) (SelectNew.mk d0 ids none)) ∧
    ((List.range k).foldl (selectNewStep env) (SelectNew.mk d0 ids none)).dialog.filterModel
      = d0.filterModel ∧
    ((List.range k).foldl (selectNewStep env)
      (SelectNew.mk d0 ids none)).dialog.ui.groupFilterCombo = d0.ui.groupFilterCombo ∧
    ∃ t, ((List.range k).foldl (selectNewStep env) (SelectNew.mk d0 ids none)).dialog.trace
      = d0.trace ++ t := by
  induction k with
  | zero =>
    refine ⟨⟨rfl, ?_, ?_, ?_, ?_⟩, rfl, rfl, [], (List.append_nil _).symm⟩
    · intro r
      show r ∈ d0.ui.satellitesList.selection ↔ _
      rw [hsel]
      simp
    · show d0.ui.satellitesList.selection.Pairwise _
      rw [hsel]
      exact List.Pairwise.nil
    · intro x
      show x ∈ ids ↔ _
      simp
    · show none = d0.ui.satellitesList.selection.head?
      rw [hsel]
      rfl
  | succ k ih =>
    obtain ⟨hinv, f1, f2, t, f3⟩ := ih (by omega)
    rw [List.range_succ, List.foldl_append, List.foldl_cons, List.foldl_nil]
    obtain ⟨hinv2, g1, g2, t2, g3⟩ := selectNewStep_inv env d0.ui.satellitesList.rows ids k _
      (by omega) hinv
    refine ⟨hinv2, g1.trans f1, g2.trans f2, t ++ t2, ?_⟩
    rw [g3, f3, List.append_assoc]

/-- An id that `findData` finds is carried by the entry at the index found,
which is an index of the box. -/
theorem findData_nonneg (c : QComboBox) (v : QVariant) (h : 0 ≤ c.findData v) :
    c.findData v < c.items.length ∧ c.itemData (c.findData v) = v := by
  by_cases hm : ∃ it ∈ c.items, it.data = v
  · exact (findData_of_mem c v hm).2
  · rw [findData_of_not_mem c v hm] at h
    omega

/-- The table of `filterListByGroup` assigns `SatNew` to "[newlyadded]". -/
theorem secondaryFilter_newlyadded (env : Env) :
    mapValue (secondaryFilter env.flag) "[newlyadded]" env.flag.SatNoFlags = env.flag.SatNew := by
  rfl

/-- What `filterListByGroup` does at an index whose entry is "[newlyadded]". -/
theorem filterListByGroup_newlyadded (env : Env) (index : Int) (d : SatellitesDialog)
    (h : 0 ≤ index)
    (hid : d.ui.groupFilterCombo.itemData index = QVariant.string "[newlyadded]") :
    (filterListByGroup env index d).filterModel = SecondaryFilters.mk "" env.flag.SatNew ∧
    (filterListByGroup env index d).ui.groupFilterCombo = d.ui.groupFilterCombo ∧
    (filterListByGroup env index d).ui.satellitesList.rows =
      (env.filterRows "" env.flag.SatNew d.plugin d.ui.satellitesList).rows ∧
    ∃ t, (filterListByGroup env index d).trace = d.trace ++ t := by
  obtain ⟨h1, -, h3, h4, -, t, h6⟩ := filterListByGroup_frame env index d h
  have hc : QString.contains (d.ui.groupFilterCombo.itemData index).toString "[" = true ∨
      (d.ui.groupFilterCombo.itemData index).toString = "all" := by
    rw [hid]
    exact Or.inl (by decide)
  rw [if_pos hc, hid] at h1
  have h1b : (filterListByGroup env index d).filterModel
      = SecondaryFilters.mk "" env.flag.SatNew := by
    rw [h1]
    show SecondaryFilters.mk ""
      (mapValue (secondaryFilter env.flag) "[newlyadded]" env.flag.SatNoFlags) = _
    rw [secondaryFilter_newlyadded]
  rw [h1b] at h4
  exact ⟨h1b, h3, h4, t, h6⟩

/-- What the re-loading part of `addSatellites` does when the group filter box
has an entry "[newlyadded]" and delivers its signals. -/
theorem showNewlyAdded_frame (env : Env) (d : SatellitesDialog)
    (hfound : 0 ≤ d.ui.groupFilterCombo.findData (QVariant.string "[newlyadded]"))
    (hsig : d.ui.groupFilterCombo.signalsBlocked = false) :
    currentFilterId (showNewlyAdded env d) = "[newlyadded]" ∧
    (showNewlyAdded env d).filterModel = SecondaryFilters.mk "" env.flag.SatNew ∧
    (showNewlyAdded env d).ui.satellitesList.rows.map (fun r => r.id) =
      (env.filterRows "" env.flag.SatNew d.plugin d.ui.satellitesList).rows.map
        (fun r => r.id) ∧
    ∃ t, (showNewlyAdded env d).trace = d.trace ++ t := by
  obtain ⟨hlt, hdata⟩ := findData_nonneg _ _ hfound
  unfold showNewlyAdded
  simp only
  by_cases hcur : d.ui.groupFilterCombo.currentIndex
      = d.ui.groupFilterCombo.findData (QVariant.string "[newlyadded]")
  · rw [if_pos hcur]
    obtain ⟨f1, f2, f3, t, f4⟩ := filterListByGroup_newlyadded env _ d hfound hdata
    refine ⟨?_, f1, by rw [f3], t, f4⟩
    unfold currentFilterId
    rw [f2, hcur, hdata]
    rfl
  · rw [if_neg hcur]
    unfold setGroupFilterIndex
    simp only [if_pos (And.intro hfound hlt)]
    have hs : (setGroupFilterCombo d { d.ui.groupFilterCombo with
        currentIndex := d.ui.groupFilterCombo.findData
          (QVariant.string "[newlyadded]") }).ui.groupFilterCombo.signalsBlocked = false := hsig
    have hch : (decide (d.ui.groupFilterCombo.currentIndex ≠
        d.ui.groupFilterCombo.findData (QVariant.string "[newlyadded]")) &&
        !(setGroupFilterCombo d { d.ui.groupFilterCombo with
          currentIndex := d.ui.groupFilterCombo.findData
            (QVariant.string "[newlyadded]") }).ui.groupFilterCombo.signalsBlocked) = true := by
      rw [hs]
      simp [hcur]
    rw [if_pos hch]
    have hdata2 : (setGroupFilterCombo d { d.ui.groupFilterCombo with
        currentIndex := d.ui.groupFilterCombo.findData
          (QVariant.string "[newlyadded]") }).ui.groupFilterCombo.itemData
          (d.ui.groupFilterCombo.findData (QVariant.string "[newlyadded]"))
        = QVariant.string "[newlyadded]" := hdata
    obtain ⟨f1, f2, f3, t, f4⟩ := filterListByGroup_newlyadded env _ _ hfound hdata2
    obtain ⟨g1, g2, -, g4, t2, g5⟩ := setRightSideToROMode_frame env
      (filterListByGroup env (d.ui.groupFilterCombo.findData (QVariant.string "[newlyadded]"))
        (setGroupFilterCombo d { d.ui.groupFilterCombo with
          currentIndex := d.ui.groupFilterCombo.findData (QVariant.string "[newlyadded]") }))
    refine ⟨?_, g1.trans f1, ?_, t ++ t2, ?_⟩
    · unfold currentFilterId
      rw [g2, f2]
      exact congrArg QVariant.toString hdata
    · rw [g4, f3]
      rfl
    · rw [g5, f4, List.append_assoc]
      rfl

/-- What the selecting part of `addSatellites` does: the rows stay, the
selected rows are, in increasing order, the rows that are the first with
their id among the new ids, and the view scrolls to the first of them or to
the top. -/
theorem selectNewSatellites_frame (env : Env) (newSatellites : List TleData)
    (d : SatellitesDialog) :
    (selectNewSatellites env newSatellites d).ui.satellitesList.rows
      = d.ui.satellitesList.rows ∧
    (∀ r, r ∈ (selectNewSatellites env newSatellites d).ui.satellitesList.selection ↔
      r < d.ui.satellitesList.rows.length ∧
      FirstWithNewId d.ui.satellitesList.rows
        (newSatellites.foldl (fun s sat => GroupSet.insert s sat.id) []) r) ∧
    (selectNewSatellites env newSatellites d).ui.satellitesList.selection.Pairwise
      (fun a b => a < b) ∧
    ((selectNewSatellites env newSatellites d).ui.satellitesList.selection = [] →
      (selectNewSatellites env newSatellites d).ui.satellitesList.scroll
        = ScrollRequest.scrollToTop) ∧
    (∀ first,
      (selectNewSatellites env newSatellites d).ui.satellitesList.selection.head? = some first →
      (selectNewSatellites env newSatellites d).ui.satellitesList.scroll
        = ScrollRequest.scrollTo first ScrollHint.PositionAtTop) ∧
    (selectNewSatellites env newSatellites d).filterModel = d.filterModel ∧
    (selectNewSatellites env newSatellites d).ui.groupFilterCombo = d.ui.groupFilterCombo ∧
    ∃ t, (selectNewSatellites env newSatellites d).trace = d.trace ++ t := by
  obtain ⟨c1, c2, c3, c4, t, c5⟩ := clearSelection_frame env d
  have key := selectNew_loop env (newSatellites.foldl (fun s sat => GroupSet.insert s sat.id) [])
    (clearSelection env d) c2 (clearSelection env d).ui.satellitesList.rows.length le_rfl
  unfold selectNewSatellites
  simp only
  revert key
  generalize (List.range (clearSelection env d).ui.satellitesList.rows.length).foldl
    (selectNewStep env) (SelectNew.mk (clearSelection env d)
      (newSatellites.foldl (fun s sat => GroupSet.insert s sat.id) []) none) = st
  rw [c1]
  rintro ⟨⟨i1, i2, i3, -, i5⟩, k1, k2, t2, k3⟩
  rcases st with ⟨dlg, ids, fsi⟩
  simp only at i1 i2 i3 i5 k1 k2 k3
  cases fsi with
  | none =>
    refine ⟨i1, i2, i3, fun _ => rfl, ?_, k1.trans c3, k2.trans c4, t ++ t2, ?_⟩
    · intro first hf
      have hh : dlg.ui.satellitesList.selection.head? = some first := hf
      rw [← i5] at hh
      cases hh
    · show dlg.trace = _
      rw [k3, c5, List.append_assoc]
  | some f =>
    refine ⟨i1, i2, i3, ?_, ?_, k1.trans c3, k2.trans c4, t ++ t2, ?_⟩
    · intro hnil
      have hh : dlg.ui.satellitesList.selection = [] := hnil
      rw [hh] at i5
      cases i5
    · intro first hf
      have hh : dlg.ui.satellitesList.selection.head? = some first := hf
      rw [← i5] at hh
      cases hh
      rfl
    · show dlg.trace = _
      rw [k3, c5, List.append_assoc]

/-- After `populateFilterMenu`, from every state of the dialog, the group
filter box has an entry "[newlyadded]" and delivers its signals. -/
theorem populateFilterMenu_ready (env : Env) (d : SatellitesDialog) :
    0 ≤ (populateFilterMenu env d).ui.groupFilterCombo.findData
      (QVariant.string "[newlyadded]") ∧
    (populateFilterMenu env d).ui.groupFilterCombo.signalsBlocked = false := by
  rw [populateFilterMenu_eq env d]
  refine ⟨?_, rfl⟩
  apply (findData_of_mem _ _ _).1
  refine ⟨⟨env.q_ "[all newly added]", QVariant.string "[newlyadded]"⟩, ?_, rfl⟩
  show _ ∈ (repopulatedCombo env d).items
  have hitems : (repopulatedCombo env d).items =
      (specialFilterItems env).reverse ++ env.sortCombo
        (d.plugin.groupIdList.map fun group => (⟨env.q_ group, .string group⟩ : QComboItem)) :=
    foldl_insert_front _ _
  rw [hitems]
  apply List.mem_append_left
  rw [List.mem_reverse]
  simp [specialFilterItems]

/-- C14: when the group filter box has an entry "[newlyadded]" and delivers
its signals, as it does once `populateFilterMenu` has run, then for every list
`L` of new satellites `addSatellites` first asks the plugin for `add(L)` and
then for `saveCatalog`; afterwards the current entry of the group filter box
is "[newlyadded]", the secondary filter of the list is no group with the flag
`SatNew`, and the rows of the list are, id by id, the rows that pass this
filter over the plugin as it is after the two requests.  A row is selected
exactly when its id occurs in `L` and no earlier row carries the same id; the
selected rows are reported in increasing order; the view scrolls to the first
of them with `PositionAtTop`, or to the top when no row is selected. -/
theorem addSatellites_spec (env : Env) (L : List TleData) (d : SatellitesDialog)
    (hfound : 0 ≤ d.ui.groupFilterCombo.findData (QVariant.string "[newlyadded]"))
    (hsig : d.ui.groupFilterCombo.signalsBlocked = false) :
    (∃ t, (addSatellites env L d).trace
      = d.trace ++ Effect.add L :: Effect.saveCatalog :: t) ∧
    currentFilterId (addSatellites env L d) = "[newlyadded]" ∧
    (addSatellites env L d).filterModel = SecondaryFilters.mk "" env.flag.SatNew ∧
    (addSatellites env L d).ui.satellitesList.rows.map (fun r => r.id) =
      (env.filterRows "" env.flag.SatNew
        (env.exec Effect.saveCatalog (env.exec (Effect.add L) d.plugin))
        d.ui.satellitesList).rows.map (fun r => r.id) ∧
    (∀ r, r ∈ (addSatellites env L d).ui.satellitesList.selection ↔
      r < (addSatellites env L d).ui.satellitesList.rows.length ∧
      (∃ sat ∈ L, sat.id = (rowData (addSatellites env L d) r).id) ∧
      ∀ r2, r2 < r →
        (rowData (addSatellites env L d) r2).id ≠ (rowData (addSatellites env L d) r).id) ∧
    (addSatellites env L d).ui.satellitesList.selection.Pairwise (fun a b => a < b) ∧
    ((addSatellites env L d).ui.satellitesList.selection = [] →
      (addSatellites env L d).ui.satellitesList.scroll = ScrollRequest.scrollToTop) ∧
    (∀ first, (addSatellites env L d).ui.satellitesList.selection.head? = some first →
      (addSatellites env L d).ui.satellitesList.scroll
        = ScrollRequest.scrollTo first ScrollHint.PositionAtTop) := by
  have hfound1 : 0 ≤ (saveSatellites env (call env (Effect.add L) d)).ui.groupFilterCombo.findData
      (QVariant.string "[newlyadded]") := hfound
  have hsig1 : (saveSatellites env
      (call env (Effect.add L) d)).ui.groupFilterCombo.signalsBlocked = false := hsig
  obtain ⟨a1, a2, a3, t, a4⟩ := showNewlyAdded_frame env
    (saveSatellites env (call env (Effect.add L) d)) hfound1 hsig1
  obtain ⟨b1, b2, b3, b4, b5, b6, b7, t2, b8⟩ := selectNewSatellites_frame env L
    (showNewlyAdded env (saveSatellites env (call env (Effect.add L) d)))
  have he : addSatellites env L d = selectNewSatellites env L
      (showNewlyAdded env (saveSatellites env (call env (Effect.add L) d))) := rfl
  rw [he]
  refine ⟨⟨t ++ t2, ?_⟩, ?_, b6.trans a2, ?_, ?_, b3, b4, b5⟩
  · rw [b8, a4]
    show (d.trace ++ [Effect.add L] ++ [Effect.saveCatalog]) ++ t ++ t2 = _
    simp
  · unfold currentFilterId
    rw [b7]
    exact a1
  · rw [b1, a3]
    rfl
  · intro r
    rw [b2 r, b1]
    unfold FirstWithNewId rowData
    rw [mem_newIds, b1]

/-- Witness of C14: the populated dialog shows four rows, of which the first
three are new, with the fourth selected; the satellites "2", "1" and "9" are
added.  The list then shows the three new rows, the rows 0 and 1 are selected
(the first row with id "1" and the row with id "2"; no row has id "9"), and the
view scrolls to row 0. -/
theorem addSatellites_spec_witness :
    0 ≤ populated.ui.groupFilterCombo.findData (QVariant.string "[newlyadded]") ∧
    populated.ui.groupFilterCombo.signalsBlocked = false ∧
    (∃ t, (addSatellites sampleEnv threeNew populated).trace
      = populated.trace ++ Effect.add threeNew :: Effect.saveCatalog :: t) ∧
    currentFilterId (addSatellites sampleEnv threeNew populated) = "[newlyadded]" ∧
    (addSatellites sampleEnv threeNew populated).filterModel
      = SecondaryFilters.mk "" sampleEnv.flag.SatNew ∧
    (addSatellites sampleEnv threeNew populated).ui.satellitesList.selection.Pairwise
      (fun a b => a < b) ∧
    (addSatellites sampleEnv threeNew populated).ui.satellitesList.scroll
      = ScrollRequest.scrollTo 0 ScrollHint.PositionAtTop ∧
    (addSatellites sampleEnv threeNew populated).ui.satellitesList.rows.map (fun r => r.id)
      = ["1", "2", "1"] ∧
    (addSatellites sampleEnv threeNew populated).ui.satellitesList.selection = [0, 1] :=
  ⟨by decide, by decide,
    (addSatellites_spec sampleEnv threeNew populated (by decide) (by decide)).1,
    (addSatellites_spec sampleEnv threeNew populated (by decide) (by decide)).2.1,
    (addSatellites_spec sampleEnv threeNew populated (by decide) (by decide)).2.2.1,
    (addSatellites_spec sampleEnv threeNew populated (by decide) (by decide)).2.2.2.2.2.1,
    (addSatellites_spec sampleEnv threeNew populated (by decide) (by decide)).2.2.2.2.2.2.2 0
      (by decide),
    by decide, by decide⟩

end SatellitesDialog

end Stellarium
